import Mathlib

/-!
# EpiWatch: windowing, rolling confidence and alert state machine

A shallow embedding of `src/main.cpp` (the Arduino sketch of the EpiWatch
wearable) and the properties of its core: the feature window buffer, the
rolling confidence history, and the alert state machine.

Conventions of the embedding.

* `float` values are exact rationals (`ℚ`) in `State`: an idealisation. The
  part of the sketch whose outcome depends on rounding (the average of the
  confidence history and its comparison with the threshold) is embedded a
  second time in IEEE 754 binary32, in the definitions ending in `_f32`.
* The global variables of the sketch are the fields of `State`; every function
  of the sketch is a function `State → State`.
* The `int` counters `feature_ix` and `confidence_index` start at `0` and are
  only incremented, reduced modulo a positive constant, or reset to `0`; they
  are natural numbers here.
* Side effects on the outside world (pin writes, diagnostic prints, sensor
  reads, classifier calls, delays) are appended to the field `trace`, in
  program order. The levels of the two output pins are state fields as well.
* Everything the sketch obtains from the outside in one call of `loop()`
  (the two readings of `millis()`, the sensor event, the classifier) is an
  argument of `loop`.
* Constants that come from headers outside the sources are the fields of
  `Config`.
-/

namespace EpiWatch

/-! ## Constants -/

/-- Compile-time constants taken from headers that are not among the sources:
the window length, the number of labels, the value of the success code of the
classifier, and the width in bits of `unsigned long`. -/
structure Config where
  EI_CLASSIFIER_DSP_INPUT_FRAME_SIZE : Nat
  EI_CLASSIFIER_LABEL_COUNT : Nat
  EI_IMPULSE_OK : Int
  ULONG_BITS : Nat
deriving DecidableEq

/-- Sampling interval in milliseconds: `const unsigned long sampleRate = 23`. -/
def sampleRate : Nat := 23

/-- Pin of the alert LED: `#define ALERT_PIN 2`. -/
def ALERT_PIN : Nat := 2

/-- Pin of the buzzer: `#define BUZZER_PIN 23`. -/
def BUZZER_PIN : Nat := 23

/-- Length of the confidence history: `#define CONFIDENCE_SAMPLES 5`. -/
def CONFIDENCE_SAMPLES : Nat := 5

/-- Arduino level `HIGH`. -/
def HIGH : Bool := true

/-- Arduino level `LOW`. -/
def LOW : Bool := false

/-! ## Data -/

/-- Error code returned by `run_classifier`. -/
abbrev EI_IMPULSE_ERROR := Int

/-- One entry of `result.classification`. -/
structure ei_impulse_result_classification_t where
  label : String
  value : ℚ
deriving DecidableEq

/-- The timing part `result.timing` of a classification result. -/
structure ei_impulse_result_timing_t where
  dsp : Int
  classification : Int
deriving DecidableEq

/-- The classification result filled in by `run_classifier`. -/
structure ei_impulse_result_t where
  classification : List ei_impulse_result_classification_t
  timing : ei_impulse_result_timing_t
deriving DecidableEq

/-- The signal handed to the classifier: a length and a read callback
`get_data offset length`. -/
structure signal_t where
  total_length : Nat
  get_data : Nat → Nat → List ℚ

/-- The external classifier `run_classifier(&signal, &result, debug)`: it returns
an error code and the result it filled in. -/
abbrev Classifier := signal_t → Bool → EI_IMPULSE_ERROR × ei_impulse_result_t

/-- The acceleration or the gyro part of a sensor event. -/
structure sensors_vec_t where
  x : ℚ
  y : ℚ
  z : ℚ
deriving DecidableEq

/-- Diagnostic messages, one constructor per format string of the sketch. -/
inductive Msg where
  | mpu_not_found
  | banner
  | model_name
  | compiled
  | threshold (t : ℚ)
  | confidence_samples (n : Nat)
  | ready
  | seizure_detected
  | alert_stopped
  | classifier_failed (res : EI_IMPULSE_ERROR)
  | predictions (dsp : Int) (nn : Int)
  | label_value (label : String) (value : ℚ)
  | newline
  | average (n : Nat) (avg : ℚ)
deriving DecidableEq

/-- Effects on the outside world, in program order. -/
inductive Event where
  | pinMode (pin : Nat)
  | digitalWrite (pin : Nat) (level : Bool)
  | print (m : Msg)
  | getEvent
  | run_classifier
  | delay (ms : Nat)
deriving DecidableEq

/-- The global variables of the sketch, the levels of the two output pins, and
the trace of effects. -/
structure State where
  lastTime : Nat
  debug_nn : Bool
  features : List ℚ
  feature_ix : Nat
  alert_active : Bool
  seizure_threshold : ℚ
  confidence_history : List ℚ
  confidence_index : Nat
  confidence_buffer_full : Bool
  level_ALERT_PIN : Bool
  level_BUZZER_PIN : Bool
  trace : List Event
deriving DecidableEq

/-- What one call of `loop()` obtains from the outside: the value of `millis()`
in the condition, the sensor event (`a.acceleration`, `g.gyro`), the classifier,
and the value of `millis()` stored in `lastTime`. -/
structure LoopEnv where
  millis_cond : Nat
  a_acceleration : sensors_vec_t
  g_gyro : sensors_vec_t
  run_classifier : Classifier
  millis_last : Nat

/-! ## The sketch -/

/-- The state at power-on: the static initialisers of the globals. The levels
of the pins are whatever the hardware has. The threshold is the literal `0.7`
as an exact rational; the `float` that the sketch stores is
`startup_f32.seizure_threshold`, of value `11744051 / 16777216`. -/
def power_on (cfg : Config) (alert_level buzzer_level : Bool) : State :=
  { lastTime := 0
    debug_nn := false
    features := List.replicate cfg.EI_CLASSIFIER_DSP_INPUT_FRAME_SIZE 0
    feature_ix := 0
    alert_active := false
    seizure_threshold := 7 / 10
    confidence_history := List.replicate CONFIDENCE_SAMPLES 0
    confidence_index := 0
    confidence_buffer_full := false
    level_ALERT_PIN := alert_level
    level_BUZZER_PIN := buzzer_level
    trace := [] }

/-- The effect `e` happens. -/
def emit (e : Event) (s : State) : State :=
  { s with trace := s.trace ++ [e] }

/-- Prints: `ei_printf` and `Serial.println`. -/
def ei_printf (m : Msg) (s : State) : State :=
  emit (Event.print m) s

/-- Arduino `digitalWrite(pin, level)`. -/
def digitalWrite (pin : Nat) (level : Bool) (s : State) : State :=
  let s := emit (Event.digitalWrite pin level) s
  if pin = ALERT_PIN then { s with level_ALERT_PIN := level }
  else if pin = BUZZER_PIN then { s with level_BUZZER_PIN := level }
  else s

/-- The function `setup()`; `mpu_begin` is the result of `mpu.begin()`. The
result is `none` when `setup()` never returns (the sensor was not found and the
sketch idles forever). The wait for the serial port is taken to end; opening
the serial port and configuring the sensor change no variable of the sketch and
are left out. -/
def setup (mpu_begin : Bool) (s : State) : Option State :=
  let s := emit (Event.pinMode ALERT_PIN) s
  let s := emit (Event.pinMode BUZZER_PIN) s
  let s := digitalWrite ALERT_PIN LOW s
  let s := digitalWrite BUZZER_PIN LOW s
  if !mpu_begin then
    let _s := ei_printf Msg.mpu_not_found s
    none
  else
    let s := ei_printf Msg.banner s
    let s := ei_printf Msg.model_name s
    let s := ei_printf Msg.compiled s
    let s := ei_printf (Msg.threshold s.seizure_threshold) s
    let s := ei_printf (Msg.confidence_samples CONFIDENCE_SAMPLES) s
    let s := ei_printf Msg.ready s
    some s

/-- The function `trigger_alert()`. -/
def trigger_alert (s : State) : State :=
  let s := { s with alert_active := true }
  let s := digitalWrite ALERT_PIN HIGH s
  let s := digitalWrite BUZZER_PIN HIGH s
  ei_printf Msg.seizure_detected s

/-- The function `stop_alert()`. -/
def stop_alert (s : State) : State :=
  let s := { s with alert_active := false }
  let s := digitalWrite ALERT_PIN LOW s
  let s := digitalWrite BUZZER_PIN LOW s
  ei_printf Msg.alert_stopped s

/-- The function `get_feature_data(offset, length, out_ptr)`: the values copied
to `out_ptr`, read from the array `features`. -/
def get_feature_data (features : List ℚ) (offset length : Nat) : List ℚ :=
  (features.drop offset).take length

/-- The function `calculate_average_confidence()`, with exact sums and an exact
quotient; `calculate_average_confidence_f32` is the same function with the
rounding of binary32. -/
def calculate_average_confidence (s : State) : ℚ :=
  if !s.confidence_buffer_full && decide (s.confidence_index < CONFIDENCE_SAMPLES) then
    0
  else
    let samples_to_use : Nat :=
      if s.confidence_buffer_full then CONFIDENCE_SAMPLES else s.confidence_index
    let sum : ℚ :=
      (List.range samples_to_use).foldl (fun sum i => sum + s.confidence_history.getD i 0) 0
    sum / (samples_to_use : ℚ)

/-- The function `run_inference()`. -/
def run_inference (cfg : Config) (run_classifier : Classifier) (s : State) : State :=
  let features_signal : signal_t :=
    { total_length := cfg.EI_CLASSIFIER_DSP_INPUT_FRAME_SIZE
      get_data := get_feature_data s.features }
  let s := emit Event.run_classifier s
  let out := run_classifier features_signal s.debug_nn
  let res := out.1
  let result := out.2
  if res ≠ cfg.EI_IMPULSE_OK then
    ei_printf (Msg.classifier_failed res) s
  else
    let s := ei_printf (Msg.predictions result.timing.dsp result.timing.classification) s
    let acc : State × ℚ :=
      (List.range cfg.EI_CLASSIFIER_LABEL_COUNT).foldl
        (fun (acc : State × ℚ) ix =>
          let entry := result.classification.getD ix ⟨"", 0⟩
          (ei_printf (Msg.label_value entry.label entry.value) acc.1,
            if entry.label = "seizure" then entry.value else acc.2))
        (s, 0)
    let s := acc.1
    let seizure_confidence := acc.2
    let s := ei_printf Msg.newline s
    let s := { s with
      confidence_history := s.confidence_history.set s.confidence_index seizure_confidence }
    let s := { s with confidence_index := (s.confidence_index + 1) % CONFIDENCE_SAMPLES }
    let s := if s.confidence_index = 0 then { s with confidence_buffer_full := true } else s
    let avg_confidence := calculate_average_confidence s
    let s := ei_printf
      (Msg.average (if s.confidence_buffer_full then CONFIDENCE_SAMPLES else s.confidence_index)
        avg_confidence) s
    if avg_confidence > s.seizure_threshold ∧ s.alert_active = false then
      trigger_alert s
    else if avg_confidence ≤ s.seizure_threshold ∧ s.alert_active = true then
      stop_alert s
    else
      s

/-- Unsigned subtraction `a - b` on `w`-bit machine integers. -/
def usub (w a b : Nat) : Nat :=
  (a % 2 ^ w + (2 ^ w - b % 2 ^ w)) % 2 ^ w

/-- The function `loop()`. -/
def loop (cfg : Config) (env : LoopEnv) (s : State) : State :=
  let s :=
    if usub cfg.ULONG_BITS env.millis_cond s.lastTime ≥ sampleRate then
      let s := emit Event.getEvent s
      let s :=
        if s.feature_ix < cfg.EI_CLASSIFIER_DSP_INPUT_FRAME_SIZE then
          let s := { s with features := s.features.set s.feature_ix env.a_acceleration.x,
                            feature_ix := s.feature_ix + 1 }
          let s := { s with features := s.features.set s.feature_ix env.a_acceleration.y,
                            feature_ix := s.feature_ix + 1 }
          let s := { s with features := s.features.set s.feature_ix env.a_acceleration.z,
                            feature_ix := s.feature_ix + 1 }
          let s := { s with features := s.features.set s.feature_ix env.g_gyro.x,
                            feature_ix := s.feature_ix + 1 }
          let s := { s with features := s.features.set s.feature_ix env.g_gyro.y,
                            feature_ix := s.feature_ix + 1 }
          let s := { s with features := s.features.set s.feature_ix env.g_gyro.z,
                            feature_ix := s.feature_ix + 1 }
          s
        else s
      let s :=
        if s.feature_ix ≥ cfg.EI_CLASSIFIER_DSP_INPUT_FRAME_SIZE then
          let s := run_inference cfg env.run_classifier s
          { s with feature_ix := 0 }
        else s
      { s with lastTime := env.millis_last % 2 ^ cfg.ULONG_BITS }
    else s
  emit (Event.delay 1) s

/-! ## Views of `run_inference` used in the statements -/

/-- The signal that `run_inference` builds (lines 95 to 97). -/
def features_signal (cfg : Config) (s : State) : signal_t :=
  { total_length := cfg.EI_CLASSIFIER_DSP_INPUT_FRAME_SIZE
    get_data := get_feature_data s.features }

/-- What the classifier returns when `run_inference` calls it in state `s`
(line 99). -/
def classifier_output (cfg : Config) (rc : Classifier) (s : State) :
    EI_IMPULSE_ERROR × ei_impulse_result_t :=
  rc (features_signal cfg s) s.debug_nn

/-- The value of `seizure_confidence` after the label loop of `run_inference`
(lines 108 to 115), for a given classification result. -/
def seizure_confidence (cfg : Config) (result : ei_impulse_result_t) : ℚ :=
  (List.range cfg.EI_CLASSIFIER_LABEL_COUNT).foldl
    (fun c ix =>
      if (result.classification.getD ix ⟨"", 0⟩).label = "seizure"
      then (result.classification.getD ix ⟨"", 0⟩).value else c)
    0

/-- The prints of the label loop of `run_inference`. -/
def label_events (cfg : Config) (result : ei_impulse_result_t) : List Event :=
  (List.range cfg.EI_CLASSIFIER_LABEL_COUNT).map
    (fun ix =>
      Event.print (Msg.label_value (result.classification.getD ix ⟨"", 0⟩).label
        (result.classification.getD ix ⟨"", 0⟩).value))

/-- The record step of `run_inference` (lines 118 to 123). -/
def record_confidence (c : ℚ) (s : State) : State :=
  let s := { s with confidence_history := s.confidence_history.set s.confidence_index c }
  let s := { s with confidence_index := (s.confidence_index + 1) % CONFIDENCE_SAMPLES }
  if s.confidence_index = 0 then { s with confidence_buffer_full := true } else s

/-- The alert evaluation of `run_inference` (lines 129 to 133). -/
def alert_evaluation (avg_confidence : ℚ) (s : State) : State :=
  if avg_confidence > s.seizure_threshold ∧ s.alert_active = false then
    trigger_alert s
  else if avg_confidence ≤ s.seizure_threshold ∧ s.alert_active = true then
    stop_alert s
  else
    s

/-- A classifier that succeeds with the given result. -/
def ok_classifier (cfg : Config) (result : ei_impulse_result_t) : Classifier :=
  fun _ _ => (cfg.EI_IMPULSE_OK, result)

/-- Successive successful calls of `run_inference`, one per classification
result. -/
def windows (cfg : Config) (results : List ei_impulse_result_t) (s : State) : State :=
  results.foldl (fun s result => run_inference cfg (ok_classifier cfg result) s) s

/-- The averages printed by `run_inference`, in order. -/
def averages (tr : List Event) : List ℚ :=
  tr.filterMap (fun e =>
    match e with
    | Event.print (Msg.average _ avg) => some avg
    | _ => none)

/-- The average that a successful `run_inference` computes at line 125 when the
label loop yields the confidence `c`. -/
def window_average (c : ℚ) (s : State) : ℚ :=
  calculate_average_confidence (record_confidence c s)

/-- The effects of a successful `run_inference` up to and including the print of
the average (lines 99 to 127). -/
def window_events (cfg : Config) (result : ei_impulse_result_t) (s : State) : List Event :=
  [Event.run_classifier,
    Event.print (Msg.predictions result.timing.dsp result.timing.classification)]
  ++ label_events cfg result
  ++ [Event.print Msg.newline,
      Event.print (Msg.average
        (if (record_confidence 0 s).confidence_buffer_full then CONFIDENCE_SAMPLES
          else (record_confidence 0 s).confidence_index)
        (window_average (seizure_confidence cfg result) s))]

/-- The state of a successful `run_inference` at line 128, just before the alert
evaluation. -/
def before_evaluation (cfg : Config) (result : ei_impulse_result_t) (s : State) : State :=
  { record_confidence (seizure_confidence cfg result) s with
    trace := s.trace ++ window_events cfg result s }

/-- Number of calls of `trigger_alert` in a trace: each call prints its notice
once, and nothing else prints it. -/
def trigger_alert_calls (tr : List Event) : Nat :=
  tr.count (Event.print Msg.seizure_detected)

/-- Number of calls of `stop_alert` in a trace: each call prints its notice once,
and nothing else prints it. -/
def stop_alert_calls (tr : List Event) : Nat :=
  tr.count (Event.print Msg.alert_stopped)

/-- Number of writes of `level` to `pin` in a trace. -/
def pin_writes (pin : Nat) (level : Bool) (tr : List Event) : Nat :=
  tr.count (Event.digitalWrite pin level)

/-- Number of `digitalWrite` calls in a trace, whatever the pin and level. -/
def output_writes (tr : List Event) : Nat :=
  tr.countP (fun e =>
    match e with
    | Event.digitalWrite _ _ => true
    | _ => false)

/-! ## Views of `loop` used in the statements -/

/-- The condition of `loop()` (line 159): at least `sampleRate` milliseconds have
elapsed since `lastTime`, in unsigned arithmetic. -/
def due (cfg : Config) (env : LoopEnv) (s : State) : Prop :=
  usub cfg.ULONG_BITS env.millis_cond s.lastTime ≥ sampleRate

instance (cfg : Config) (env : LoopEnv) (s : State) : Decidable (due cfg env s) :=
  inferInstanceAs (Decidable (usub cfg.ULONG_BITS env.millis_cond s.lastTime ≥ sampleRate))

/-- The append step of `loop()` (lines 163 to 170): the guarded block that stores
one sample. -/
def append_sample (cfg : Config) (env : LoopEnv) (s : State) : State :=
  if s.feature_ix < cfg.EI_CLASSIFIER_DSP_INPUT_FRAME_SIZE then
    let s := { s with features := s.features.set s.feature_ix env.a_acceleration.x,
                      feature_ix := s.feature_ix + 1 }
    let s := { s with features := s.features.set s.feature_ix env.a_acceleration.y,
                      feature_ix := s.feature_ix + 1 }
    let s := { s with features := s.features.set s.feature_ix env.a_acceleration.z,
                      feature_ix := s.feature_ix + 1 }
    let s := { s with features := s.features.set s.feature_ix env.g_gyro.x,
                      feature_ix := s.feature_ix + 1 }
    let s := { s with features := s.features.set s.feature_ix env.g_gyro.y,
                      feature_ix := s.feature_ix + 1 }
    let s := { s with features := s.features.set s.feature_ix env.g_gyro.z,
                      feature_ix := s.feature_ix + 1 }
    s
  else s

/-- The state of a due call of `loop()` at line 172, where the window is tested
for being full: the sensor has been read and the append step has run. -/
def at_full_test (cfg : Config) (env : LoopEnv) (s : State) : State :=
  append_sample cfg env (emit Event.getEvent s)

/-- The window is detected as full in this call of `loop()`: the call is due and
the test `feature_ix >= EI_CLASSIFIER_DSP_INPUT_FRAME_SIZE` of line 172 holds. -/
def detects_full (cfg : Config) (env : LoopEnv) (s : State) : Prop :=
  due cfg env s ∧ (at_full_test cfg env s).feature_ix ≥ cfg.EI_CLASSIFIER_DSP_INPUT_FRAME_SIZE

instance (cfg : Config) (env : LoopEnv) (s : State) : Decidable (detects_full cfg env s) :=
  inferInstanceAs (Decidable (due cfg env s ∧
    (at_full_test cfg env s).feature_ix ≥ cfg.EI_CLASSIFIER_DSP_INPUT_FRAME_SIZE))

/-- The six values of one sample, in the order in which `loop()` stores them. -/
def sample_values (env : LoopEnv) : List ℚ :=
  [env.a_acceleration.x, env.a_acceleration.y, env.a_acceleration.z,
    env.g_gyro.x, env.g_gyro.y, env.g_gyro.z]

/-- Successive calls of `loop()`, one per environment. -/
def run (cfg : Config) (envs : List LoopEnv) (s : State) : State :=
  envs.foldl (fun s env => loop cfg env s) s

/-- Every call of `loop()` in the run is due. -/
def all_due (cfg : Config) : List LoopEnv → State → Prop
  | [], _ => True
  | env :: envs, s => due cfg env s ∧ all_due cfg envs (loop cfg env s)

/-- The state `s` is reachable: `setup()` completed from power-on, followed by
any number of calls of `loop()`. -/
def Reachable (cfg : Config) (s : State) : Prop :=
  ∃ (alert_level buzzer_level : Bool) (s0 : State) (envs : List LoopEnv),
    setup true (power_on cfg alert_level buzzer_level) = some s0 ∧ s = run cfg envs s0

/-- Number of invocations of the classifier in a trace. -/
def classifier_calls (tr : List Event) : Nat :=
  tr.count Event.run_classifier

/-- Positions of `features` that the append step stores to in state `s`. -/
def stored_positions (cfg : Config) (s : State) : List Nat :=
  if s.feature_ix < cfg.EI_CLASSIFIER_DSP_INPUT_FRAME_SIZE then
    [s.feature_ix, s.feature_ix + 1, s.feature_ix + 2, s.feature_ix + 3, s.feature_ix + 4,
      s.feature_ix + 5]
  else []

/-- Positions stored to since the last reset of the write index, once the append
step of this call of `loop()` has run (all of `written` when the call is not
due). `written` lists the positions stored to since the last reset before the
call. -/
def written_at_full_test (cfg : Config) (env : LoopEnv) (s : State) (written : List Nat) :
    List Nat :=
  if due cfg env s then written ++ stored_positions cfg s else written

/-- One call of `loop()` together with the positions stored to since the last
reset of the write index: the reset of line 174 empties the list. -/
def loop_written (cfg : Config) (env : LoopEnv) (sw : State × List Nat) : State × List Nat :=
  (loop cfg env sw.1,
    if detects_full cfg env sw.1 then [] else written_at_full_test cfg env sw.1 sw.2)

/-- Successive calls of `loop()` together with the positions stored to since the
last reset of the write index. -/
def run_written (cfg : Config) (envs : List LoopEnv) (sw : State × List Nat) :
    State × List Nat :=
  envs.foldl (fun sw env => loop_written cfg env sw) sw

/-! ## Runs of windows above the threshold -/

/-- On each window of the run the average computed by `run_inference` is above
the threshold. -/
def all_above (cfg : Config) : List ei_impulse_result_t → State → Prop
  | [], _ => True
  | result :: results, s =>
    window_average (seizure_confidence cfg result) s > s.seizure_threshold ∧
      all_above cfg results (run_inference cfg (ok_classifier cfg result) s)

/-! ## The alert state machine as the specification words it -/

/-- The step function of the alert state machine, following the specification:
`IDLE → ALERT` when the average is above the threshold, `ALERT → IDLE` when it
is at or below the threshold, no transition otherwise. The state is `true` for
`ALERT` and `false` for `IDLE`. -/
def spec_alert_step (alert : Bool) (avg threshold : ℚ) : Bool :=
  if alert = false ∧ avg > threshold then true
  else if alert = true ∧ avg ≤ threshold then false
  else alert

/-! ## The rolling average as the specification words it -/

/-- The value of `average()` after the `k`-th recording of the sequence `cs`,
following the specification: `0` for the first `N - 1` recordings, and from the
`N`-th on the arithmetic mean `(c_{k-N+1} + ... + c_k) / N` of the `N` most
recent recordings, with `N = CONFIDENCE_SAMPLES`. -/
def spec_average (cs : List ℚ) (k : Nat) : ℚ :=
  if k < CONFIDENCE_SAMPLES then 0
  else ((cs.take k).drop (k - CONFIDENCE_SAMPLES)).sum / (CONFIDENCE_SAMPLES : ℚ)

/-- The last `CONFIDENCE_SAMPLES` values of the zero-filled history followed by
the recordings `cs`, oldest first. -/
def last_window (cs : List ℚ) : List ℚ :=
  (List.replicate CONFIDENCE_SAMPLES 0 ++ cs).drop cs.length

/-- One when the specification's machine goes `IDLE → ALERT` on this average,
zero otherwise. -/
def spec_rise (alert : Bool) (avg threshold : ℚ) : Nat :=
  if alert = false ∧ avg > threshold then 1 else 0

/-- One when the specification's machine goes `ALERT → IDLE` on this average,
zero otherwise. -/
def spec_fall (alert : Bool) (avg threshold : ℚ) : Nat :=
  if alert = true ∧ avg ≤ threshold then 1 else 0

/-- The state `s` is reachable from power-on through `setup()` and successful
windows whose seizure confidences all lie in `[0, 1]`. -/
def ReachableByWindows (cfg : Config) (s : State) : Prop :=
  ∃ (alert_level buzzer_level : Bool) (s0 : State) (results : List ei_impulse_result_t),
    setup true (power_on cfg alert_level buzzer_level) = some s0 ∧
    (∀ r ∈ results, 0 ≤ seizure_confidence cfg r ∧ seizure_confidence cfg r ≤ 1) ∧
    s = windows cfg results s0

/-- The history of `s` is full and, read from the slot `confidence_index` on
(oldest value first), it is the list `w`; the threshold is `0.7`. -/
def FullHistory (s : State) (w : List ℚ) : Prop :=
  s.confidence_history.length = 5 ∧ s.confidence_index < 5 ∧
  s.confidence_buffer_full = true ∧
  s.confidence_history.rotate s.confidence_index = w ∧
  s.seizure_threshold = 7 / 10

/-! ## Views of `calculate_average_confidence` and of the recordings -/

/-- The test of the early return of `calculate_average_confidence` (line 78). -/
def early_return (s : State) : Bool :=
  !s.confidence_buffer_full && decide (s.confidence_index < CONFIDENCE_SAMPLES)

/-- The value of `samples_to_use` in `calculate_average_confidence` (line 83). -/
def samples_to_use (s : State) : Nat :=
  if s.confidence_buffer_full then CONFIDENCE_SAMPLES else s.confidence_index

/-- The value of `sum` after the loop of `calculate_average_confidence` (lines 85
to 87). -/
def history_sum (s : State) : ℚ :=
  (List.range (samples_to_use s)).foldl (fun sum i => sum + s.confidence_history.getD i 0) 0

/-- Number of sensor reads (`mpu.getEvent`) in a trace. -/
def sensor_reads (tr : List Event) : Nat :=
  tr.count Event.getEvent

/-- Number of successful windows in a trace: a call of `run_inference` prints the
average exactly when the classifier succeeded, once. -/
def successful_windows (tr : List Event) : Nat :=
  (averages tr).length

/-- None of the entries that the label loop of `run_inference` visits has the
label `seizure`. -/
def no_seizure_label (cfg : Config) (result : ei_impulse_result_t) : Prop :=
  ∀ ix, ix < cfg.EI_CLASSIFIER_LABEL_COUNT →
    (result.classification.getD ix ⟨"", 0⟩).label ≠ "seizure"

/-- What holds of the confidence history between calls of `loop()`: five slots,
the index and the full flag count the successful windows, the threshold is
`0.7`, and the alert state is the comparison of the average with it. -/
def HistoryInv (s : State) : Prop :=
  s.confidence_history.length = 5 ∧
  s.confidence_index = successful_windows s.trace % 5 ∧
  s.confidence_buffer_full = decide (5 ≤ successful_windows s.trace) ∧
  s.seizure_threshold = 7 / 10 ∧
  s.alert_active = decide (calculate_average_confidence s > 7 / 10)

/-- The classifier never reports the label `seizure` among the entries that the
label loop of `run_inference` visits, whatever the signal. -/
def never_seizure (cfg : Config) (rc : Classifier) : Prop :=
  ∀ (signal : signal_t) (debug : Bool), no_seizure_label cfg (rc signal debug).2

/-- What holds between calls of `loop()` as long as no classifier reports the
label `seizure`: the history holds zeros only, the alert is idle, every
average computed so far is zero, and `trigger_alert` has never run. -/
def CalmInv (s : State) : Prop :=
  s.confidence_history = List.replicate CONFIDENCE_SAMPLES 0 ∧
  s.alert_active = false ∧
  s.seizure_threshold = 7 / 10 ∧
  (∀ avg ∈ averages s.trace, avg = 0) ∧
  trigger_alert_calls s.trace = 0 ∧
  pin_writes ALERT_PIN HIGH s.trace = 0 ∧
  pin_writes BUZZER_PIN HIGH s.trace = 0

/-! ## The confidence average in binary32

The sketch computes the average and compares it with the threshold in `float`
(IEEE 754 binary32, round to nearest, ties to even). The definitions above
idealise `float` as exact rationals; the definitions of this section repeat the
record step, `calculate_average_confidence` and the alert evaluation with the
rounding of binary32, for non-negative finite values. Every such value is a
natural multiple of `2^-149`, and so are the `double` values of at least
`2^-96`; a natural number `n` stands for the value `n * 2^-149`. -/

/-- The rational value of the floating-point number represented by `n`. -/
def fp_value (n : Nat) : ℚ :=
  (n : ℚ) / 2 ^ 149

/-- The spacing, in units of `2^-149`, of the floating-point numbers with `prec`
significant bits around the magnitude `n`: the least `ulp * 2^k` with
`n < 2^prec * (ulp * 2^k)`, searched over `k` up to the first argument. -/
def fp_ulp (prec : Nat) : Nat → Nat → Nat → Nat
  | 0, ulp, _ => ulp
  | fuel + 1, ulp, n => if n < 2 ^ prec * ulp then ulp else fp_ulp prec fuel (2 * ulp) n

/-- The rational `num / den` (in units of `2^-149`) rounded to the nearest
floating-point number with `prec` significant bits, ties to even: the default
rounding of IEEE 754, for results below `2^128` whose spacing is at least one
unit. -/
def fp_round (prec num den : Nat) : Nat :=
  let ulp := fp_ulp prec 256 1 (num / den)
  let q := num / (den * ulp)
  let r := num % (den * ulp)
  if 2 * r < den * ulp then q * ulp
  else if den * ulp < 2 * r then (q + 1) * ulp
  else if q % 2 = 0 then q * ulp
  else (q + 1) * ulp

/-- Rounding to binary32 (`float`, 24 significant bits). -/
def f32_round (num den : Nat) : Nat :=
  fp_round 24 num den

/-- Rounding to binary64 (`double`, 53 significant bits), for values of at least
`2^-96`. -/
def f64_round (num den : Nat) : Nat :=
  fp_round 53 num den

/-- The `float` nearest to the decimal `num / den`. -/
def f32_nearest (num den : Nat) : Nat :=
  f32_round (num * 2 ^ 149) den

/-- The value of a `float` initialised with the `double` literal `num / den`, as
in `float seizure_threshold = 0.7`: the literal is rounded to `double`, and the
`double` to `float`. -/
def f32_of_double_literal (num den : Nat) : Nat :=
  f32_round (f64_round (num * 2 ^ 149) den) 1

/-- The `float` sum `a + b`. -/
def f32_add (a b : Nat) : Nat :=
  f32_round (a + b) 1

/-- The `float` quotient `a / n` of a `float` by an `int`, which is converted to
`float` exactly. -/
def f32_div_int (a n : Nat) : Nat :=
  f32_round a n

/-- The globals that decide the alert, with `float` values in binary32, and the
numbers of calls of `trigger_alert` and `stop_alert` so far. -/
structure FloatGlobals where
  alert_active : Bool
  seizure_threshold : Nat
  confidence_history : List Nat
  confidence_index : Nat
  confidence_buffer_full : Bool
  trigger_alert_calls : Nat
  stop_alert_calls : Nat
deriving DecidableEq

/-- The static initialisers of these globals. -/
def startup_f32 : FloatGlobals :=
  { alert_active := false
    seizure_threshold := f32_of_double_literal 7 10
    confidence_history := List.replicate CONFIDENCE_SAMPLES 0
    confidence_index := 0
    confidence_buffer_full := false
    trigger_alert_calls := 0
    stop_alert_calls := 0 }

/-- The function `calculate_average_confidence()` in binary32. -/
def calculate_average_confidence_f32 (s : FloatGlobals) : Nat :=
  if !s.confidence_buffer_full && decide (s.confidence_index < CONFIDENCE_SAMPLES) then
    0
  else
    let samples_to_use : Nat :=
      if s.confidence_buffer_full then CONFIDENCE_SAMPLES else s.confidence_index
    let sum : Nat :=
      (List.range samples_to_use).foldl
        (fun sum i => f32_add sum (s.confidence_history.getD i 0)) 0
    f32_div_int sum samples_to_use

/-- The success path of `run_inference()` from the record step on (lines 118 to
133) in binary32; `seizure_confidence` is the `float` that the label loop
found. -/
def run_inference_f32 (seizure_confidence : Nat) (s : FloatGlobals) : FloatGlobals :=
  let s := { s with
    confidence_history := s.confidence_history.set s.confidence_index seizure_confidence }
  let s := { s with confidence_index := (s.confidence_index + 1) % CONFIDENCE_SAMPLES }
  let s := if s.confidence_index = 0 then { s with confidence_buffer_full := true } else s
  let avg_confidence := calculate_average_confidence_f32 s
  if avg_confidence > s.seizure_threshold ∧ s.alert_active = false then
    { s with alert_active := true, trigger_alert_calls := s.trigger_alert_calls + 1 }
  else if avg_confidence ≤ s.seizure_threshold ∧ s.alert_active = true then
    { s with alert_active := false, stop_alert_calls := s.stop_alert_calls + 1 }
  else
    s

/-- Successive successful windows in binary32, one per seizure confidence. -/
def windows_f32 (confidences : List Nat) (s : FloatGlobals) : FloatGlobals :=
  confidences.foldl (fun s c => run_inference_f32 c s) s

/-! ## Concrete inputs -/

/-- A small configuration: windows of two samples, two labels. -/
def example_config : Config :=
  { EI_CLASSIFIER_DSP_INPUT_FRAME_SIZE := 12
    EI_CLASSIFIER_LABEL_COUNT := 2
    EI_IMPULSE_OK := 0
    ULONG_BITS := 32 }

/-- A classification result with the given confidence for the label `seizure`. -/
def example_result (c : ℚ) : ei_impulse_result_t :=
  { classification := [⟨"idle", 1 - c⟩, ⟨"seizure", c⟩]
    timing := ⟨3, 1⟩ }

/-- A classifier that fails with error code `-3`. -/
def failing_classifier : Classifier :=
  fun _ _ => (-3, ⟨[], ⟨0, 0⟩⟩)

/-- The state after `setup()` on the small configuration. -/
def example_start : State :=
  { power_on example_config false false with
    trace := [Event.pinMode 2, Event.pinMode 23, Event.digitalWrite 2 false,
      Event.digitalWrite 23 false, Event.print Msg.banner, Event.print Msg.model_name,
      Event.print Msg.compiled, Event.print (Msg.threshold (7 / 10)),
      Event.print (Msg.confidence_samples 5), Event.print Msg.ready] }

/-- A due call of `loop()` at time `t` whose sample has the values
`v, v + 1, ..., v + 5` and whose classifier reports the seizure confidence `c`. -/
def example_tick (t : Nat) (v c : ℚ) : LoopEnv :=
  { millis_cond := t
    a_acceleration := ⟨v, v + 1, v + 2⟩
    g_gyro := ⟨v + 3, v + 4, v + 5⟩
    run_classifier := ok_classifier example_config (example_result c)
    millis_last := t }

/-- Five windows with seizure confidence `9/10`. -/
def example_high_windows : List ei_impulse_result_t :=
  [example_result (9 / 10), example_result (9 / 10), example_result (9 / 10),
    example_result (9 / 10), example_result (9 / 10)]

/-- The state after `setup()` and five windows with seizure confidence `9/10`:
the alert is active. -/
def example_alert_state : State :=
  windows example_config example_high_windows example_start

/-- A classification result without the label `seizure`. -/
def example_calm_result : ei_impulse_result_t :=
  { classification := [⟨"idle", 9 / 10⟩, ⟨"walking", 1 / 10⟩]
    timing := ⟨3, 1⟩ }

/-- A due call of `loop()` at time `t` whose classifier succeeds and reports no
label `seizure`. -/
def example_calm_tick (t : Nat) : LoopEnv :=
  { millis_cond := t
    a_acceleration := ⟨0, 0, 1⟩
    g_gyro := ⟨0, 0, 0⟩
    run_classifier := ok_classifier example_config example_calm_result
    millis_last := t }

/-- Five `float` confidences in `[0, 1]` whose exact mean is above `0.7` while
their binary32 average is the stored threshold: `0.55f, 0.81f, 0.5f, 0.92f,
0.72f`. -/
def example_mean_above : List Nat :=
  [f32_nearest 55 100, f32_nearest 81 100, f32_nearest 5 10, f32_nearest 92 100,
    f32_nearest 72 100]

/-- Five `float` confidences in `[0, 1]` whose exact mean is `0.7` while their
binary32 average is above the stored threshold: `0.99f, 0.5f, 0.62f, 0.65f,
0.74f`. -/
def example_mean_equal : List Nat :=
  [f32_nearest 99 100, f32_nearest 5 10, f32_nearest 62 100, f32_nearest 65 100,
    f32_nearest 74 100]

/-! ## Basic facts -/

theorem label_loop_eq (result : ei_impulse_result_t) (l : List Nat) (s : State) (c : ℚ) :
    l.foldl
        (fun (acc : State × ℚ) ix =>
          (ei_printf (Msg.label_value (result.classification.getD ix ⟨"", 0⟩).label
              (result.classification.getD ix ⟨"", 0⟩).value) acc.1,
            if (result.classification.getD ix ⟨"", 0⟩).label = "seizure"
            then (result.classification.getD ix ⟨"", 0⟩).value else acc.2))
        (s, c)
      = ({ s with trace := s.trace ++ l.map (fun ix =>
            Event.print (Msg.label_value (result.classification.getD ix ⟨"", 0⟩).label
              (result.classification.getD ix ⟨"", 0⟩).value)) },
          l.foldl (fun c ix =>
            if (result.classification.getD ix ⟨"", 0⟩).label = "seizure"
            then (result.classification.getD ix ⟨"", 0⟩).value else c) c) := by
  induction l generalizing s c with
  | nil => simp
  | cons ix l ih =>
    simp only [List.foldl_cons, List.map_cons]
    rw [ih]
    simp [ei_printf, emit]

theorem run_inference_ok (cfg : Config) (rc : Classifier) (s : State)
    (h : (classifier_output cfg rc s).1 = cfg.EI_IMPULSE_OK) :
    run_inference cfg rc s =
      alert_evaluation
        (window_average (seizure_confidence cfg (classifier_output cfg rc s).2) s)
        (before_evaluation cfg (classifier_output cfg rc s).2 s) := by
  have hdbg : (emit Event.run_classifier s).debug_nn = s.debug_nn := rfl
  simp only [classifier_output, features_signal] at h ⊢
  simp only [run_inference, hdbg]
  generalize rc ⟨cfg.EI_CLASSIFIER_DSP_INPUT_FRAME_SIZE, get_feature_data s.features⟩
    s.debug_nn = out at h ⊢
  simp only [label_loop_eq]
  by_cases hidx : (s.confidence_index + 1) % CONFIDENCE_SAMPLES = 0
  · simp only [h, ne_eq, not_true_eq_false, if_false, record_confidence, hidx, if_true,
      seizure_confidence, label_events, emit, ei_printf, alert_evaluation, List.append_assoc,
      before_evaluation, window_average, window_events]
    rfl
  · simp only [h, ne_eq, not_true_eq_false, if_false, record_confidence, hidx,
      seizure_confidence, label_events, emit, ei_printf, alert_evaluation, List.append_assoc,
      before_evaluation, window_average, window_events]
    rfl

/-! ### The failing path of `run_inference` -/

theorem run_inference_err (cfg : Config) (rc : Classifier) (s : State)
    (h : (classifier_output cfg rc s).1 ≠ cfg.EI_IMPULSE_OK) :
    run_inference cfg rc s =
      { s with trace := s.trace ++ [Event.run_classifier,
          Event.print (Msg.classifier_failed (classifier_output cfg rc s).1)] } := by
  have hdbg : (emit Event.run_classifier s).debug_nn = s.debug_nn := rfl
  simp only [classifier_output, features_signal] at h ⊢
  simp only [run_inference, hdbg, h, ne_eq, not_false_eq_true, if_true, ei_printf, emit,
    List.append_assoc, List.singleton_append]

/-! ### The average depends on the history, the index and the flag only -/

theorem calculate_average_confidence_congr (s t : State)
    (h1 : s.confidence_history = t.confidence_history)
    (h2 : s.confidence_index = t.confidence_index)
    (h3 : s.confidence_buffer_full = t.confidence_buffer_full) :
    calculate_average_confidence s = calculate_average_confidence t := by
  simp only [calculate_average_confidence, h1, h2, h3]

/-! ### Fields after the record step -/

theorem record_confidence_history (c : ℚ) (s : State) :
    (record_confidence c s).confidence_history = s.confidence_history.set s.confidence_index c := by
  simp only [record_confidence]; split_ifs <;> rfl

theorem record_confidence_index (c : ℚ) (s : State) :
    (record_confidence c s).confidence_index = (s.confidence_index + 1) % CONFIDENCE_SAMPLES := by
  simp only [record_confidence]; split_ifs <;> rfl

theorem record_confidence_full (c : ℚ) (s : State) :
    (record_confidence c s).confidence_buffer_full =
      (s.confidence_buffer_full || decide ((s.confidence_index + 1) % CONFIDENCE_SAMPLES = 0)) := by
  simp only [record_confidence]; split_ifs with h <;> simp [h]

theorem record_confidence_rest (c : ℚ) (s : State) :
    (record_confidence c s).lastTime = s.lastTime ∧
    (record_confidence c s).debug_nn = s.debug_nn ∧
    (record_confidence c s).features = s.features ∧
    (record_confidence c s).feature_ix = s.feature_ix ∧
    (record_confidence c s).alert_active = s.alert_active ∧
    (record_confidence c s).seizure_threshold = s.seizure_threshold ∧
    (record_confidence c s).level_ALERT_PIN = s.level_ALERT_PIN ∧
    (record_confidence c s).level_BUZZER_PIN = s.level_BUZZER_PIN ∧
    (record_confidence c s).trace = s.trace := by
  simp only [record_confidence]; split_ifs <;> simp

/-! ### Fields after the alert evaluation -/

theorem trigger_alert_eq (s : State) :
    trigger_alert s =
      { s with
        alert_active := true
        level_ALERT_PIN := true
        level_BUZZER_PIN := true
        trace := s.trace ++ [Event.digitalWrite ALERT_PIN true, Event.digitalWrite BUZZER_PIN true,
          Event.print Msg.seizure_detected] } := by
  simp [trigger_alert, digitalWrite, emit, ei_printf, ALERT_PIN, BUZZER_PIN, HIGH]

theorem stop_alert_eq (s : State) :
    stop_alert s =
      { s with
        alert_active := false
        level_ALERT_PIN := false
        level_BUZZER_PIN := false
        trace := s.trace ++ [Event.digitalWrite ALERT_PIN false,
          Event.digitalWrite BUZZER_PIN false, Event.print Msg.alert_stopped] } := by
  simp [stop_alert, digitalWrite, emit, ei_printf, ALERT_PIN, BUZZER_PIN, LOW]

theorem alert_evaluation_trigger (avg : ℚ) (s : State)
    (hgt : avg > s.seizure_threshold) (hact : s.alert_active = false) :
    alert_evaluation avg s = trigger_alert s := by
  simp [alert_evaluation, hgt, hact]

theorem alert_evaluation_stop (avg : ℚ) (s : State)
    (hle : avg ≤ s.seizure_threshold) (hact : s.alert_active = true) :
    alert_evaluation avg s = stop_alert s := by
  simp [alert_evaluation, hle, hact]

theorem alert_evaluation_idle (avg : ℚ) (s : State)
    (hle : avg ≤ s.seizure_threshold) (hact : s.alert_active = false) :
    alert_evaluation avg s = s := by
  simp [alert_evaluation, hle, hact, not_lt.mpr hle]

theorem alert_evaluation_alert (avg : ℚ) (s : State)
    (hgt : avg > s.seizure_threshold) (hact : s.alert_active = true) :
    alert_evaluation avg s = s := by
  simp [alert_evaluation, hgt, hact, not_le.mpr hgt]

theorem alert_evaluation_cases (avg : ℚ) (s : State) :
    (avg > s.seizure_threshold ∧ s.alert_active = false ∧
        alert_evaluation avg s = trigger_alert s) ∨
    (avg ≤ s.seizure_threshold ∧ s.alert_active = true ∧
        alert_evaluation avg s = stop_alert s) ∨
    (avg ≤ s.seizure_threshold ∧ s.alert_active = false ∧ alert_evaluation avg s = s) ∨
    (avg > s.seizure_threshold ∧ s.alert_active = true ∧ alert_evaluation avg s = s) := by
  rcases lt_or_le s.seizure_threshold avg with hgt | hle
  · cases hact : s.alert_active
    · exact Or.inl ⟨hgt, rfl, alert_evaluation_trigger avg s hgt hact⟩
    · exact Or.inr (Or.inr (Or.inr ⟨hgt, rfl, alert_evaluation_alert avg s hgt hact⟩))
  · cases hact : s.alert_active
    · exact Or.inr (Or.inr (Or.inl ⟨hle, rfl, alert_evaluation_idle avg s hle hact⟩))
    · exact Or.inr (Or.inl ⟨hle, rfl, alert_evaluation_stop avg s hle hact⟩)

theorem alert_evaluation_active (avg : ℚ) (s : State) :
    (alert_evaluation avg s).alert_active = decide (avg > s.seizure_threshold) := by
  rcases alert_evaluation_cases avg s with ⟨h1, h2, h3⟩ | ⟨h1, h2, h3⟩ | ⟨h1, h2, h3⟩ | ⟨h1, h2, h3⟩
  · rw [h3, trigger_alert_eq]; simp [h1]
  · rw [h3, stop_alert_eq]; simp [not_lt.mpr h1]
  · rw [h3, h2]; simp [not_lt.mpr h1]
  · rw [h3, h2]; simp [h1]

theorem alert_evaluation_rest (avg : ℚ) (s : State) :
    (alert_evaluation avg s).lastTime = s.lastTime ∧
    (alert_evaluation avg s).debug_nn = s.debug_nn ∧
    (alert_evaluation avg s).features = s.features ∧
    (alert_evaluation avg s).feature_ix = s.feature_ix ∧
    (alert_evaluation avg s).seizure_threshold = s.seizure_threshold ∧
    (alert_evaluation avg s).confidence_history = s.confidence_history ∧
    (alert_evaluation avg s).confidence_index = s.confidence_index ∧
    (alert_evaluation avg s).confidence_buffer_full = s.confidence_buffer_full := by
  rcases alert_evaluation_cases avg s with ⟨_, _, h3⟩ | ⟨_, _, h3⟩ | ⟨_, _, h3⟩ | ⟨_, _, h3⟩
  · rw [h3, trigger_alert_eq]; simp
  · rw [h3, stop_alert_eq]; simp
  · rw [h3]; simp
  · rw [h3]; simp

/-! ### Counting calls in traces -/

theorem label_events_no_alert_notice (cfg : Config) (result : ei_impulse_result_t) :
    trigger_alert_calls (label_events cfg result) = 0 ∧
    stop_alert_calls (label_events cfg result) = 0 ∧
    output_writes (label_events cfg result) = 0 ∧
    (∀ pin level, pin_writes pin level (label_events cfg result) = 0) ∧
    averages (label_events cfg result) = [] := by
  refine ⟨?_, ?_, ?_, ?_, ?_⟩
  · simp [trigger_alert_calls, label_events, List.count_eq_zero]
  · simp [stop_alert_calls, label_events, List.count_eq_zero]
  · simp [output_writes, label_events, List.countP_eq_zero]
  · intro pin level
    simp [pin_writes, label_events, List.count_eq_zero]
  · simp [averages, label_events, List.filterMap_eq_nil_iff]

theorem before_evaluation_counts (cfg : Config) (result : ei_impulse_result_t) (s : State) :
    trigger_alert_calls (before_evaluation cfg result s).trace = trigger_alert_calls s.trace ∧
    stop_alert_calls (before_evaluation cfg result s).trace = stop_alert_calls s.trace ∧
    output_writes (before_evaluation cfg result s).trace = output_writes s.trace ∧
    (∀ pin level, pin_writes pin level (before_evaluation cfg result s).trace
      = pin_writes pin level s.trace) := by
  obtain ⟨h1, h2, h3, h4, _⟩ := label_events_no_alert_notice cfg result
  simp only [trigger_alert_calls, stop_alert_calls, output_writes, pin_writes] at h1 h2 h3 h4 ⊢
  refine ⟨?_, ?_, ?_, ?_⟩
  · simp [before_evaluation, window_events, List.count_append, h1, List.count_cons]
  · simp [before_evaluation, window_events, List.count_append, h2, List.count_cons]
  · simp [before_evaluation, window_events, List.countP_append, h3, List.countP_cons]
  · intro pin level
    simp [before_evaluation, window_events, List.count_append, h4, List.count_cons]

/-! ### Fields after a successful `run_inference` -/

theorem before_evaluation_fields (cfg : Config) (result : ei_impulse_result_t) (s : State) :
    (before_evaluation cfg result s).confidence_history
      = s.confidence_history.set s.confidence_index (seizure_confidence cfg result) ∧
    (before_evaluation cfg result s).confidence_index
      = (s.confidence_index + 1) % CONFIDENCE_SAMPLES ∧
    (before_evaluation cfg result s).confidence_buffer_full
      = (s.confidence_buffer_full ||
          decide ((s.confidence_index + 1) % CONFIDENCE_SAMPLES = 0)) ∧
    (before_evaluation cfg result s).seizure_threshold = s.seizure_threshold ∧
    (before_evaluation cfg result s).alert_active = s.alert_active ∧
    (before_evaluation cfg result s).lastTime = s.lastTime ∧
    (before_evaluation cfg result s).debug_nn = s.debug_nn ∧
    (before_evaluation cfg result s).features = s.features ∧
    (before_evaluation cfg result s).feature_ix = s.feature_ix ∧
    (before_evaluation cfg result s).level_ALERT_PIN = s.level_ALERT_PIN ∧
    (before_evaluation cfg result s).level_BUZZER_PIN = s.level_BUZZER_PIN := by
  obtain ⟨h1, h2, h3, h4, h5, h6, h7, h8, _⟩ :=
    record_confidence_rest (seizure_confidence cfg result) s
  simp only [before_evaluation, record_confidence_history, record_confidence_index,
    record_confidence_full, h1, h2, h3, h4, h5, h6, h7, h8, and_self]

theorem run_inference_ok_fields (cfg : Config) (rc : Classifier) (s : State)
    (h : (classifier_output cfg rc s).1 = cfg.EI_IMPULSE_OK) :
    (run_inference cfg rc s).confidence_history
      = s.confidence_history.set s.confidence_index
          (seizure_confidence cfg (classifier_output cfg rc s).2) ∧
    (run_inference cfg rc s).confidence_index
      = (s.confidence_index + 1) % CONFIDENCE_SAMPLES ∧
    (run_inference cfg rc s).confidence_buffer_full
      = (s.confidence_buffer_full ||
          decide ((s.confidence_index + 1) % CONFIDENCE_SAMPLES = 0)) ∧
    (run_inference cfg rc s).seizure_threshold = s.seizure_threshold ∧
    (run_inference cfg rc s).alert_active
      = decide (window_average (seizure_confidence cfg (classifier_output cfg rc s).2) s
          > s.seizure_threshold) ∧
    (run_inference cfg rc s).lastTime = s.lastTime ∧
    (run_inference cfg rc s).debug_nn = s.debug_nn ∧
    (run_inference cfg rc s).features = s.features ∧
    (run_inference cfg rc s).feature_ix = s.feature_ix := by
  rw [run_inference_ok cfg rc s h]
  obtain ⟨a1, a2, a3, a4, a5, a6, a7, a8⟩ :=
    alert_evaluation_rest
      (window_average (seizure_confidence cfg (classifier_output cfg rc s).2) s)
      (before_evaluation cfg (classifier_output cfg rc s).2 s)
  obtain ⟨b1, b2, b3, b4, b5, b6, b7, b8, b9, _⟩ :=
    before_evaluation_fields cfg (classifier_output cfg rc s).2 s
  rw [alert_evaluation_active, a1, a2, a3, a4, a5, a6, a7, a8, b1, b2, b3, b4, b6, b7, b8, b9]
  simp

theorem calculate_average_confidence_run_inference (cfg : Config) (rc : Classifier) (s : State)
    (h : (classifier_output cfg rc s).1 = cfg.EI_IMPULSE_OK) :
    calculate_average_confidence (run_inference cfg rc s)
      = window_average (seizure_confidence cfg (classifier_output cfg rc s).2) s := by
  obtain ⟨h1, h2, h3, _⟩ := run_inference_ok_fields cfg rc s h
  apply calculate_average_confidence_congr
  · rw [h1, record_confidence_history]
  · rw [h2, record_confidence_index]
  · rw [h3, record_confidence_full]

theorem averages_append (l₁ l₂ : List Event) :
    averages (l₁ ++ l₂) = averages l₁ ++ averages l₂ := by
  simp [averages, List.filterMap_append]

theorem run_inference_ok_averages (cfg : Config) (rc : Classifier) (s : State)
    (h : (classifier_output cfg rc s).1 = cfg.EI_IMPULSE_OK) :
    averages (run_inference cfg rc s).trace
      = averages s.trace
        ++ [window_average (seizure_confidence cfg (classifier_output cfg rc s).2) s] := by
  rw [run_inference_ok cfg rc s h]
  generalize (classifier_output cfg rc s).2 = result
  have hb : averages (before_evaluation cfg result s).trace
      = averages s.trace ++ [window_average (seizure_confidence cfg result) s] := by
    simp only [before_evaluation, window_events, averages_append,
      (label_events_no_alert_notice cfg result).2.2.2.2]
    simp [averages]
  rcases alert_evaluation_cases (window_average (seizure_confidence cfg result) s)
    (before_evaluation cfg result s) with
    ⟨_, _, h3⟩ | ⟨_, _, h3⟩ | ⟨_, _, h3⟩ | ⟨_, _, h3⟩
  · rw [h3, trigger_alert_eq]
    simp only [averages_append, hb]
    simp [averages]
  · rw [h3, stop_alert_eq]
    simp only [averages_append, hb]
    simp [averages]
  · rw [h3, hb]
  · rw [h3, hb]

theorem windows_nil (cfg : Config) (s : State) : windows cfg [] s = s := rfl

theorem windows_snoc (cfg : Config) (results : List ei_impulse_result_t)
    (result : ei_impulse_result_t) (s : State) :
    windows cfg (results ++ [result]) s
      = run_inference cfg (ok_classifier cfg result) (windows cfg results s) := by
  simp [windows, List.foldl_append]

theorem windows_cons (cfg : Config) (results : List ei_impulse_result_t)
    (result : ei_impulse_result_t) (s : State) :
    windows cfg (result :: results) s
      = windows cfg results (run_inference cfg (ok_classifier cfg result) s) := rfl

theorem ok_classifier_output (cfg : Config) (result : ei_impulse_result_t) (s : State) :
    classifier_output cfg (ok_classifier cfg result) s = (cfg.EI_IMPULSE_OK, result) := rfl

/-! ### The circular history -/

theorem list_length_five {α : Type} (l : List α) (h : l.length = 5) :
    ∃ a b c d e, l = [a, b, c, d, e] := by
  match l, h with
  | [a, b, c, d, e], _ => exact ⟨a, b, c, d, e, rfl⟩

theorem set_rotate_five (l : List ℚ) (i : Nat) (c : ℚ) (hl : l.length = 5) (hi : i < 5) :
    (l.set i c).rotate ((i + 1) % 5) = (l.rotate i).tail ++ [c] := by
  obtain ⟨a, b, d, e, f, rfl⟩ := list_length_five l hl
  interval_cases i <;> simp [List.rotate]

theorem last_window_length (cs : List ℚ) : (last_window cs).length = 5 := by
  simp only [last_window, CONFIDENCE_SAMPLES, List.length_drop, List.length_append,
    List.length_replicate]
  omega

theorem last_window_snoc (cs : List ℚ) (c : ℚ) :
    last_window (cs ++ [c]) = (last_window cs).tail ++ [c] := by
  simp only [last_window, List.length_append, List.length_singleton, ← List.append_assoc]
  rw [List.drop_append_of_le_length
    (by simp only [List.length_append, List.length_replicate, CONFIDENCE_SAMPLES]; omega),
    List.tail_drop]

theorem last_window_of_le (cs : List ℚ) (h : CONFIDENCE_SAMPLES ≤ cs.length) :
    last_window cs = cs.drop (cs.length - CONFIDENCE_SAMPLES) := by
  simp only [last_window]
  rw [List.drop_append_eq_append_drop]
  simp [List.drop_eq_nil_of_le, h]

theorem average_of_full (s : State) (hl : s.confidence_history.length = 5)
    (hf : s.confidence_buffer_full = true) :
    calculate_average_confidence s = s.confidence_history.sum / 5 := by
  obtain ⟨a, b, c, d, e, hh⟩ := list_length_five _ hl
  simp [calculate_average_confidence, hf, hh, CONFIDENCE_SAMPLES, List.range, List.range.loop]
  ring

theorem average_of_not_full (s : State) (hi : s.confidence_index < 5)
    (hf : s.confidence_buffer_full = false) :
    calculate_average_confidence s = 0 := by
  simp [calculate_average_confidence, hf, hi, CONFIDENCE_SAMPLES]

/-! ### The history after `k` successful windows from startup -/

theorem windows_history (cfg : Config) (s0 : State)
    (h_hist : s0.confidence_history = List.replicate CONFIDENCE_SAMPLES 0)
    (h_idx : s0.confidence_index = 0) (h_full : s0.confidence_buffer_full = false)
    (results : List ei_impulse_result_t) :
    (windows cfg results s0).confidence_index = results.length % 5 ∧
    (windows cfg results s0).confidence_buffer_full = decide (5 ≤ results.length) ∧
    (windows cfg results s0).confidence_history.length = 5 ∧
    (windows cfg results s0).confidence_history.rotate (results.length % 5)
      = last_window (results.map (seizure_confidence cfg)) := by
  induction results using List.reverseRecOn with
  | nil =>
    simp [windows_nil, h_hist, h_idx, h_full, last_window, CONFIDENCE_SAMPLES]
  | append_singleton results result ih =>
    obtain ⟨i1, i2, i3, i4⟩ := ih
    obtain ⟨f1, f2, f3, _⟩ := run_inference_ok_fields cfg (ok_classifier cfg result)
      (windows cfg results s0) rfl
    rw [windows_snoc, f1, f2, f3, i1, i2, ok_classifier_output]
    simp only [List.length_append, List.length_singleton, List.map_append, List.map_cons,
      List.map_nil, CONFIDENCE_SAMPLES, List.length_set, last_window_snoc]
    refine ⟨by omega, ?_, i3, ?_⟩
    · rw [Bool.eq_iff_iff]
      simp only [Bool.or_eq_true, decide_eq_true_eq]
      omega
    · have hrot := set_rotate_five (windows cfg results s0).confidence_history
        (results.length % 5) (seizure_confidence cfg result) i3 (Nat.mod_lt _ (by norm_num))
      have hmod : (results.length + 1) % 5 = (results.length % 5 + 1) % 5 := by omega
      rw [hmod, hrot, i4]

theorem windows_average (cfg : Config) (s0 : State)
    (h_hist : s0.confidence_history = List.replicate CONFIDENCE_SAMPLES 0)
    (h_idx : s0.confidence_index = 0) (h_full : s0.confidence_buffer_full = false)
    (results : List ei_impulse_result_t) :
    calculate_average_confidence (windows cfg results s0)
      = spec_average (results.map (seizure_confidence cfg)) results.length := by
  obtain ⟨i1, i2, i3, i4⟩ := windows_history cfg s0 h_hist h_idx h_full results
  by_cases h5 : 5 ≤ results.length
  · rw [average_of_full _ i3 (by rw [i2]; simp [h5])]
    have hsum : (windows cfg results s0).confidence_history.sum
        = (last_window (results.map (seizure_confidence cfg))).sum := by
      rw [← i4]
      exact ((List.rotate_perm _ _).sum_eq).symm
    have hlen : (results.map (seizure_confidence cfg)).length = results.length := by simp
    rw [hsum, last_window_of_le _ (by rw [hlen]; exact h5)]
    simp only [spec_average, CONFIDENCE_SAMPLES, not_lt.mpr h5, if_false, hlen]
    rw [List.take_of_length_le (by rw [hlen])]
    norm_num
  · rw [average_of_not_full _ (by rw [i1]; exact Nat.mod_lt _ (by norm_num))
      (by rw [i2]; simp [h5])]
    simp [spec_average, CONFIDENCE_SAMPLES, not_le.mp h5]

theorem spec_average_snoc (cs : List ℚ) (c : ℚ) (k : Nat) (hk : k ≤ cs.length) :
    spec_average (cs ++ [c]) k = spec_average cs k := by
  simp only [spec_average]
  rw [List.take_append_of_le_length hk]

/-! ### Calls and pin writes of a successful `run_inference` -/

theorem run_inference_ok_counts (cfg : Config) (rc : Classifier) (s : State)
    (h : (classifier_output cfg rc s).1 = cfg.EI_IMPULSE_OK) :
    trigger_alert_calls (run_inference cfg rc s).trace
      = trigger_alert_calls s.trace + spec_rise s.alert_active
          (window_average (seizure_confidence cfg (classifier_output cfg rc s).2) s)
          s.seizure_threshold ∧
    stop_alert_calls (run_inference cfg rc s).trace
      = stop_alert_calls s.trace + spec_fall s.alert_active
          (window_average (seizure_confidence cfg (classifier_output cfg rc s).2) s)
          s.seizure_threshold ∧
    (∀ pin, pin = ALERT_PIN ∨ pin = BUZZER_PIN →
      pin_writes pin HIGH (run_inference cfg rc s).trace
        = pin_writes pin HIGH s.trace + spec_rise s.alert_active
            (window_average (seizure_confidence cfg (classifier_output cfg rc s).2) s)
            s.seizure_threshold ∧
      pin_writes pin LOW (run_inference cfg rc s).trace
        = pin_writes pin LOW s.trace + spec_fall s.alert_active
            (window_average (seizure_confidence cfg (classifier_output cfg rc s).2) s)
            s.seizure_threshold) ∧
    output_writes (run_inference cfg rc s).trace
      = output_writes s.trace
        + 2 * (spec_rise s.alert_active
            (window_average (seizure_confidence cfg (classifier_output cfg rc s).2) s)
            s.seizure_threshold
          + spec_fall s.alert_active
            (window_average (seizure_confidence cfg (classifier_output cfg rc s).2) s)
            s.seizure_threshold) := by
  rw [run_inference_ok cfg rc s h]
  generalize (classifier_output cfg rc s).2 = result
  generalize window_average (seizure_confidence cfg result) s = avg
  obtain ⟨_, _, _, hthr, hact, _⟩ := before_evaluation_fields cfg result s
  obtain ⟨hc1, hc2, hc3, hc4⟩ := before_evaluation_counts cfg result s
  simp only [trigger_alert_calls, stop_alert_calls, output_writes, pin_writes]
    at hc1 hc2 hc3 hc4 ⊢
  rcases alert_evaluation_cases avg (before_evaluation cfg result s) with
    ⟨h1, h2, h3⟩ | ⟨h1, h2, h3⟩ | ⟨h1, h2, h3⟩ | ⟨h1, h2, h3⟩ <;>
    rw [hthr] at h1 <;> rw [hact] at h2 <;> rw [h3]
  · have hn : ¬ avg ≤ s.seizure_threshold := not_le.mpr h1
    simp only [trigger_alert_eq, spec_rise, spec_fall, h1, h2]
    refine ⟨?_, ?_, ?_, ?_⟩
    · simp [List.count_append, hc1, List.count_cons]
    · simp [List.count_append, hc2, List.count_cons]
    · rintro pin (rfl | rfl) <;>
        simp [List.count_append, hc4, List.count_cons, ALERT_PIN, BUZZER_PIN, HIGH, LOW]
    · simp [List.countP_append, hc3, List.countP_cons]
  · have hn : ¬ avg > s.seizure_threshold := not_lt.mpr h1
    simp only [stop_alert_eq, spec_rise, spec_fall, h1, h2, hn]
    refine ⟨?_, ?_, ?_, ?_⟩
    · simp [List.count_append, hc1, List.count_cons]
    · simp [List.count_append, hc2, List.count_cons]
    · rintro pin (rfl | rfl) <;>
        simp [List.count_append, hc4, List.count_cons, ALERT_PIN, BUZZER_PIN, HIGH, LOW]
    · simp [List.countP_append, hc3, List.countP_cons]
  · have hn : ¬ avg > s.seizure_threshold := not_lt.mpr h1
    simp only [spec_rise, spec_fall, h1, h2, hn]
    refine ⟨by simpa using hc1, by simpa using hc2, ?_, by simpa using hc3⟩
    intro pin _
    simp [hc4]
  · have hn : ¬ avg ≤ s.seizure_threshold := not_le.mpr h1
    simp only [spec_rise, spec_fall, h1, h2, hn]
    refine ⟨by simpa using hc1, by simpa using hc2, ?_, by simpa using hc3⟩
    intro pin _
    simp [hc4]

theorem windows_threshold (cfg : Config) (results : List ei_impulse_result_t) (s : State) :
    (windows cfg results s).seizure_threshold = s.seizure_threshold := by
  induction results using List.reverseRecOn with
  | nil => rfl
  | append_singleton results result ih =>
    rw [windows_snoc, (run_inference_ok_fields _ _ _ rfl).2.2.2.1, ih]

/-! ### The first windows after startup -/

theorem window_average_windows (cfg : Config) (s0 : State)
    (h_hist : s0.confidence_history = List.replicate CONFIDENCE_SAMPLES 0)
    (h_idx : s0.confidence_index = 0) (h_full : s0.confidence_buffer_full = false)
    (results : List ei_impulse_result_t) (result : ei_impulse_result_t) :
    window_average (seizure_confidence cfg result) (windows cfg results s0)
      = spec_average ((results ++ [result]).map (seizure_confidence cfg))
          (results.length + 1) := by
  have h := windows_average cfg s0 h_hist h_idx h_full (results ++ [result])
  rw [windows_snoc, calculate_average_confidence_run_inference _ _ _ rfl] at h
  simpa using h

theorem windows_startup_idle (cfg : Config) (s0 : State)
    (h_hist : s0.confidence_history = List.replicate CONFIDENCE_SAMPLES 0)
    (h_idx : s0.confidence_index = 0) (h_full : s0.confidence_buffer_full = false)
    (h_act : s0.alert_active = false) (h_thr : s0.seizure_threshold = 7 / 10)
    (results : List ei_impulse_result_t) :
    results.length ≤ 4 →
    (windows cfg results s0).alert_active = false ∧
    trigger_alert_calls (windows cfg results s0).trace = trigger_alert_calls s0.trace ∧
    stop_alert_calls (windows cfg results s0).trace = stop_alert_calls s0.trace ∧
    output_writes (windows cfg results s0).trace = output_writes s0.trace ∧
    (∀ pin, pin = ALERT_PIN ∨ pin = BUZZER_PIN →
      pin_writes pin HIGH (windows cfg results s0).trace = pin_writes pin HIGH s0.trace ∧
      pin_writes pin LOW (windows cfg results s0).trace = pin_writes pin LOW s0.trace) := by
  induction results using List.reverseRecOn with
  | nil => intro _; simp [windows_nil, h_act]
  | append_singleton results result ih =>
    intro hlen
    simp only [List.length_append, List.length_singleton] at hlen
    obtain ⟨i1, i2, i3, i4, i5⟩ := ih (by omega)
    have havg := window_average_windows cfg s0 h_hist h_idx h_full results result
    have hzero : spec_average ((results ++ [result]).map (seizure_confidence cfg))
        (results.length + 1) = 0 := by
      have : results.length + 1 < CONFIDENCE_SAMPLES := by
        simp only [CONFIDENCE_SAMPLES]; omega
      simp only [spec_average, this, if_true]
    rw [hzero] at havg
    obtain ⟨c1, c2, c3, c4⟩ := run_inference_ok_counts cfg (ok_classifier cfg result)
      (windows cfg results s0) rfl
    obtain ⟨_, _, _, _, f5, _⟩ := run_inference_ok_fields cfg (ok_classifier cfg result)
      (windows cfg results s0) rfl
    rw [ok_classifier_output] at c1 c2 c3 c4 f5
    simp only [havg, windows_threshold, h_thr, i1, spec_rise, spec_fall] at c1 c2 c3 c4 f5
    rw [windows_snoc, c1, c2, c4, f5, i2, i3, i4]
    refine ⟨by norm_num, by norm_num, by norm_num, by norm_num, ?_⟩
    intro pin hpin
    rw [(c3 pin hpin).1, (c3 pin hpin).2, (i5 pin hpin).1, (i5 pin hpin).2]
    norm_num

/-! ### The concrete inputs -/

theorem example_confidence (c : ℚ) :
    seizure_confidence example_config (example_result c) = c := by
  simp [seizure_confidence, example_config, example_result, List.range, List.range.loop]

theorem example_start_is_setup :
    setup true (power_on example_config true false) = some example_start := by
  simp [setup, power_on, example_start, emit, ei_printf, digitalWrite, ALERT_PIN, BUZZER_PIN,
    LOW, example_config, CONFIDENCE_SAMPLES]

theorem example_start_counts :
    trigger_alert_calls example_start.trace = 0 ∧ stop_alert_calls example_start.trace = 0 ∧
    pin_writes ALERT_PIN HIGH example_start.trace = 0 ∧
    pin_writes BUZZER_PIN HIGH example_start.trace = 0 := by
  simp [trigger_alert_calls, stop_alert_calls, pin_writes, example_start, ALERT_PIN,
    BUZZER_PIN, HIGH]

/-! ### A full history is a shift register -/

theorem full_history_step (cfg : Config) (rc : Classifier) (s : State) (w : List ℚ)
    (h : (classifier_output cfg rc s).1 = cfg.EI_IMPULSE_OK) (hs : FullHistory s w) :
    FullHistory (run_inference cfg rc s)
      (w.tail ++ [seizure_confidence cfg (classifier_output cfg rc s).2]) ∧
    window_average (seizure_confidence cfg (classifier_output cfg rc s).2) s
      = (w.tail ++ [seizure_confidence cfg (classifier_output cfg rc s).2]).sum / 5 := by
  obtain ⟨hl, hi, hf, hw, ht⟩ := hs
  obtain ⟨f1, f2, f3, f4, _⟩ := run_inference_ok_fields cfg rc s h
  have hrot := set_rotate_five s.confidence_history s.confidence_index
    (seizure_confidence cfg (classifier_output cfg rc s).2) hl hi
  have hfull : FullHistory (run_inference cfg rc s)
      (w.tail ++ [seizure_confidence cfg (classifier_output cfg rc s).2]) := by
    refine ⟨?_, ?_, ?_, ?_, ?_⟩
    · rw [f1, List.length_set, hl]
    · rw [f2]; exact Nat.mod_lt _ (by norm_num [CONFIDENCE_SAMPLES])
    · rw [f3, hf]; rfl
    · rw [f1, f2, ← hw]; exact hrot
    · rw [f4, ht]
  refine ⟨hfull, ?_⟩
  rw [← calculate_average_confidence_run_inference cfg rc s h,
    average_of_full _ hfull.1 hfull.2.2.1, ← hfull.2.2.2.1]
  rw [((List.rotate_perm _ _).sum_eq)]

theorem full_history_window (cfg : Config) (result : ei_impulse_result_t) (s : State)
    (w : List ℚ) (c : ℚ) (hs : FullHistory s w) (hc : seizure_confidence cfg result = c) :
    FullHistory (run_inference cfg (ok_classifier cfg result) s) (w.tail ++ [c]) ∧
    (run_inference cfg (ok_classifier cfg result) s).alert_active
      = decide ((w.tail ++ [c]).sum / 5 > 7 / 10) ∧
    trigger_alert_calls (run_inference cfg (ok_classifier cfg result) s).trace
      = trigger_alert_calls s.trace
        + spec_rise s.alert_active ((w.tail ++ [c]).sum / 5) (7 / 10) ∧
    stop_alert_calls (run_inference cfg (ok_classifier cfg result) s).trace
      = stop_alert_calls s.trace
        + spec_fall s.alert_active ((w.tail ++ [c]).sum / 5) (7 / 10) ∧
    (∀ pin, pin = ALERT_PIN ∨ pin = BUZZER_PIN →
      pin_writes pin HIGH (run_inference cfg (ok_classifier cfg result) s).trace
        = pin_writes pin HIGH s.trace
          + spec_rise s.alert_active ((w.tail ++ [c]).sum / 5) (7 / 10) ∧
      pin_writes pin LOW (run_inference cfg (ok_classifier cfg result) s).trace
        = pin_writes pin LOW s.trace
          + spec_fall s.alert_active ((w.tail ++ [c]).sum / 5) (7 / 10)) ∧
    output_writes (run_inference cfg (ok_classifier cfg result) s).trace
      = output_writes s.trace
        + 2 * (spec_rise s.alert_active ((w.tail ++ [c]).sum / 5) (7 / 10)
          + spec_fall s.alert_active ((w.tail ++ [c]).sum / 5) (7 / 10)) := by
  obtain ⟨h1, h2⟩ := full_history_step cfg (ok_classifier cfg result) s w rfl hs
  obtain ⟨c1, c2, c3, c4⟩ := run_inference_ok_counts cfg (ok_classifier cfg result) s rfl
  obtain ⟨_, _, _, _, f5, _⟩ := run_inference_ok_fields cfg (ok_classifier cfg result) s rfl
  rw [ok_classifier_output] at h1 h2 c1 c2 c3 c4 f5
  simp only [hc] at h1 h2 c1 c2 c3 c4 f5
  rw [h2, hs.2.2.2.2] at c1 c2 c3 c4 f5
  exact ⟨h1, f5, c1, c2, c3, c4⟩

/-! ### States reachable through successful windows -/

theorem setup_eq (s : State) :
    setup true s = some
      { s with
        level_ALERT_PIN := false
        level_BUZZER_PIN := false
        trace := s.trace ++ [Event.pinMode ALERT_PIN, Event.pinMode BUZZER_PIN,
          Event.digitalWrite ALERT_PIN false, Event.digitalWrite BUZZER_PIN false,
          Event.print Msg.banner, Event.print Msg.model_name, Event.print Msg.compiled,
          Event.print (Msg.threshold s.seizure_threshold),
          Event.print (Msg.confidence_samples CONFIDENCE_SAMPLES), Event.print Msg.ready] } := by
  simp [setup, emit, ei_printf, digitalWrite, ALERT_PIN, BUZZER_PIN, LOW]

theorem setup_false (s : State) : setup false s = none := by
  simp [setup]

theorem windows_bounded (cfg : Config) (s0 : State)
    (h_hist : s0.confidence_history = List.replicate CONFIDENCE_SAMPLES 0)
    (h_idx : s0.confidence_index = 0) (h_full : s0.confidence_buffer_full = false)
    (h_act : s0.alert_active = false) (h_thr : s0.seizure_threshold = 7 / 10)
    (results : List ei_impulse_result_t)
    (hb : ∀ r ∈ results, 0 ≤ seizure_confidence cfg r ∧ seizure_confidence cfg r ≤ 1) :
    (∀ x ∈ (windows cfg results s0).confidence_history, x ≤ 1) ∧
    ((windows cfg results s0).alert_active = true →
      (windows cfg results s0).confidence_buffer_full = true) := by
  induction results using List.reverseRecOn with
  | nil =>
    simp only [windows_nil, h_hist, h_act]
    refine ⟨?_, by simp⟩
    intro x hx
    rw [List.eq_of_mem_replicate hx]
    norm_num
  | append_singleton results result ih =>
    obtain ⟨i1, _⟩ := ih (fun r hr => hb r (List.mem_append_left _ hr))
    have hc := (hb result (by simp)).2
    obtain ⟨f1, _, _, f4, f5, _⟩ := run_inference_ok_fields cfg (ok_classifier cfg result)
      (windows cfg results s0) rfl
    obtain ⟨j1, j2, _, _⟩ := windows_history cfg s0 h_hist h_idx h_full (results ++ [result])
    rw [windows_snoc]
    refine ⟨?_, ?_⟩
    · intro x hx
      rw [f1] at hx
      rcases List.mem_or_eq_of_mem_set hx with hx | hx
      · exact i1 x hx
      · rw [hx]; exact hc
    · intro hact
      by_contra hnf
      have hnf' : (windows cfg (results ++ [result]) s0).confidence_buffer_full = false := by
        rw [windows_snoc]; simpa using hnf
      have hz := average_of_not_full (windows cfg (results ++ [result]) s0)
        (by rw [j1]; exact Nat.mod_lt _ (by norm_num)) hnf'
      rw [windows_snoc, calculate_average_confidence_run_inference _ _ _ rfl] at hz
      rw [f5, hz, windows_threshold, h_thr] at hact
      norm_num at hact

theorem reachable_by_windows_full_history (cfg : Config) (s : State)
    (h : ReachableByWindows cfg s) (hact : s.alert_active = true) :
    FullHistory s (s.confidence_history.rotate s.confidence_index) ∧
    ∀ x ∈ s.confidence_history.rotate s.confidence_index, x ≤ 1 := by
  obtain ⟨a, b, s0, results, hsetup, hb, rfl⟩ := h
  rw [setup_eq] at hsetup
  have hs0 := (Option.some.inj hsetup).symm
  have h_hist : s0.confidence_history = List.replicate CONFIDENCE_SAMPLES 0 := by rw [hs0]; rfl
  have h_idx : s0.confidence_index = 0 := by rw [hs0]; rfl
  have h_full : s0.confidence_buffer_full = false := by rw [hs0]; rfl
  have h_act : s0.alert_active = false := by rw [hs0]; rfl
  have h_thr : s0.seizure_threshold = 7 / 10 := by rw [hs0]; rfl
  obtain ⟨j1, _, j3, _⟩ := windows_history cfg s0 h_hist h_idx h_full results
  obtain ⟨b1, b2⟩ := windows_bounded cfg s0 h_hist h_idx h_full h_act h_thr results hb
  refine ⟨⟨j3, ?_, b2 hact, rfl, ?_⟩, ?_⟩
  · rw [j1]; exact Nat.mod_lt _ (by norm_num)
  · rw [windows_threshold, h_thr]
  · intro x hx
    exact b1 x (List.mem_rotate.mp hx)

theorem example_alert_state_reachable : ReachableByWindows example_config example_alert_state := by
  refine ⟨true, false, example_start, example_high_windows, example_start_is_setup, ?_, rfl⟩
  intro r hr
  simp only [example_high_windows, List.mem_cons, List.mem_singleton, or_self, List.mem_nil_iff,
    or_false] at hr
  rw [hr, example_confidence]
  norm_num

theorem example_alert_state_active : example_alert_state.alert_active = true := by
  have hsplit : example_high_windows
      = [example_result (9 / 10), example_result (9 / 10), example_result (9 / 10),
          example_result (9 / 10)] ++ [example_result (9 / 10)] := rfl
  have havg := window_average_windows example_config example_start rfl rfl rfl
    [example_result (9 / 10), example_result (9 / 10), example_result (9 / 10),
      example_result (9 / 10)] (example_result (9 / 10))
  have hf := (run_inference_ok_fields example_config
    (ok_classifier example_config (example_result (9 / 10)))
    (windows example_config [example_result (9 / 10), example_result (9 / 10),
      example_result (9 / 10), example_result (9 / 10)] example_start) rfl).2.2.2.2.1
  rw [ok_classifier_output] at hf
  simp only [havg, windows_threshold] at hf
  rw [example_alert_state, hsplit, windows_snoc, hf]
  simp only [List.map_append, List.map_cons, List.map_nil, example_confidence, spec_average,
    CONFIDENCE_SAMPLES, List.length_cons, List.length_nil]
  have : example_start.seizure_threshold = 7 / 10 := rfl
  rw [this]
  norm_num

/-! ### The structure of `loop` -/

theorem loop_eq (cfg : Config) (env : LoopEnv) (s : State) :
    loop cfg env s =
      emit (Event.delay 1)
        (if due cfg env s then
          { (if (at_full_test cfg env s).feature_ix ≥ cfg.EI_CLASSIFIER_DSP_INPUT_FRAME_SIZE then
              { run_inference cfg env.run_classifier (at_full_test cfg env s) with
                feature_ix := 0 }
            else at_full_test cfg env s) with
            lastTime := env.millis_last % 2 ^ cfg.ULONG_BITS }
        else s) := rfl

theorem loop_cases (cfg : Config) (env : LoopEnv) (s : State) :
    (¬ due cfg env s ∧ loop cfg env s = emit (Event.delay 1) s) ∨
    (due cfg env s ∧
      ¬ (at_full_test cfg env s).feature_ix ≥ cfg.EI_CLASSIFIER_DSP_INPUT_FRAME_SIZE ∧
      loop cfg env s = emit (Event.delay 1)
        { at_full_test cfg env s with lastTime := env.millis_last % 2 ^ cfg.ULONG_BITS }) ∨
    (due cfg env s ∧
      (at_full_test cfg env s).feature_ix ≥ cfg.EI_CLASSIFIER_DSP_INPUT_FRAME_SIZE ∧
      loop cfg env s = emit (Event.delay 1)
        { run_inference cfg env.run_classifier (at_full_test cfg env s) with
          feature_ix := 0
          lastTime := env.millis_last % 2 ^ cfg.ULONG_BITS }) := by
  rw [loop_eq]
  by_cases hd : due cfg env s
  · by_cases hf : (at_full_test cfg env s).feature_ix ≥ cfg.EI_CLASSIFIER_DSP_INPUT_FRAME_SIZE
    · exact Or.inr (Or.inr ⟨hd, hf, by simp only [hd, hf, if_true]⟩)
    · exact Or.inr (Or.inl ⟨hd, hf, by simp only [hd, hf, if_true, if_false]⟩)
  · exact Or.inl ⟨hd, by simp only [hd, if_false]⟩

theorem append_sample_rest (cfg : Config) (env : LoopEnv) (s : State) :
    (append_sample cfg env s).lastTime = s.lastTime ∧
    (append_sample cfg env s).debug_nn = s.debug_nn ∧
    (append_sample cfg env s).alert_active = s.alert_active ∧
    (append_sample cfg env s).seizure_threshold = s.seizure_threshold ∧
    (append_sample cfg env s).confidence_history = s.confidence_history ∧
    (append_sample cfg env s).confidence_index = s.confidence_index ∧
    (append_sample cfg env s).confidence_buffer_full = s.confidence_buffer_full ∧
    (append_sample cfg env s).level_ALERT_PIN = s.level_ALERT_PIN ∧
    (append_sample cfg env s).level_BUZZER_PIN = s.level_BUZZER_PIN ∧
    (append_sample cfg env s).trace = s.trace := by
  simp only [append_sample]
  split_ifs <;> simp

theorem at_full_test_rest (cfg : Config) (env : LoopEnv) (s : State) :
    (at_full_test cfg env s).lastTime = s.lastTime ∧
    (at_full_test cfg env s).debug_nn = s.debug_nn ∧
    (at_full_test cfg env s).alert_active = s.alert_active ∧
    (at_full_test cfg env s).seizure_threshold = s.seizure_threshold ∧
    (at_full_test cfg env s).confidence_history = s.confidence_history ∧
    (at_full_test cfg env s).confidence_index = s.confidence_index ∧
    (at_full_test cfg env s).confidence_buffer_full = s.confidence_buffer_full ∧
    (at_full_test cfg env s).level_ALERT_PIN = s.level_ALERT_PIN ∧
    (at_full_test cfg env s).level_BUZZER_PIN = s.level_BUZZER_PIN ∧
    (at_full_test cfg env s).trace = s.trace ++ [Event.getEvent] := by
  obtain ⟨h1, h2, h3, h4, h5, h6, h7, h8, h9, h10⟩ :=
    append_sample_rest cfg env (emit Event.getEvent s)
  unfold at_full_test
  rw [h1, h2, h3, h4, h5, h6, h7, h8, h9, h10]
  exact ⟨rfl, rfl, rfl, rfl, rfl, rfl, rfl, rfl, rfl, rfl⟩

/-! ### `run_inference` whatever the classifier returns -/

theorem run_inference_pins (cfg : Config) (rc : Classifier) (s : State)
    (hA : s.level_ALERT_PIN = s.alert_active) (hB : s.level_BUZZER_PIN = s.alert_active) :
    (run_inference cfg rc s).level_ALERT_PIN = (run_inference cfg rc s).alert_active ∧
    (run_inference cfg rc s).level_BUZZER_PIN = (run_inference cfg rc s).alert_active := by
  by_cases h : (classifier_output cfg rc s).1 = cfg.EI_IMPULSE_OK
  · rw [run_inference_ok cfg rc s h]
    obtain ⟨_, _, _, _, b5, _, _, _, _, b10, b11⟩ :=
      before_evaluation_fields cfg (classifier_output cfg rc s).2 s
    rcases alert_evaluation_cases
      (window_average (seizure_confidence cfg (classifier_output cfg rc s).2) s)
      (before_evaluation cfg (classifier_output cfg rc s).2 s) with
      ⟨_, _, h3⟩ | ⟨_, _, h3⟩ | ⟨_, _, h3⟩ | ⟨_, _, h3⟩
    · rw [h3, trigger_alert_eq]; exact ⟨rfl, rfl⟩
    · rw [h3, stop_alert_eq]; exact ⟨rfl, rfl⟩
    · rw [h3, b5, b10, b11]; exact ⟨hA, hB⟩
    · rw [h3, b5, b10, b11]; exact ⟨hA, hB⟩
  · rw [run_inference_err cfg rc s h]; exact ⟨hA, hB⟩

theorem run_inference_edges (cfg : Config) (rc : Classifier) (s : State) :
    output_writes (run_inference cfg rc s).trace
      = output_writes s.trace
        + (if (run_inference cfg rc s).alert_active = s.alert_active then 0 else 2) ∧
    trigger_alert_calls (run_inference cfg rc s).trace
      = trigger_alert_calls s.trace
        + (if s.alert_active = false ∧ (run_inference cfg rc s).alert_active = true
          then 1 else 0) ∧
    stop_alert_calls (run_inference cfg rc s).trace
      = stop_alert_calls s.trace
        + (if s.alert_active = true ∧ (run_inference cfg rc s).alert_active = false
          then 1 else 0) := by
  by_cases h : (classifier_output cfg rc s).1 = cfg.EI_IMPULSE_OK
  · obtain ⟨c1, c2, _, c4⟩ := run_inference_ok_counts cfg rc s h
    obtain ⟨_, _, _, _, f5, _⟩ := run_inference_ok_fields cfg rc s h
    rw [c1, c2, c4, f5]
    generalize window_average (seizure_confidence cfg (classifier_output cfg rc s).2) s = avg
    cases s.alert_active <;> by_cases hgt : avg > s.seizure_threshold <;>
      simp [spec_rise, spec_fall, hgt, not_lt.mp, le_of_not_lt, not_le.mpr]
  · rw [run_inference_err cfg rc s h]
    simp [output_writes, trigger_alert_calls, stop_alert_calls, List.countP_append,
      List.countP_cons, List.count_append, List.count_cons]

theorem loop_edges (cfg : Config) (env : LoopEnv) (s : State) :
    output_writes (loop cfg env s).trace
      = output_writes s.trace
        + (if (loop cfg env s).alert_active = s.alert_active then 0 else 2) ∧
    trigger_alert_calls (loop cfg env s).trace
      = trigger_alert_calls s.trace
        + (if s.alert_active = false ∧ (loop cfg env s).alert_active = true then 1 else 0) ∧
    stop_alert_calls (loop cfg env s).trace
      = stop_alert_calls s.trace
        + (if s.alert_active = true ∧ (loop cfg env s).alert_active = false then 1 else 0) := by
  obtain ⟨_, _, a3, _, _, _, _, _, _, a10⟩ := at_full_test_rest cfg env s
  rcases loop_cases cfg env s with ⟨_, h⟩ | ⟨_, _, h⟩ | ⟨_, _, h⟩
  · rw [h]
    simp [emit, output_writes, trigger_alert_calls, stop_alert_calls, List.countP_append,
      List.countP_cons, List.count_append, List.count_cons]
  · rw [h]
    simp [emit, a3, a10, output_writes, trigger_alert_calls, stop_alert_calls,
      List.countP_append, List.countP_cons, List.count_append, List.count_cons]
  · obtain ⟨e1, e2, e3⟩ := run_inference_edges cfg env.run_classifier (at_full_test cfg env s)
    rw [a3] at e1 e2 e3
    simp only [output_writes, trigger_alert_calls, stop_alert_calls, a10] at e1 e2 e3 ⊢
    rw [h]
    simp only [emit, List.countP_append, List.count_append, e1, e2, e3]
    simp [List.countP_cons, List.count_cons]

/-! ### Windows above the threshold -/

theorem all_above_alert (cfg : Config) (results : List ei_impulse_result_t) (s : State)
    (h : all_above cfg results s) (hact : s.alert_active = true) :
    (windows cfg results s).alert_active = true ∧
    trigger_alert_calls (windows cfg results s).trace = trigger_alert_calls s.trace ∧
    stop_alert_calls (windows cfg results s).trace = stop_alert_calls s.trace ∧
    output_writes (windows cfg results s).trace = output_writes s.trace ∧
    (∀ pin, pin = ALERT_PIN ∨ pin = BUZZER_PIN →
      pin_writes pin HIGH (windows cfg results s).trace = pin_writes pin HIGH s.trace ∧
      pin_writes pin LOW (windows cfg results s).trace = pin_writes pin LOW s.trace) := by
  induction results generalizing s with
  | nil => simp [windows_nil, hact]
  | cons result results ih =>
    obtain ⟨hgt, hrest⟩ := h
    obtain ⟨c1, c2, c3, c4⟩ := run_inference_ok_counts cfg (ok_classifier cfg result) s rfl
    obtain ⟨_, _, _, _, f5, _⟩ := run_inference_ok_fields cfg (ok_classifier cfg result) s rfl
    rw [ok_classifier_output] at c1 c2 c3 c4 f5
    have hle : ¬ window_average (seizure_confidence cfg result) s ≤ s.seizure_threshold :=
      not_le.mpr hgt
    simp only [spec_rise, spec_fall, hact, hgt, hle, decide_True, Bool.true_eq_false, false_and,
      and_false, if_false, add_zero, Nat.mul_zero] at c1 c2 c3 c4 f5
    obtain ⟨i1, i2, i3, i4, i5⟩ := ih _ hrest f5
    rw [windows_cons, i1, i2, i3, i4, c1, c2, c4]
    refine ⟨rfl, rfl, rfl, rfl, ?_⟩
    intro pin hpin
    rw [(i5 pin hpin).1, (i5 pin hpin).2, (c3 pin hpin).1, (c3 pin hpin).2]
    exact ⟨rfl, rfl⟩

theorem all_above_take (cfg : Config) (results : List ei_impulse_result_t) (s : State)
    (k : Nat) (h : all_above cfg results s) : all_above cfg (results.take k) s := by
  induction results generalizing s k with
  | nil => simpa using h
  | cons result results ih =>
    cases k with
    | zero => exact trivial
    | succ k => exact ⟨h.1, ih _ k h.2⟩

theorem example_fifth_window_above :
    all_above example_config [example_result (9 / 10)]
      (windows example_config [example_result (9 / 10), example_result (9 / 10),
        example_result (9 / 10), example_result (9 / 10)] example_start) := by
  refine ⟨?_, trivial⟩
  rw [window_average_windows example_config example_start rfl rfl rfl, windows_threshold]
  have : example_start.seizure_threshold = 7 / 10 := rfl
  rw [this]
  simp only [List.map_append, List.map_cons, List.map_nil, example_confidence, spec_average,
    CONFIDENCE_SAMPLES, List.length_cons, List.length_nil]
  norm_num

/-! ### Runs of `loop` -/

theorem run_nil (cfg : Config) (s : State) : run cfg [] s = s := rfl

theorem run_cons (cfg : Config) (env : LoopEnv) (envs : List LoopEnv) (s : State) :
    run cfg (env :: envs) s = run cfg envs (loop cfg env s) := rfl

theorem run_snoc (cfg : Config) (envs : List LoopEnv) (env : LoopEnv) (s : State) :
    run cfg (envs ++ [env]) s = loop cfg env (run cfg envs s) := by
  simp [run, List.foldl_append]

theorem loop_pins (cfg : Config) (env : LoopEnv) (s : State)
    (hA : s.level_ALERT_PIN = s.alert_active) (hB : s.level_BUZZER_PIN = s.alert_active) :
    (loop cfg env s).level_ALERT_PIN = (loop cfg env s).alert_active ∧
    (loop cfg env s).level_BUZZER_PIN = (loop cfg env s).alert_active := by
  obtain ⟨_, _, a3, _, _, _, _, a8, a9, _⟩ := at_full_test_rest cfg env s
  rcases loop_cases cfg env s with ⟨_, h⟩ | ⟨_, _, h⟩ | ⟨_, _, h⟩
  · rw [h]; exact ⟨hA, hB⟩
  · rw [h]
    simp only [emit, a3, a8, a9]
    exact ⟨hA, hB⟩
  · rw [h]
    exact run_inference_pins cfg env.run_classifier (at_full_test cfg env s)
      (by rw [a3, a8]; exact hA) (by rw [a3, a9]; exact hB)

theorem run_pins (cfg : Config) (envs : List LoopEnv) (s : State)
    (hA : s.level_ALERT_PIN = s.alert_active) (hB : s.level_BUZZER_PIN = s.alert_active) :
    (run cfg envs s).level_ALERT_PIN = (run cfg envs s).alert_active ∧
    (run cfg envs s).level_BUZZER_PIN = (run cfg envs s).alert_active := by
  induction envs generalizing s with
  | nil => exact ⟨hA, hB⟩
  | cons env envs ih =>
    rw [run_cons]
    exact ih _ (loop_pins cfg env s hA hB).1 (loop_pins cfg env s hA hB).2

theorem example_start_reachable : Reachable example_config example_start :=
  ⟨true, false, example_start, [], example_start_is_setup, rfl⟩

/-! ### The append step -/

theorem append_sample_lt (cfg : Config) (env : LoopEnv) (s : State)
    (h : s.feature_ix < cfg.EI_CLASSIFIER_DSP_INPUT_FRAME_SIZE) :
    append_sample cfg env s =
      { s with
        features := (((((s.features.set s.feature_ix env.a_acceleration.x).set
          (s.feature_ix + 1) env.a_acceleration.y).set
          (s.feature_ix + 2) env.a_acceleration.z).set
          (s.feature_ix + 3) env.g_gyro.x).set
          (s.feature_ix + 4) env.g_gyro.y).set
          (s.feature_ix + 5) env.g_gyro.z
        feature_ix := s.feature_ix + 6 } := by
  simp [append_sample, h]

theorem append_sample_ge (cfg : Config) (env : LoopEnv) (s : State)
    (h : cfg.EI_CLASSIFIER_DSP_INPUT_FRAME_SIZE ≤ s.feature_ix) :
    append_sample cfg env s = s := by
  simp [append_sample, not_lt.mpr h]

theorem at_full_test_lt (cfg : Config) (env : LoopEnv) (s : State)
    (h : s.feature_ix < cfg.EI_CLASSIFIER_DSP_INPUT_FRAME_SIZE) :
    (at_full_test cfg env s).feature_ix = s.feature_ix + 6 ∧
    (at_full_test cfg env s).features = (append_sample cfg env s).features := by
  have h1 : (emit Event.getEvent s).feature_ix < cfg.EI_CLASSIFIER_DSP_INPUT_FRAME_SIZE := h
  rw [at_full_test, append_sample_lt cfg env _ h1, append_sample_lt cfg env _ h]
  exact ⟨rfl, rfl⟩

theorem run_inference_features (cfg : Config) (rc : Classifier) (s : State) :
    (run_inference cfg rc s).features = s.features ∧
    (run_inference cfg rc s).feature_ix = s.feature_ix := by
  by_cases h : (classifier_output cfg rc s).1 = cfg.EI_IMPULSE_OK
  · obtain ⟨_, _, _, _, _, _, _, f8, f9⟩ := run_inference_ok_fields cfg rc s h
    exact ⟨f8, f9⟩
  · rw [run_inference_err cfg rc s h]; exact ⟨rfl, rfl⟩

theorem six_sets_length (l : List ℚ) (n : Nat) (v0 v1 v2 v3 v4 v5 : ℚ) :
    ((((((l.set n v0).set (n + 1) v1).set (n + 2) v2).set (n + 3) v3).set (n + 4) v4).set
      (n + 5) v5).length = l.length := by
  simp

theorem six_sets_inside (l : List ℚ) (n : Nat) (v0 v1 v2 v3 v4 v5 : ℚ) (hn : n + 5 < l.length)
    (i : Nat) (hi : i < 6) :
    ((((((l.set n v0).set (n + 1) v1).set (n + 2) v2).set (n + 3) v3).set (n + 4) v4).set
      (n + 5) v5)[n + i]? = [v0, v1, v2, v3, v4, v5][i]? := by
  interval_cases i <;> simp [List.getElem?_set] <;> omega

theorem six_sets_outside (l : List ℚ) (n : Nat) (v0 v1 v2 v3 v4 v5 : ℚ)
    (j : Nat) (hj : j < n ∨ n + 6 ≤ j) :
    ((((((l.set n v0).set (n + 1) v1).set (n + 2) v2).set (n + 3) v3).set (n + 4) v4).set
      (n + 5) v5)[j]? = l[j]? := by
  have h0 : n ≠ j := by omega
  have h1 : n + 1 ≠ j := by omega
  have h2 : n + 2 ≠ j := by omega
  have h3 : n + 3 ≠ j := by omega
  have h4 : n + 4 ≠ j := by omega
  have h5 : n + 5 ≠ j := by omega
  simp [List.getElem?_set, h0, h1, h2, h3, h4, h5]

/-! ### The write index between calls of `loop` -/

theorem add_six_le (n m : Nat) (hdiv : 6 ∣ m) (h1 : n < m) (h2 : 6 ∣ n) : n + 6 ≤ m := by
  obtain ⟨a, rfl⟩ := hdiv
  obtain ⟨b, rfl⟩ := h2
  omega

theorem at_full_test_window (cfg : Config) (hdiv : 6 ∣ cfg.EI_CLASSIFIER_DSP_INPUT_FRAME_SIZE)
    (env : LoopEnv) (s : State)
    (h1 : s.feature_ix < cfg.EI_CLASSIFIER_DSP_INPUT_FRAME_SIZE) (h2 : 6 ∣ s.feature_ix)
    (h3 : s.features.length = cfg.EI_CLASSIFIER_DSP_INPUT_FRAME_SIZE) :
    (at_full_test cfg env s).feature_ix = s.feature_ix + 6 ∧
    (at_full_test cfg env s).feature_ix ≤ cfg.EI_CLASSIFIER_DSP_INPUT_FRAME_SIZE ∧
    6 ∣ (at_full_test cfg env s).feature_ix ∧
    (at_full_test cfg env s).features.length = cfg.EI_CLASSIFIER_DSP_INPUT_FRAME_SIZE := by
  obtain ⟨a1, a2⟩ := at_full_test_lt cfg env s h1
  rw [a1, a2, append_sample_lt cfg env s h1]
  refine ⟨rfl, add_six_le _ _ hdiv h1 h2, (Nat.dvd_add_right h2).mpr (dvd_refl 6), ?_⟩
  simp only [six_sets_length, h3]

theorem loop_window (cfg : Config) (hdiv : 6 ∣ cfg.EI_CLASSIFIER_DSP_INPUT_FRAME_SIZE)
    (env : LoopEnv) (s : State)
    (h1 : s.feature_ix < cfg.EI_CLASSIFIER_DSP_INPUT_FRAME_SIZE) (h2 : 6 ∣ s.feature_ix)
    (h3 : s.features.length = cfg.EI_CLASSIFIER_DSP_INPUT_FRAME_SIZE) :
    (loop cfg env s).feature_ix < cfg.EI_CLASSIFIER_DSP_INPUT_FRAME_SIZE ∧
    6 ∣ (loop cfg env s).feature_ix ∧
    (loop cfg env s).features.length = cfg.EI_CLASSIFIER_DSP_INPUT_FRAME_SIZE := by
  obtain ⟨a1, a2, a3, a4⟩ := at_full_test_window cfg hdiv env s h1 h2 h3
  rcases loop_cases cfg env s with ⟨_, h⟩ | ⟨_, hnf, h⟩ | ⟨_, _, h⟩
  · rw [h]; exact ⟨h1, h2, h3⟩
  · rw [h]; exact ⟨not_le.mp hnf, a3, a4⟩
  · rw [h]
    refine ⟨lt_of_le_of_lt (Nat.zero_le _) h1, dvd_zero 6, ?_⟩
    show (run_inference cfg env.run_classifier (at_full_test cfg env s)).features.length = _
    rw [(run_inference_features cfg env.run_classifier _).1, a4]

theorem run_window (cfg : Config) (hdiv : 6 ∣ cfg.EI_CLASSIFIER_DSP_INPUT_FRAME_SIZE)
    (envs : List LoopEnv) (s : State)
    (h1 : s.feature_ix < cfg.EI_CLASSIFIER_DSP_INPUT_FRAME_SIZE) (h2 : 6 ∣ s.feature_ix)
    (h3 : s.features.length = cfg.EI_CLASSIFIER_DSP_INPUT_FRAME_SIZE) :
    (run cfg envs s).feature_ix < cfg.EI_CLASSIFIER_DSP_INPUT_FRAME_SIZE ∧
    6 ∣ (run cfg envs s).feature_ix ∧
    (run cfg envs s).features.length = cfg.EI_CLASSIFIER_DSP_INPUT_FRAME_SIZE := by
  induction envs generalizing s with
  | nil => exact ⟨h1, h2, h3⟩
  | cons env envs ih =>
    obtain ⟨l1, l2, l3⟩ := loop_window cfg hdiv env s h1 h2 h3
    rw [run_cons]
    exact ih _ l1 l2 l3

theorem reachable_window (cfg : Config) (hpos : 0 < cfg.EI_CLASSIFIER_DSP_INPUT_FRAME_SIZE)
    (hdiv : 6 ∣ cfg.EI_CLASSIFIER_DSP_INPUT_FRAME_SIZE) (s : State) (h : Reachable cfg s) :
    s.feature_ix < cfg.EI_CLASSIFIER_DSP_INPUT_FRAME_SIZE ∧ 6 ∣ s.feature_ix ∧
    s.features.length = cfg.EI_CLASSIFIER_DSP_INPUT_FRAME_SIZE := by
  obtain ⟨a, b, s0, envs, hsetup, rfl⟩ := h
  rw [setup_eq] at hsetup
  have hs0 := (Option.some.inj hsetup).symm
  apply run_window cfg hdiv envs s0
  · rw [hs0]; exact hpos
  · rw [hs0]; exact dvd_zero 6
  · rw [hs0]; simp [power_on]

/-! ### Invocations of the classifier -/

theorem run_inference_classifier_calls (cfg : Config) (rc : Classifier) (s : State) :
    classifier_calls (run_inference cfg rc s).trace = classifier_calls s.trace + 1 := by
  by_cases h : (classifier_output cfg rc s).1 = cfg.EI_IMPULSE_OK
  · rw [run_inference_ok cfg rc s h]
    generalize (classifier_output cfg rc s).2 = result
    have hl : List.count Event.run_classifier (label_events cfg result) = 0 := by
      simp [label_events, List.count_eq_zero]
    have hb : classifier_calls (before_evaluation cfg result s).trace
        = classifier_calls s.trace + 1 := by
      simp [classifier_calls, before_evaluation, window_events, List.count_append, hl,
        List.count_cons]
    rcases alert_evaluation_cases (window_average (seizure_confidence cfg result) s)
      (before_evaluation cfg result s) with
      ⟨_, _, h3⟩ | ⟨_, _, h3⟩ | ⟨_, _, h3⟩ | ⟨_, _, h3⟩
    · rw [h3, trigger_alert_eq]
      simp only [classifier_calls] at hb ⊢
      simp [List.count_append, hb, List.count_cons]
    · rw [h3, stop_alert_eq]
      simp only [classifier_calls] at hb ⊢
      simp [List.count_append, hb, List.count_cons]
    · rw [h3, hb]
    · rw [h3, hb]
  · rw [run_inference_err cfg rc s h]
    simp [classifier_calls, List.count_append, List.count_cons]

theorem loop_classifier_calls (cfg : Config) (env : LoopEnv) (s : State) :
    classifier_calls (loop cfg env s).trace
      = classifier_calls s.trace + (if detects_full cfg env s then 1 else 0) := by
  obtain ⟨_, _, _, _, _, _, _, _, _, a10⟩ := at_full_test_rest cfg env s
  rcases loop_cases cfg env s with ⟨hd, h⟩ | ⟨hd, hnf, h⟩ | ⟨hd, hf, h⟩
  · have : ¬ detects_full cfg env s := fun hdet => hd hdet.1
    rw [h, if_neg this]
    simp [emit, classifier_calls, List.count_append, List.count_cons]
  · have : ¬ detects_full cfg env s := fun hdet => hnf hdet.2
    rw [h, if_neg this]
    simp [emit, a10, classifier_calls, List.count_append, List.count_cons]
  · have : detects_full cfg env s := ⟨hd, hf⟩
    have hc := run_inference_classifier_calls cfg env.run_classifier (at_full_test cfg env s)
    simp only [classifier_calls, a10] at hc ⊢
    rw [h, if_pos this]
    simp only [emit, List.count_append, hc]
    simp [List.count_cons]

/-! ### Positions stored to since the last reset -/

theorem range_add_six (n : Nat) :
    List.range (n + 6) = List.range n ++ [n, n + 1, n + 2, n + 3, n + 4, n + 5] := by
  simp [List.range_succ, ← Nat.add_assoc]

theorem run_written_nil (cfg : Config) (sw : State × List Nat) : run_written cfg [] sw = sw :=
  rfl

theorem run_written_snoc (cfg : Config) (envs : List LoopEnv) (env : LoopEnv)
    (sw : State × List Nat) :
    run_written cfg (envs ++ [env]) sw = loop_written cfg env (run_written cfg envs sw) := by
  simp [run_written, List.foldl_append]

theorem run_written_state (cfg : Config) (envs : List LoopEnv) (sw : State × List Nat) :
    (run_written cfg envs sw).1 = run cfg envs sw.1 := by
  induction envs using List.reverseRecOn with
  | nil => rfl
  | append_singleton envs env ih =>
    rw [run_written_snoc, run_snoc, ← ih]
    rfl

theorem loop_written_inv (cfg : Config) (hdiv : 6 ∣ cfg.EI_CLASSIFIER_DSP_INPUT_FRAME_SIZE)
    (env : LoopEnv) (sw : State × List Nat)
    (h1 : sw.1.feature_ix < cfg.EI_CLASSIFIER_DSP_INPUT_FRAME_SIZE) (h2 : 6 ∣ sw.1.feature_ix)
    (h3 : sw.2 = List.range sw.1.feature_ix) :
    (loop_written cfg env sw).1.feature_ix < cfg.EI_CLASSIFIER_DSP_INPUT_FRAME_SIZE ∧
    6 ∣ (loop_written cfg env sw).1.feature_ix ∧
    (loop_written cfg env sw).2 = List.range (loop_written cfg env sw).1.feature_ix := by
  obtain ⟨a1, _⟩ := at_full_test_lt cfg env sw.1 h1
  have hle := add_six_le _ _ hdiv h1 h2
  simp only [loop_written]
  rcases loop_cases cfg env sw.1 with ⟨hd, h⟩ | ⟨hd, hnf, h⟩ | ⟨hd, hf, h⟩
  · have hdet : ¬ detects_full cfg env sw.1 := fun hdet => hd hdet.1
    rw [h, if_neg hdet]
    simp only [written_at_full_test, hd, if_false]
    exact ⟨h1, h2, h3⟩
  · have hdet : ¬ detects_full cfg env sw.1 := fun hdet => hnf hdet.2
    rw [h, if_neg hdet]
    simp only [written_at_full_test, hd, if_true, stored_positions, h1, h3, emit, a1]
    rw [a1] at hnf
    exact ⟨not_le.mp hnf, (Nat.dvd_add_right h2).mpr (dvd_refl 6), (range_add_six _).symm⟩
  · have hdet : detects_full cfg env sw.1 := ⟨hd, hf⟩
    rw [h, if_pos hdet]
    exact ⟨lt_of_le_of_lt (Nat.zero_le _) h1, dvd_zero 6, rfl⟩

theorem run_written_inv (cfg : Config) (hdiv : 6 ∣ cfg.EI_CLASSIFIER_DSP_INPUT_FRAME_SIZE)
    (envs : List LoopEnv) (sw : State × List Nat)
    (h1 : sw.1.feature_ix < cfg.EI_CLASSIFIER_DSP_INPUT_FRAME_SIZE) (h2 : 6 ∣ sw.1.feature_ix)
    (h3 : sw.2 = List.range sw.1.feature_ix) :
    (run_written cfg envs sw).1.feature_ix < cfg.EI_CLASSIFIER_DSP_INPUT_FRAME_SIZE ∧
    6 ∣ (run_written cfg envs sw).1.feature_ix ∧
    (run_written cfg envs sw).2 = List.range (run_written cfg envs sw).1.feature_ix := by
  induction envs using List.reverseRecOn with
  | nil => exact ⟨h1, h2, h3⟩
  | append_singleton envs env ih =>
    rw [run_written_snoc]
    exact loop_written_inv cfg hdiv env _ ih.1 ih.2.1 ih.2.2

/-! ### The window after fresh samples -/

theorem six_sets_append (pre tl : List ℚ) (v0 v1 v2 v3 v4 v5 : ℚ) (h : 6 ≤ tl.length) :
    (((((((pre ++ tl).set pre.length v0).set (pre.length + 1) v1).set (pre.length + 2) v2).set
      (pre.length + 3) v3).set (pre.length + 4) v4).set (pre.length + 5) v5)
      = pre ++ [v0, v1, v2, v3, v4, v5] ++ tl.drop 6 := by
  match tl, h with
  | a :: b :: c :: d :: e :: f :: tl, _ =>
    induction pre with
    | nil => simp
    | cons x pre ih =>
      simp only [List.cons_append, List.length_cons, List.set_cons_succ, Nat.add_right_comm _ 1]
      rw [ih]

theorem all_due_append (cfg : Config) (l₁ l₂ : List LoopEnv) (s : State) :
    all_due cfg (l₁ ++ l₂) s ↔ all_due cfg l₁ s ∧ all_due cfg l₂ (run cfg l₁ s) := by
  induction l₁ generalizing s with
  | nil => simp [all_due, run_nil]
  | cons env l₁ ih =>
    show due cfg env s ∧ all_due cfg (l₁ ++ l₂) (loop cfg env s) ↔ _
    rw [ih]
    simp only [all_due, run_cons, and_assoc]

theorem samples_length (envs : List LoopEnv) :
    (envs.flatMap sample_values).length = envs.length * 6 := by
  induction envs with
  | nil => rfl
  | cons env envs ih =>
    simp only [List.flatMap_cons, List.length_append, ih, List.length_cons]
    simp only [sample_values, List.length_cons, List.length_nil]
    omega

theorem at_full_test_fresh (cfg : Config) (env : LoopEnv) (s : State) (pre tl : List ℚ)
    (hfeat : s.features = pre ++ tl) (hix : s.feature_ix = pre.length) (h6 : 6 ≤ tl.length)
    (hlt : s.feature_ix < cfg.EI_CLASSIFIER_DSP_INPUT_FRAME_SIZE) :
    (at_full_test cfg env s).features = pre ++ sample_values env ++ tl.drop 6 ∧
    (at_full_test cfg env s).feature_ix = pre.length + 6 := by
  obtain ⟨a1, a2⟩ := at_full_test_lt cfg env s hlt
  rw [a1, a2, append_sample_lt cfg env s hlt, hix]
  refine ⟨?_, rfl⟩
  show (((((s.features.set pre.length _).set _ _).set _ _).set _ _).set _ _).set _ _ = _
  rw [hfeat, six_sets_append pre tl _ _ _ _ _ _ h6]
  rfl

theorem run_due_prefix (cfg : Config) (s : State) (h0 : s.feature_ix = 0)
    (hlen : s.features.length = cfg.EI_CLASSIFIER_DSP_INPUT_FRAME_SIZE)
    (envs : List LoopEnv) :
    envs.length * 6 < cfg.EI_CLASSIFIER_DSP_INPUT_FRAME_SIZE → all_due cfg envs s →
    (run cfg envs s).feature_ix = envs.length * 6 ∧
    (run cfg envs s).features
      = envs.flatMap sample_values ++ s.features.drop (envs.length * 6) ∧
    (run cfg envs s).debug_nn = s.debug_nn := by
  induction envs using List.reverseRecOn with
  | nil =>
    intro _ _
    simp [run_nil, h0]
  | append_singleton envs env ih =>
    intro hk hdue
    simp only [List.length_append, List.length_singleton] at hk
    obtain ⟨hd1, hd2, _⟩ := (all_due_append cfg envs [env] s).mp hdue
    obtain ⟨i1, i2, i3⟩ := ih (by omega) hd1
    have hlt : (run cfg envs s).feature_ix < cfg.EI_CLASSIFIER_DSP_INPUT_FRAME_SIZE := by
      rw [i1]; omega
    obtain ⟨f1, f2⟩ := at_full_test_fresh cfg env (run cfg envs s) (envs.flatMap sample_values)
      (s.features.drop (envs.length * 6)) i2 (by rw [i1, samples_length])
      (by rw [List.length_drop, hlen]; omega) hlt
    obtain ⟨_, a2, _⟩ := at_full_test_rest cfg env (run cfg envs s)
    rw [samples_length] at f2
    rw [run_snoc]
    rcases loop_cases cfg env (run cfg envs s) with ⟨hnd, _⟩ | ⟨_, _, h⟩ | ⟨_, hf, _⟩
    · exact absurd hd2 hnd
    · rw [h]
      refine ⟨?_, ?_, ?_⟩
      · show (at_full_test cfg env (run cfg envs s)).feature_ix = _
        rw [f2, List.length_append, List.length_singleton]; omega
      · show (at_full_test cfg env (run cfg envs s)).features = _
        rw [f1, List.drop_drop, List.flatMap_append, List.length_append, List.length_singleton]
        simp only [List.flatMap_cons, List.flatMap_nil, List.append_nil]
        congr 2
        omega
      · show (at_full_test cfg env (run cfg envs s)).debug_nn = _
        rw [a2, i3]
    · rw [f2] at hf
      omega

theorem samples_getElem (envs : List LoopEnv) (j i : Nat) (hi : i < 6) :
    (envs.flatMap sample_values)[6 * j + i]?
      = (envs[j]?).bind (fun env => (sample_values env)[i]?) := by
  induction envs generalizing j with
  | nil => simp
  | cons env envs ih =>
    have hl : (sample_values env).length = 6 := rfl
    rw [List.flatMap_cons]
    cases j with
    | zero =>
      rw [List.getElem?_append_left (by rw [hl]; omega)]
      simp
    | succ j =>
      rw [List.getElem?_append_right (by rw [hl]; omega), hl]
      have : 6 * (j + 1) + i - 6 = 6 * j + i := by omega
      rw [this, ih]
      simp

/-! ### The parts of `calculate_average_confidence` -/

theorem calculate_average_confidence_eq (s : State) :
    calculate_average_confidence s
      = if early_return s = true then 0 else history_sum s / (samples_to_use s : ℚ) := rfl

theorem past_early_return (s : State) (hi : s.confidence_index < CONFIDENCE_SAMPLES)
    (he : early_return s = false) :
    s.confidence_buffer_full = true ∧ samples_to_use s = CONFIDENCE_SAMPLES := by
  have hf : s.confidence_buffer_full = true := by
    cases hfull : s.confidence_buffer_full
    · simp [early_return, hfull, hi] at he
    · rfl
  exact ⟨hf, by simp [samples_to_use, hf]⟩

/-! ### Invariants of the confidence history under `loop` -/

theorem run_inference_history_inv (cfg : Config) (rc : Classifier) (s : State)
    (h : HistoryInv s) : HistoryInv (run_inference cfg rc s) := by
  obtain ⟨h1, h2, h3, h4, h5⟩ := h
  by_cases hok : (classifier_output cfg rc s).1 = cfg.EI_IMPULSE_OK
  · obtain ⟨f1, f2, f3, f4, f5, _⟩ := run_inference_ok_fields cfg rc s hok
    have havg := run_inference_ok_averages cfg rc s hok
    have hcalc := calculate_average_confidence_run_inference cfg rc s hok
    have hn : successful_windows (run_inference cfg rc s).trace
        = successful_windows s.trace + 1 := by
      simp only [successful_windows, havg, List.length_append, List.length_singleton]
    refine ⟨?_, ?_, ?_, ?_, ?_⟩
    · rw [f1, List.length_set, h1]
    · rw [f2, hn, h2]; simp only [CONFIDENCE_SAMPLES]; omega
    · rw [f3, hn, h2, h3, Bool.eq_iff_iff]
      simp only [Bool.or_eq_true, decide_eq_true_eq, CONFIDENCE_SAMPLES]
      omega
    · rw [f4, h4]
    · rw [f5, hcalc, h4]
  · rw [run_inference_err cfg rc s hok]
    refine ⟨h1, ?_, ?_, h4, ?_⟩
    · simp only [successful_windows, averages_append] at h2 ⊢
      simpa [averages] using h2
    · simp only [successful_windows, averages_append] at h3 ⊢
      simpa [averages] using h3
    · exact h5

theorem history_inv_congr (s t : State) (h : HistoryInv s)
    (e1 : t.confidence_history = s.confidence_history)
    (e2 : t.confidence_index = s.confidence_index)
    (e3 : t.confidence_buffer_full = s.confidence_buffer_full)
    (e4 : t.seizure_threshold = s.seizure_threshold)
    (e5 : t.alert_active = s.alert_active)
    (e6 : averages t.trace = averages s.trace) : HistoryInv t := by
  obtain ⟨h1, h2, h3, h4, h5⟩ := h
  have hc := calculate_average_confidence_congr t s e1 e2 e3
  simp only [successful_windows] at h2 h3
  exact ⟨by rw [e1, h1], by simp only [e2, h2, successful_windows, e6],
    by simp only [e3, h3, successful_windows, e6], by rw [e4, h4], by rw [e5, h5, hc]⟩

theorem at_full_test_history_inv (cfg : Config) (env : LoopEnv) (s : State)
    (h : HistoryInv s) : HistoryInv (at_full_test cfg env s) := by
  obtain ⟨_, _, a3, a4, a5, a6, a7, _, _, a10⟩ := at_full_test_rest cfg env s
  exact history_inv_congr s _ h a5 a6 a7 a4 a3 (by rw [a10, averages_append]; simp [averages])

theorem loop_history_inv (cfg : Config) (env : LoopEnv) (s : State) (h : HistoryInv s) :
    HistoryInv (loop cfg env s) := by
  have ha := at_full_test_history_inv cfg env s h
  rcases loop_cases cfg env s with ⟨_, e⟩ | ⟨_, _, e⟩ | ⟨_, _, e⟩
  · rw [e]
    exact history_inv_congr s _ h rfl rfl rfl rfl rfl
      (by simp only [emit, averages_append]; simp [averages])
  · rw [e]
    exact history_inv_congr _ _ ha rfl rfl rfl rfl rfl
      (by simp only [emit, averages_append]; simp [averages])
  · rw [e]
    exact history_inv_congr _ _ (run_inference_history_inv cfg env.run_classifier _ ha)
      rfl rfl rfl rfl rfl (by simp only [emit, averages_append]; simp [averages])

theorem run_history_inv (cfg : Config) (envs : List LoopEnv) (s : State) (h : HistoryInv s) :
    HistoryInv (run cfg envs s) := by
  induction envs generalizing s with
  | nil => exact h
  | cons env envs ih =>
    rw [run_cons]
    exact ih _ (loop_history_inv cfg env s h)

theorem setup_history_inv (cfg : Config) (a b : Bool) (s0 : State)
    (h : setup true (power_on cfg a b) = some s0) : HistoryInv s0 := by
  rw [setup_eq] at h
  have hs0 := (Option.some.inj h).symm
  rw [hs0]
  refine ⟨by simp [power_on, CONFIDENCE_SAMPLES], ?_, ?_, rfl, ?_⟩
  · simp [power_on, successful_windows, averages]
  · simp [power_on, successful_windows, averages]
  · simp [power_on, calculate_average_confidence, CONFIDENCE_SAMPLES]
    norm_num

theorem reachable_history_inv (cfg : Config) (s : State) (h : Reachable cfg s) :
    HistoryInv s := by
  obtain ⟨a, b, s0, envs, hsetup, rfl⟩ := h
  exact run_history_inv cfg envs s0 (setup_history_inv cfg a b s0 hsetup)

/-! ### The label loop -/

theorem label_fold_succ (result : ei_impulse_result_t) (n : Nat) :
    (List.range (n + 1)).foldl
        (fun c ix =>
          if (result.classification.getD ix ⟨"", 0⟩).label = "seizure"
          then (result.classification.getD ix ⟨"", 0⟩).value else c) 0
      = if (result.classification.getD n ⟨"", 0⟩).label = "seizure"
        then (result.classification.getD n ⟨"", 0⟩).value
        else (List.range n).foldl
          (fun c ix =>
            if (result.classification.getD ix ⟨"", 0⟩).label = "seizure"
            then (result.classification.getD ix ⟨"", 0⟩).value else c) 0 := by
  rw [List.range_succ, List.foldl_append]
  rfl

theorem label_fold_none (result : ei_impulse_result_t) (n : Nat)
    (h : ∀ ix, ix < n → (result.classification.getD ix ⟨"", 0⟩).label ≠ "seizure") :
    (List.range n).foldl
        (fun c ix =>
          if (result.classification.getD ix ⟨"", 0⟩).label = "seizure"
          then (result.classification.getD ix ⟨"", 0⟩).value else c) 0 = 0 := by
  induction n with
  | zero => rfl
  | succ n ih =>
    rw [label_fold_succ, if_neg (h n (Nat.lt_succ_self n))]
    exact ih (fun ix hix => h ix (Nat.lt_succ_of_lt hix))

theorem label_fold_last (result : ei_impulse_result_t) (n ix : Nat) (hix : ix < n)
    (hl : (result.classification.getD ix ⟨"", 0⟩).label = "seizure")
    (hlast : ∀ j, ix < j → j < n →
      (result.classification.getD j ⟨"", 0⟩).label ≠ "seizure") :
    (List.range n).foldl
        (fun c ix =>
          if (result.classification.getD ix ⟨"", 0⟩).label = "seizure"
          then (result.classification.getD ix ⟨"", 0⟩).value else c) 0
      = (result.classification.getD ix ⟨"", 0⟩).value := by
  induction n with
  | zero => exact absurd hix (Nat.not_lt_zero _)
  | succ n ih =>
    rw [label_fold_succ]
    by_cases hn : ix = n
    · rw [← hn, if_pos hl]
    · have hlt : ix < n := by omega
      rw [if_neg (hlast n hlt (Nat.lt_succ_self n))]
      exact ih hlt (fun j h1 h2 => hlast j h1 (Nat.lt_succ_of_lt h2))

/-! ### A history of zeros -/

theorem zero_history_sum (l : List Nat) (acc : ℚ) :
    l.foldl (fun sum i => sum + (List.replicate CONFIDENCE_SAMPLES (0 : ℚ)).getD i 0) acc
      = acc := by
  induction l generalizing acc with
  | nil => rfl
  | cons i l ih =>
    rw [List.foldl_cons, ih]
    have : (List.replicate CONFIDENCE_SAMPLES (0 : ℚ)).getD i 0 = 0 := by
      simp only [List.getD_eq_getElem?_getD, List.getElem?_replicate]
      split_ifs <;> rfl
    rw [this, add_zero]

theorem zero_history_average (s : State)
    (h : s.confidence_history = List.replicate CONFIDENCE_SAMPLES 0) :
    calculate_average_confidence s = 0 := by
  rw [calculate_average_confidence_eq]
  split_ifs
  · rfl
  · rw [history_sum, h, zero_history_sum, zero_div]

theorem zero_history_set (i : Nat) :
    (List.replicate CONFIDENCE_SAMPLES (0 : ℚ)).set i 0 = List.replicate CONFIDENCE_SAMPLES 0 := by
  apply List.ext_getElem?
  intro j
  simp only [List.getElem?_set, List.getElem?_replicate, List.length_replicate]
  split_ifs <;> first | rfl | omega

/-! ### Runs in which no classifier reports `seizure` -/

theorem seizure_confidence_none (cfg : Config) (result : ei_impulse_result_t)
    (h : no_seizure_label cfg result) : seizure_confidence cfg result = 0 :=
  label_fold_none result cfg.EI_CLASSIFIER_LABEL_COUNT h

theorem run_inference_calm (cfg : Config) (rc : Classifier) (s : State)
    (hrc : never_seizure cfg rc) (h : CalmInv s) : CalmInv (run_inference cfg rc s) := by
  obtain ⟨h1, h2, h3, h4, h5, h6, h7⟩ := h
  by_cases hok : (classifier_output cfg rc s).1 = cfg.EI_IMPULSE_OK
  · have hc : seizure_confidence cfg (classifier_output cfg rc s).2 = 0 :=
      seizure_confidence_none cfg _ (hrc _ _)
    obtain ⟨f1, _, _, f4, f5, _⟩ := run_inference_ok_fields cfg rc s hok
    have havg := run_inference_ok_averages cfg rc s hok
    have hcalc := calculate_average_confidence_run_inference cfg rc s hok
    obtain ⟨c1, _, c3, _⟩ := run_inference_ok_counts cfg rc s hok
    have hhist : (run_inference cfg rc s).confidence_history
        = List.replicate CONFIDENCE_SAMPLES 0 := by
      rw [f1, hc, h1, zero_history_set]
    have hzero : window_average (seizure_confidence cfg (classifier_output cfg rc s).2) s = 0 := by
      rw [← hcalc]; exact zero_history_average _ hhist
    have hrise : spec_rise s.alert_active (0 : ℚ) s.seizure_threshold = 0 := by
      rw [h3]; simp only [spec_rise]; norm_num
    rw [hzero] at f5 havg c1 c3
    refine ⟨hhist, ?_, by rw [f4, h3], ?_, ?_, ?_, ?_⟩
    · rw [f5, h3]; norm_num
    · intro avg hmem
      rw [havg, List.mem_append, List.mem_singleton] at hmem
      rcases hmem with hmem | hmem
      · exact h4 avg hmem
      · exact hmem
    · rw [c1, h5, hrise]
    · rw [(c3 ALERT_PIN (Or.inl rfl)).1, h6, hrise]
    · rw [(c3 BUZZER_PIN (Or.inr rfl)).1, h7, hrise]
  · rw [run_inference_err cfg rc s hok]
    refine ⟨h1, h2, h3, ?_, ?_, ?_, ?_⟩
    · intro avg hmem
      apply h4 avg
      simpa [averages] using hmem
    · simpa [trigger_alert_calls, List.count_append, List.count_cons] using h5
    · simpa [pin_writes, List.count_append, List.count_cons] using h6
    · simpa [pin_writes, List.count_append, List.count_cons] using h7

theorem calm_inv_congr (s t : State) (e : Event) (h : CalmInv s)
    (e1 : t.confidence_history = s.confidence_history)
    (e2 : t.alert_active = s.alert_active)
    (e3 : t.seizure_threshold = s.seizure_threshold)
    (e4 : t.trace = s.trace ++ [e]) (he : e = Event.getEvent ∨ e = Event.delay 1) :
    CalmInv t := by
  obtain ⟨h1, h2, h3, h4, h5, h6, h7⟩ := h
  refine ⟨by rw [e1, h1], by rw [e2, h2], by rw [e3, h3], ?_, ?_, ?_, ?_⟩
  · intro avg hmem
    apply h4 avg
    rw [e4, averages_append] at hmem
    rcases he with rfl | rfl <;> simpa [averages] using hmem
  · rw [e4]
    rcases he with rfl | rfl <;>
      simpa [trigger_alert_calls, List.count_append, List.count_cons] using h5
  · rw [e4]
    rcases he with rfl | rfl <;>
      simpa [pin_writes, List.count_append, List.count_cons] using h6
  · rw [e4]
    rcases he with rfl | rfl <;>
      simpa [pin_writes, List.count_append, List.count_cons] using h7

theorem loop_calm (cfg : Config) (env : LoopEnv) (s : State)
    (hrc : never_seizure cfg env.run_classifier) (h : CalmInv s) :
    CalmInv (loop cfg env s) := by
  obtain ⟨_, _, a3, a4, a5, _, _, _, _, a10⟩ := at_full_test_rest cfg env s
  have ha : CalmInv (at_full_test cfg env s) :=
    calm_inv_congr s _ Event.getEvent h a5 a3 a4 a10 (Or.inl rfl)
  rcases loop_cases cfg env s with ⟨_, e⟩ | ⟨_, _, e⟩ | ⟨_, _, e⟩
  · rw [e]
    exact calm_inv_congr s _ (Event.delay 1) h rfl rfl rfl rfl (Or.inr rfl)
  · rw [e]
    exact calm_inv_congr _ _ (Event.delay 1) ha rfl rfl rfl rfl (Or.inr rfl)
  · rw [e]
    exact calm_inv_congr _ _ (Event.delay 1)
      (run_inference_calm cfg env.run_classifier _ hrc ha) rfl rfl rfl rfl (Or.inr rfl)

theorem run_calm (cfg : Config) (envs : List LoopEnv) (s : State)
    (hrc : ∀ env ∈ envs, never_seizure cfg env.run_classifier) (h : CalmInv s) :
    CalmInv (run cfg envs s) := by
  induction envs generalizing s with
  | nil => exact h
  | cons env envs ih =>
    rw [run_cons]
    exact ih _ (fun e he => hrc e (List.mem_cons_of_mem _ he))
      (loop_calm cfg env s (hrc env (List.mem_cons_self _ _)) h)

theorem setup_calm (cfg : Config) (a b : Bool) (s0 : State)
    (h : setup true (power_on cfg a b) = some s0) : CalmInv s0 := by
  rw [setup_eq] at h
  have hs0 := (Option.some.inj h).symm
  rw [hs0]
  refine ⟨rfl, rfl, rfl, ?_, ?_, ?_, ?_⟩
  · simp [power_on, averages]
  · simp [power_on, trigger_alert_calls]
  · simp [power_on, pin_writes, HIGH]
  · simp [power_on, pin_writes, HIGH]

theorem example_calm_never_seizure (t : Nat) :
    never_seizure example_config (example_calm_tick t).run_classifier := by
  intro signal debug ix hix
  have h2 : ix < 2 := hix
  show (example_calm_result.classification.getD ix ⟨"", 0⟩).label ≠ "seizure"
  interval_cases ix
  · show "idle" ≠ "seizure"
    decide
  · show "walking" ≠ "seizure"
    decide

/-! ### Unsigned elapsed time -/

theorem usub_eq_emod (w a b : Nat) :
    ((usub w a b : Nat) : Int) = ((a : Int) - (b : Int)) % (2 : Int) ^ w := by
  have hP : 0 < 2 ^ w := Nat.pow_pos (by norm_num)
  have hb : b % 2 ^ w ≤ 2 ^ w := le_of_lt (Nat.mod_lt _ hP)
  simp only [usub]
  push_cast [Nat.cast_sub hb]
  have h1 : ((a : Int) % 2 ^ w) ≡ a [ZMOD 2 ^ w] := Int.mod_modEq _ _
  have h2 : ((b : Int) % 2 ^ w) ≡ b [ZMOD 2 ^ w] := Int.mod_modEq _ _
  have h3 : ((2 : Int) ^ w) ≡ 0 [ZMOD 2 ^ w] := Int.emod_self
  have h := h1.add (h3.sub h2)
  rw [zero_sub, ← sub_eq_add_neg] at h
  exact h

theorem usub_elapsed (w last t : Nat) (hl : last < 2 ^ w) (ht : t < 2 ^ w) :
    usub w ((last + t) % 2 ^ w) last = t := by
  simp only [usub, Nat.mod_mod, Nat.mod_eq_of_lt hl]
  by_cases h : last + t < 2 ^ w
  · rw [Nat.mod_eq_of_lt h]
    have : last + t + (2 ^ w - last) = t + 2 ^ w := by omega
    rw [this, Nat.add_mod_right, Nat.mod_eq_of_lt ht]
  · have e : (last + t) % 2 ^ w = last + t - 2 ^ w := by
      rw [Nat.mod_eq_sub_mod (le_of_not_lt h), Nat.mod_eq_of_lt (by omega)]
    rw [e]
    have : last + t - 2 ^ w + (2 ^ w - last) = t := by omega
    rw [this, Nat.mod_eq_of_lt ht]

theorem loop_last_time (cfg : Config) (env : LoopEnv) (s : State)
    (h : s.lastTime < 2 ^ cfg.ULONG_BITS) : (loop cfg env s).lastTime < 2 ^ cfg.ULONG_BITS := by
  have hP : 0 < 2 ^ cfg.ULONG_BITS := Nat.pow_pos (by norm_num)
  rcases loop_cases cfg env s with ⟨_, e⟩ | ⟨_, _, e⟩ | ⟨_, _, e⟩
  · rw [e]; exact h
  · rw [e]; exact Nat.mod_lt _ hP
  · rw [e]; exact Nat.mod_lt _ hP

theorem run_last_time (cfg : Config) (envs : List LoopEnv) (s : State)
    (h : s.lastTime < 2 ^ cfg.ULONG_BITS) : (run cfg envs s).lastTime < 2 ^ cfg.ULONG_BITS := by
  induction envs generalizing s with
  | nil => exact h
  | cons env envs ih => rw [run_cons]; exact ih _ (loop_last_time cfg env s h)

theorem reachable_last_time (cfg : Config) (s : State) (h : Reachable cfg s) :
    s.lastTime < 2 ^ cfg.ULONG_BITS := by
  obtain ⟨a, b, s0, envs, hsetup, rfl⟩ := h
  rw [setup_eq] at hsetup
  have hs0 := (Option.some.inj hsetup).symm
  apply run_last_time
  rw [hs0]
  exact Nat.pow_pos (by norm_num)

/-! ### The write index stays below the window length -/

theorem loop_index_lt (cfg : Config) (env : LoopEnv) (s : State)
    (h : s.feature_ix < cfg.EI_CLASSIFIER_DSP_INPUT_FRAME_SIZE) :
    (loop cfg env s).feature_ix < cfg.EI_CLASSIFIER_DSP_INPUT_FRAME_SIZE := by
  rcases loop_cases cfg env s with ⟨_, e⟩ | ⟨_, hnf, e⟩ | ⟨_, _, e⟩
  · rw [e]; exact h
  · rw [e]; exact not_le.mp hnf
  · rw [e]; exact lt_of_le_of_lt (Nat.zero_le _) h

theorem reachable_index_lt (cfg : Config) (hpos : 0 < cfg.EI_CLASSIFIER_DSP_INPUT_FRAME_SIZE)
    (s : State) (h : Reachable cfg s) :
    s.feature_ix < cfg.EI_CLASSIFIER_DSP_INPUT_FRAME_SIZE := by
  obtain ⟨a, b, s0, envs, hsetup, rfl⟩ := h
  rw [setup_eq] at hsetup
  have hs0 := (Option.some.inj hsetup).symm
  have h0 : s0.feature_ix < cfg.EI_CLASSIFIER_DSP_INPUT_FRAME_SIZE := by rw [hs0]; exact hpos
  clear hs0 hsetup
  induction envs generalizing s0 with
  | nil => exact h0
  | cons env envs ih => rw [run_cons]; exact ih _ (loop_index_lt cfg env s0 h0)

theorem six_sets_stored (l : List ℚ) (n : Nat) (v0 v1 v2 v3 v4 v5 : ℚ)
    (i : Nat) (hi : i < 6) (hn : n + i < l.length) :
    ((((((l.set n v0).set (n + 1) v1).set (n + 2) v2).set (n + 3) v3).set (n + 4) v4).set
      (n + 5) v5)[n + i]? = [v0, v1, v2, v3, v4, v5][i]? := by
  interval_cases i <;> simp [List.getElem?_set] <;> omega

/-! ### Sensor reads -/

theorem run_inference_sensor_reads (cfg : Config) (rc : Classifier) (s : State) :
    sensor_reads (run_inference cfg rc s).trace = sensor_reads s.trace := by
  by_cases h : (classifier_output cfg rc s).1 = cfg.EI_IMPULSE_OK
  · rw [run_inference_ok cfg rc s h]
    generalize (classifier_output cfg rc s).2 = result
    have hl : List.count Event.getEvent (label_events cfg result) = 0 := by
      simp [label_events, List.count_eq_zero]
    have hb : sensor_reads (before_evaluation cfg result s).trace = sensor_reads s.trace := by
      simp [sensor_reads, before_evaluation, window_events, List.count_append, hl,
        List.count_cons]
    rcases alert_evaluation_cases (window_average (seizure_confidence cfg result) s)
      (before_evaluation cfg result s) with
      ⟨_, _, h3⟩ | ⟨_, _, h3⟩ | ⟨_, _, h3⟩ | ⟨_, _, h3⟩
    · rw [h3, trigger_alert_eq]
      simp only [sensor_reads] at hb ⊢
      simp [List.count_append, hb, List.count_cons]
    · rw [h3, stop_alert_eq]
      simp only [sensor_reads] at hb ⊢
      simp [List.count_append, hb, List.count_cons]
    · rw [h3, hb]
    · rw [h3, hb]
  · rw [run_inference_err cfg rc s h]
    simp [sensor_reads, List.count_append, List.count_cons]

theorem loop_sensor_reads (cfg : Config) (env : LoopEnv) (s : State) :
    sensor_reads (loop cfg env s).trace
      = sensor_reads s.trace + (if due cfg env s then 1 else 0) := by
  obtain ⟨_, _, _, _, _, _, _, _, _, a10⟩ := at_full_test_rest cfg env s
  rcases loop_cases cfg env s with ⟨hd, h⟩ | ⟨hd, _, h⟩ | ⟨hd, _, h⟩
  · rw [h, if_neg hd]
    simp [emit, sensor_reads, List.count_append, List.count_cons]
  · rw [h, if_pos hd]
    simp [emit, a10, sensor_reads, List.count_append, List.count_cons]
  · have hc := run_inference_sensor_reads cfg env.run_classifier (at_full_test cfg env s)
    simp only [sensor_reads, a10] at hc ⊢
    rw [h, if_pos hd]
    simp only [emit, List.count_append, hc]
    simp [List.count_cons]

/-! ### Due ticks that do not fill the window -/

theorem all_due_take (cfg : Config) (envs : List LoopEnv) (s : State) (k : Nat)
    (h : all_due cfg envs s) : all_due cfg (envs.take k) s := by
  have hsplit : envs = envs.take k ++ envs.drop k := (List.take_append_drop k envs).symm
  rw [hsplit] at h
  exact ((all_due_append cfg _ _ s).mp h).1

theorem run_due_calls (cfg : Config) (s : State) (h0 : s.feature_ix = 0)
    (envs : List LoopEnv) :
    envs.length * 6 < cfg.EI_CLASSIFIER_DSP_INPUT_FRAME_SIZE → all_due cfg envs s →
    (run cfg envs s).feature_ix = envs.length * 6 ∧
    classifier_calls (run cfg envs s).trace = classifier_calls s.trace := by
  induction envs using List.reverseRecOn with
  | nil =>
    intro _ _
    simp [run_nil, h0]
  | append_singleton envs env ih =>
    intro hk hdue
    simp only [List.length_append, List.length_singleton] at hk
    obtain ⟨hd1, hd2, _⟩ := (all_due_append cfg envs [env] s).mp hdue
    obtain ⟨i1, i2⟩ := ih (by omega) hd1
    have hlt : (run cfg envs s).feature_ix < cfg.EI_CLASSIFIER_DSP_INPUT_FRAME_SIZE := by
      rw [i1]; omega
    obtain ⟨a1, _⟩ := at_full_test_lt cfg env (run cfg envs s) hlt
    have hnd : ¬ detects_full cfg env (run cfg envs s) := by
      rintro ⟨_, hf⟩
      rw [a1, i1] at hf
      omega
    rw [run_snoc, loop_classifier_calls, if_neg hnd, add_zero, i2]
    refine ⟨?_, rfl⟩
    rcases loop_cases cfg env (run cfg envs s) with ⟨hnd', _⟩ | ⟨_, _, e⟩ | ⟨hd, hf, _⟩
    · exact absurd hd2 hnd'
    · rw [e]
      show (at_full_test cfg env (run cfg envs s)).feature_ix = _
      rw [a1, i1, List.length_append, List.length_singleton]; omega
    · exact absurd ⟨hd, hf⟩ hnd

theorem loop_full_reset (cfg : Config) (env : LoopEnv) (s : State)
    (h : detects_full cfg env s) :
    loop cfg env s
      = emit (Event.delay 1)
          { run_inference cfg env.run_classifier (at_full_test cfg env s) with
            feature_ix := 0
            lastTime := env.millis_last % 2 ^ cfg.ULONG_BITS } := by
  rcases loop_cases cfg env s with ⟨hnd, _⟩ | ⟨_, hnf, _⟩ | ⟨_, _, e⟩
  · exact absurd h.1 hnd
  · exact absurd h.2 hnf
  · exact e

/-! ### What a due call of `loop` stores -/

theorem loop_due_features (cfg : Config) (env : LoopEnv) (s : State)
    (hd : due cfg env s) (hix : s.feature_ix < cfg.EI_CLASSIFIER_DSP_INPUT_FRAME_SIZE) :
    (loop cfg env s).features
      = (((((s.features.set s.feature_ix env.a_acceleration.x).set
          (s.feature_ix + 1) env.a_acceleration.y).set
          (s.feature_ix + 2) env.a_acceleration.z).set
          (s.feature_ix + 3) env.g_gyro.x).set
          (s.feature_ix + 4) env.g_gyro.y).set
          (s.feature_ix + 5) env.g_gyro.z ∧
    (loop cfg env s).feature_ix
      = (if cfg.EI_CLASSIFIER_DSP_INPUT_FRAME_SIZE ≤ s.feature_ix + 6 then 0
          else s.feature_ix + 6) ∧
    (detects_full cfg env s ↔ cfg.EI_CLASSIFIER_DSP_INPUT_FRAME_SIZE ≤ s.feature_ix + 6) := by
  obtain ⟨a1, a2⟩ := at_full_test_lt cfg env s hix
  have hfeat : (at_full_test cfg env s).features
      = (((((s.features.set s.feature_ix env.a_acceleration.x).set
          (s.feature_ix + 1) env.a_acceleration.y).set
          (s.feature_ix + 2) env.a_acceleration.z).set
          (s.feature_ix + 3) env.g_gyro.x).set
          (s.feature_ix + 4) env.g_gyro.y).set
          (s.feature_ix + 5) env.g_gyro.z := by
    rw [a2, append_sample_lt cfg env s hix]
  have hdet : detects_full cfg env s
      ↔ cfg.EI_CLASSIFIER_DSP_INPUT_FRAME_SIZE ≤ s.feature_ix + 6 := by
    constructor
    · rintro ⟨_, hf⟩
      rw [a1] at hf
      exact hf
    · intro hf
      refine ⟨hd, ?_⟩
      rw [a1]
      exact hf
  refine ⟨?_, ?_, hdet⟩
  · rcases loop_cases cfg env s with ⟨hnd, _⟩ | ⟨_, _, e⟩ | ⟨_, _, e⟩
    · exact absurd hd hnd
    · rw [e]; exact hfeat
    · rw [e]
      show (run_inference cfg env.run_classifier (at_full_test cfg env s)).features = _
      rw [(run_inference_features cfg env.run_classifier _).1, hfeat]
  · rcases loop_cases cfg env s with ⟨hnd, _⟩ | ⟨_, hnf, e⟩ | ⟨_, hf, e⟩
    · exact absurd hd hnd
    · rw [a1] at hnf
      rw [e, if_neg hnf]
      exact a1
    · rw [a1] at hf
      rw [e, if_pos hf]
      rfl

/-! ### The first five windows in binary32 -/

theorem threshold_f32_value :
    startup_f32.seizure_threshold = 11744051 * 2 ^ 125 ∧
    fp_value startup_f32.seizure_threshold = 11744051 / 16777216 := by
  have h : startup_f32.seizure_threshold = 11744051 * 2 ^ 125 := by decide
  refine ⟨h, ?_⟩
  rw [h]
  simp only [fp_value]
  norm_num

theorem windows_f32_before_fifth (c1 c2 c3 c4 : Nat) (k : Nat) (hk : k ≤ 4) :
    (windows_f32 ([c1, c2, c3, c4].take k) startup_f32).alert_active = false ∧
    (windows_f32 ([c1, c2, c3, c4].take k) startup_f32).trigger_alert_calls = 0 ∧
    (windows_f32 ([c1, c2, c3, c4].take k) startup_f32).stop_alert_calls = 0 ∧
    calculate_average_confidence_f32 (windows_f32 ([c1, c2, c3, c4].take k) startup_f32) = 0 ∧
    (windows_f32 ([c1, c2, c3, c4].take k) startup_f32).confidence_history
      = [c1, c2, c3, c4].take k ++ List.replicate (5 - k) 0 := by
  interval_cases k <;>
    simp [windows_f32, run_inference_f32, startup_f32, calculate_average_confidence_f32,
      CONFIDENCE_SAMPLES]

theorem windows_f32_fifth (c1 c2 c3 c4 c5 : Nat) :
    windows_f32 [c1, c2, c3, c4, c5] startup_f32
      = (if f32_div_int (f32_add (f32_add (f32_add (f32_add (f32_add 0 c1) c2) c3) c4) c5) 5
            > startup_f32.seizure_threshold then
          { startup_f32 with
            alert_active := true
            confidence_history := [c1, c2, c3, c4, c5]
            confidence_buffer_full := true
            trigger_alert_calls := 1 }
        else
          { startup_f32 with
            confidence_history := [c1, c2, c3, c4, c5]
            confidence_buffer_full := true }) := by
  simp [windows_f32, run_inference_f32, startup_f32, calculate_average_confidence_f32,
    CONFIDENCE_SAMPLES, List.range, List.range.loop]

theorem example_mean_above_values :
    example_mean_above
      = [9227469 * 2 ^ 125, 13589545 * 2 ^ 125, 2 ^ 148, 15435039 * 2 ^ 125,
          3019899 * 2 ^ 127] := by
  decide

theorem example_mean_equal_values :
    example_mean_equal
      = [4152361 * 2 ^ 127, 2 ^ 148, 5200937 * 2 ^ 126, 5452595 * 2 ^ 126,
          3103785 * 2 ^ 127] := by
  decide

/-! ## The claims -/

/-- C1: from a startup state (history all `0`, index `0`, not full), for every
sequence of successful windows with seizure confidences `cs = c_1, c_2, ...`,
the averages that `run_inference` computes (and prints), in order, are
`spec_average cs 1, spec_average cs 2, ...`: the `k`-th is `0` for
`1 ≤ k ≤ N - 1` and `(c_{k-N+1} + ... + c_k) / N` for `k ≥ N`, with `N = 5`. The
same value is what `calculate_average_confidence` returns on the state after
the `k`-th window. -/
theorem C1_average_after_k_recordings (cfg : Config) (s0 : State)
    (h_hist : s0.confidence_history = List.replicate CONFIDENCE_SAMPLES 0)
    (h_idx : s0.confidence_index = 0) (h_full : s0.confidence_buffer_full = false)
    (results : List ei_impulse_result_t) :
    averages (windows cfg results s0).trace
      = averages s0.trace ++ (List.range results.length).map
          (fun j => spec_average (results.map (seizure_confidence cfg)) (j + 1)) ∧
    (∀ k, k ≤ results.length →
      calculate_average_confidence (windows cfg (results.take k) s0)
        = spec_average (results.map (seizure_confidence cfg)) k) ∧
    (∀ k, 1 ≤ k → k ≤ CONFIDENCE_SAMPLES - 1 →
      spec_average (results.map (seizure_confidence cfg)) k = 0) ∧
    (∀ k, CONFIDENCE_SAMPLES ≤ k →
      spec_average (results.map (seizure_confidence cfg)) k
        = ((((results.map (seizure_confidence cfg)).take k).drop (k - 5)).sum) / 5) := by
  refine ⟨?_, ?_, ?_, ?_⟩
  · induction results using List.reverseRecOn with
    | nil => simp [windows_nil]
    | append_singleton results result ih =>
      rw [windows_snoc, run_inference_ok_averages _ _ _ rfl, ih, List.append_assoc]
      congr 1
      rw [← calculate_average_confidence_run_inference _ _ _ rfl, ← windows_snoc,
        windows_average cfg s0 h_hist h_idx h_full]
      simp only [List.length_append, List.length_singleton, List.map_append, List.map_cons,
        List.map_nil, List.range_succ]
      congr 1
      apply List.map_congr_left
      intro j hj
      rw [spec_average_snoc]
      simp only [List.length_map]
      exact Nat.succ_le_of_lt (List.mem_range.mp hj)
  · intro k hk
    rw [windows_average cfg s0 h_hist h_idx h_full]
    simp only [spec_average, List.length_take, Nat.min_eq_left hk, List.map_take,
      List.take_take, Nat.min_self]
  · intro k h1 h4
    have : k < CONFIDENCE_SAMPLES := by simp only [CONFIDENCE_SAMPLES] at h4 ⊢; omega
    simp [spec_average, this]
  · intro k h5
    simp only [spec_average, not_lt.mpr h5, if_false]
    norm_num [CONFIDENCE_SAMPLES]

/-- Witness for C1: five windows with confidence `9/10` after startup. -/
theorem C1_average_after_k_recordings_witness :
    averages (windows example_config (List.replicate 5 (example_result (9 / 10)))
        example_start).trace
      = averages example_start.trace
        ++ (List.range (List.replicate 5 (example_result (9 / 10))).length).map
          (fun j => spec_average
            ((List.replicate 5 (example_result (9 / 10))).map
              (seizure_confidence example_config)) (j + 1)) :=
  (C1_average_after_k_recordings example_config example_start rfl rfl rfl
    (List.replicate 5 (example_result (9 / 10)))).1

/-- C2: the alert evaluation at the end of a successful `run_inference` is the
step function of the specification. With `avg` the average computed in the
call: from `IDLE` with `avg > threshold` the call ends as `trigger_alert` on the
state reached before the evaluation and the new state is `ALERT`; from `ALERT`
with `avg ≤ threshold` it ends as `stop_alert` and the new state is `IDLE`; in
the two other cases the state reached before the evaluation is returned as it
is, the alert state is unchanged and neither function is called. The new alert
state is `spec_alert_step`, and an average equal to the threshold always yields
`IDLE`. -/
theorem C2_alert_evaluation_is_step_function (cfg : Config) (rc : Classifier) (s : State)
    (h : (classifier_output cfg rc s).1 = cfg.EI_IMPULSE_OK) :
    (s.alert_active = false ∧
        window_average (seizure_confidence cfg (classifier_output cfg rc s).2) s
          > s.seizure_threshold →
      run_inference cfg rc s
          = trigger_alert (before_evaluation cfg (classifier_output cfg rc s).2 s) ∧
        (run_inference cfg rc s).alert_active = true) ∧
    (s.alert_active = true ∧
        window_average (seizure_confidence cfg (classifier_output cfg rc s).2) s
          ≤ s.seizure_threshold →
      run_inference cfg rc s
          = stop_alert (before_evaluation cfg (classifier_output cfg rc s).2 s) ∧
        (run_inference cfg rc s).alert_active = false) ∧
    ((s.alert_active = false ∧
        window_average (seizure_confidence cfg (classifier_output cfg rc s).2) s
          ≤ s.seizure_threshold) ∨
      (s.alert_active = true ∧
        window_average (seizure_confidence cfg (classifier_output cfg rc s).2) s
          > s.seizure_threshold) →
      run_inference cfg rc s = before_evaluation cfg (classifier_output cfg rc s).2 s ∧
        (run_inference cfg rc s).alert_active = s.alert_active ∧
        trigger_alert_calls (run_inference cfg rc s).trace = trigger_alert_calls s.trace ∧
        stop_alert_calls (run_inference cfg rc s).trace = stop_alert_calls s.trace ∧
        output_writes (run_inference cfg rc s).trace = output_writes s.trace) ∧
    (run_inference cfg rc s).alert_active
      = spec_alert_step s.alert_active
          (window_average (seizure_confidence cfg (classifier_output cfg rc s).2) s)
          s.seizure_threshold ∧
    (window_average (seizure_confidence cfg (classifier_output cfg rc s).2) s
        = s.seizure_threshold →
      (run_inference cfg rc s).alert_active = false) := by
  rw [run_inference_ok cfg rc s h]
  generalize (classifier_output cfg rc s).2 = result
  generalize hc : seizure_confidence cfg result = c
  have hthr : (before_evaluation cfg result s).seizure_threshold = s.seizure_threshold := by
    simp [before_evaluation, (record_confidence_rest _ s).2.2.2.2.2.1]
  have hact : (before_evaluation cfg result s).alert_active = s.alert_active := by
    simp [before_evaluation, (record_confidence_rest _ s).2.2.2.2.1]
  obtain ⟨hc1, hc2, hc3, _⟩ := before_evaluation_counts cfg result s
  refine ⟨?_, ?_, ?_, ?_, ?_⟩
  · rintro ⟨h1, h2⟩
    rw [alert_evaluation_trigger _ _ (by rw [hthr]; exact h2) (by rw [hact]; exact h1)]
    exact ⟨rfl, by rw [trigger_alert_eq]⟩
  · rintro ⟨h1, h2⟩
    rw [alert_evaluation_stop _ _ (by rw [hthr]; exact h2) (by rw [hact]; exact h1)]
    exact ⟨rfl, by rw [stop_alert_eq]⟩
  · rintro (⟨h1, h2⟩ | ⟨h1, h2⟩)
    · rw [alert_evaluation_idle _ _ (by rw [hthr]; exact h2) (by rw [hact]; exact h1)]
      exact ⟨rfl, hact, hc1, hc2, hc3⟩
    · rw [alert_evaluation_alert _ _ (by rw [hthr]; exact h2) (by rw [hact]; exact h1)]
      exact ⟨rfl, hact, hc1, hc2, hc3⟩
  · rw [alert_evaluation_active, hthr]
    simp only [spec_alert_step]
    cases s.alert_active <;>
      by_cases hgt : window_average c s > s.seizure_threshold <;>
      simp [hgt, le_of_not_lt]
  · intro heq
    rw [alert_evaluation_active, hthr, heq]
    simp

/-- Witness for C2: the first window after startup, with confidence `9/10`. -/
theorem C2_alert_evaluation_is_step_function_witness :
    (run_inference example_config (ok_classifier example_config (example_result (9 / 10)))
        example_start).alert_active
      = spec_alert_step example_start.alert_active
          (window_average (seizure_confidence example_config
            (classifier_output example_config
              (ok_classifier example_config (example_result (9 / 10))) example_start).2)
            example_start)
          example_start.seizure_threshold :=
  (C2_alert_evaluation_is_step_function example_config
    (ok_classifier example_config (example_result (9 / 10))) example_start rfl).2.2.2.1

/-- C3: when the classifier returns a result other than `EI_IMPULSE_OK`,
`run_inference` leaves the confidence history, its index, its full flag, the
alert state and the levels of both output pins as they were (and likewise the
threshold and the feature window); it writes no pin. -/
theorem C3_classifier_error_leaves_state (cfg : Config) (rc : Classifier) (s : State)
    (h : (classifier_output cfg rc s).1 ≠ cfg.EI_IMPULSE_OK) :
    (run_inference cfg rc s).confidence_history = s.confidence_history ∧
    (run_inference cfg rc s).confidence_index = s.confidence_index ∧
    (run_inference cfg rc s).confidence_buffer_full = s.confidence_buffer_full ∧
    (run_inference cfg rc s).alert_active = s.alert_active ∧
    (run_inference cfg rc s).level_ALERT_PIN = s.level_ALERT_PIN ∧
    (run_inference cfg rc s).level_BUZZER_PIN = s.level_BUZZER_PIN ∧
    (run_inference cfg rc s).seizure_threshold = s.seizure_threshold ∧
    (run_inference cfg rc s).features = s.features ∧
    output_writes (run_inference cfg rc s).trace = output_writes s.trace := by
  rw [run_inference_err cfg rc s h]
  simp [output_writes, List.countP_append, List.countP_cons]

/-- Witness for C3: a classifier failing with code `-3` right after startup. -/
theorem C3_classifier_error_leaves_state_witness :
    (classifier_output example_config failing_classifier example_start).1
        ≠ example_config.EI_IMPULSE_OK ∧
      (run_inference example_config failing_classifier example_start).confidence_history
        = example_start.confidence_history :=
  ⟨by decide, (C3_classifier_error_leaves_state example_config failing_classifier example_start
    (by decide)).1⟩

/-- C4: with `FRAME_SIZE` a positive multiple of 6, for every sequence of calls
of `loop()` from write index 0 (due or not; in particular every sequence of due
ticks) and every further call: the window is detected as full in that call
(the call is due and the test of line 172 holds) if and only if the call is due
and exactly `FRAME_SIZE` values have been stored since the last reset of the
write index, its own sample included. When it is detected, the write index
equals `FRAME_SIZE` and the positions stored to since the last reset are
exactly `0, 1, ..., FRAME_SIZE - 1`, each once. On every due call the sample is
stored (six more values, at most `FRAME_SIZE` in all since the reset), and the
classifier is invoked in a call exactly when the window is detected as full,
once. -/
theorem C4_window_full_exactly (cfg : Config)
    (hpos : 0 < cfg.EI_CLASSIFIER_DSP_INPUT_FRAME_SIZE)
    (hdiv : 6 ∣ cfg.EI_CLASSIFIER_DSP_INPUT_FRAME_SIZE)
    (s0 : State) (h0 : s0.feature_ix = 0) (envs : List LoopEnv) (env : LoopEnv) :
    (run_written cfg envs (s0, [])).1 = run cfg envs s0 ∧
    (detects_full cfg env (run cfg envs s0) ↔
      due cfg env (run cfg envs s0) ∧
      (written_at_full_test cfg env (run cfg envs s0)
        (run_written cfg envs (s0, [])).2).length = cfg.EI_CLASSIFIER_DSP_INPUT_FRAME_SIZE) ∧
    (detects_full cfg env (run cfg envs s0) →
      (at_full_test cfg env (run cfg envs s0)).feature_ix
        = cfg.EI_CLASSIFIER_DSP_INPUT_FRAME_SIZE ∧
      written_at_full_test cfg env (run cfg envs s0) (run_written cfg envs (s0, [])).2
        = List.range cfg.EI_CLASSIFIER_DSP_INPUT_FRAME_SIZE) ∧
    (due cfg env (run cfg envs s0) →
      (written_at_full_test cfg env (run cfg envs s0)
        (run_written cfg envs (s0, [])).2).length
        = (run_written cfg envs (s0, [])).2.length + 6 ∧
      (written_at_full_test cfg env (run cfg envs s0)
        (run_written cfg envs (s0, [])).2).length ≤ cfg.EI_CLASSIFIER_DSP_INPUT_FRAME_SIZE ∧
      (at_full_test cfg env (run cfg envs s0)).feature_ix
        = (written_at_full_test cfg env (run cfg envs s0)
            (run_written cfg envs (s0, [])).2).length) ∧
    classifier_calls (loop cfg env (run cfg envs s0)).trace
      = classifier_calls (run cfg envs s0).trace
        + (if detects_full cfg env (run cfg envs s0) then 1 else 0) := by
  have hst := run_written_state cfg envs (s0, [])
  obtain ⟨i1, i2, i3⟩ := run_written_inv cfg hdiv envs (s0, [])
    (by rw [h0]; exact hpos) (by rw [h0]; exact dvd_zero 6) (by rw [h0]; rfl)
  rw [hst] at i1 i2 i3
  change (run_written cfg envs (s0, [])).2 = List.range (run cfg envs s0).feature_ix at i3
  change (run cfg envs s0).feature_ix < _ at i1
  change 6 ∣ (run cfg envs s0).feature_ix at i2
  obtain ⟨a1, _⟩ := at_full_test_lt cfg env (run cfg envs s0) i1
  have hle := add_six_le _ _ hdiv i1 i2
  have hw : due cfg env (run cfg envs s0) →
      written_at_full_test cfg env (run cfg envs s0) (run_written cfg envs (s0, [])).2
        = List.range ((run cfg envs s0).feature_ix + 6) := by
    intro hd
    simp only [written_at_full_test, hd, if_true, stored_positions, i1, i3]
    exact (range_add_six _).symm
  refine ⟨hst, ?_, ?_, ?_, loop_classifier_calls cfg env _⟩
  · constructor
    · rintro ⟨hd, hf⟩
      rw [a1] at hf
      refine ⟨hd, ?_⟩
      rw [hw hd, List.length_range]
      omega
    · rintro ⟨hd, hl⟩
      rw [hw hd, List.length_range] at hl
      refine ⟨hd, ?_⟩
      rw [a1]
      omega
  · rintro ⟨hd, hf⟩
    rw [a1] at hf
    have heq : (run cfg envs s0).feature_ix + 6 = cfg.EI_CLASSIFIER_DSP_INPUT_FRAME_SIZE := by
      omega
    rw [a1, hw hd, heq]
    exact ⟨rfl, rfl⟩
  · intro hd
    rw [hw hd, a1, i3, List.length_range, List.length_range]
    exact ⟨rfl, hle, rfl⟩

/-- Witness for C4: windows of 12 values; after `setup()` and one due tick, the
second due tick detects the window as full, with write index 12. -/
theorem C4_window_full_exactly_witness :
    0 < example_config.EI_CLASSIFIER_DSP_INPUT_FRAME_SIZE ∧
      6 ∣ example_config.EI_CLASSIFIER_DSP_INPUT_FRAME_SIZE ∧
      example_start.feature_ix = 0 ∧
      detects_full example_config (example_tick 46 7 (9 / 10))
        (run example_config [example_tick 23 1 (9 / 10)] example_start) ∧
      (at_full_test example_config (example_tick 46 7 (9 / 10))
        (run example_config [example_tick 23 1 (9 / 10)] example_start)).feature_ix
        = example_config.EI_CLASSIFIER_DSP_INPUT_FRAME_SIZE :=
  ⟨by decide, by decide, rfl, by decide,
    ((C4_window_full_exactly example_config (by decide) (by decide) example_start rfl
      [example_tick 23 1 (9 / 10)] (example_tick 46 7 (9 / 10))).2.2.1 (by decide)).1⟩

/-- C5, as amended: from a startup state (`IDLE`, history all `0`, index `0`,
not full), for five successful windows with confidences `c1 .. c5`.

With exact rationals and threshold `0.7`: whatever the confidences, after each
of the windows 1 to 4 the state is still `IDLE` and neither `trigger_alert` nor
`stop_alert` has been called nor a pin written; the 5th window ends in `ALERT`
exactly when `(c1 + c2 + c3 + c4 + c5) / 5 > 0.7`, and `trigger_alert` is then
called once (and not at all otherwise). For `c1 = ... = c5 = 0.9` the state is
`ALERT` after the 5th window and `trigger_alert` has been called exactly once
in the five windows, each pin being written `HIGH` once.

With the binary32 arithmetic of the sketch: whatever the `float` confidences,
after each of the windows 1 to 4 the state is still `IDLE`, neither
`trigger_alert` nor `stop_alert` has been called and the average is `0`; the
5th window ends in `ALERT` exactly when the average as computed, the sum
`((((0 + c1) + c2) + c3) + c4) + c5` rounded after every addition and divided
by `5` with one more rounding, is above the stored threshold `(float)0.7 =
11744051 / 16777216`; `trigger_alert` is then called once (and not at all
otherwise) and `stop_alert` never. For `c1 = ... = c5 = 0.9f` the state is
`ALERT` after the 5th window and `trigger_alert` has been called exactly
once. -/
theorem C5_alert_on_fifth_window (cfg : Config) (s0 : State)
    (h_hist : s0.confidence_history = List.replicate CONFIDENCE_SAMPLES 0)
    (h_idx : s0.confidence_index = 0) (h_full : s0.confidence_buffer_full = false)
    (h_act : s0.alert_active = false) (h_thr : s0.seizure_threshold = 7 / 10)
    (r1 r2 r3 r4 r5 : ei_impulse_result_t) :
    (∀ k, k ≤ 4 →
      (windows cfg ([r1, r2, r3, r4, r5].take k) s0).alert_active = false ∧
      trigger_alert_calls (windows cfg ([r1, r2, r3, r4, r5].take k) s0).trace
        = trigger_alert_calls s0.trace ∧
      stop_alert_calls (windows cfg ([r1, r2, r3, r4, r5].take k) s0).trace
        = stop_alert_calls s0.trace ∧
      output_writes (windows cfg ([r1, r2, r3, r4, r5].take k) s0).trace
        = output_writes s0.trace) ∧
    ((windows cfg [r1, r2, r3, r4, r5] s0).alert_active = true ↔
      (seizure_confidence cfg r1 + seizure_confidence cfg r2 + seizure_confidence cfg r3
        + seizure_confidence cfg r4 + seizure_confidence cfg r5) / 5 > 7 / 10) ∧
    trigger_alert_calls (windows cfg [r1, r2, r3, r4, r5] s0).trace
      = trigger_alert_calls s0.trace +
        (if (seizure_confidence cfg r1 + seizure_confidence cfg r2 + seizure_confidence cfg r3
          + seizure_confidence cfg r4 + seizure_confidence cfg r5) / 5 > 7 / 10
        then 1 else 0) ∧
    stop_alert_calls (windows cfg [r1, r2, r3, r4, r5] s0).trace = stop_alert_calls s0.trace ∧
    (seizure_confidence cfg r1 = 9 / 10 ∧ seizure_confidence cfg r2 = 9 / 10 ∧
      seizure_confidence cfg r3 = 9 / 10 ∧ seizure_confidence cfg r4 = 9 / 10 ∧
      seizure_confidence cfg r5 = 9 / 10 →
      (windows cfg [r1, r2, r3, r4, r5] s0).alert_active = true ∧
      trigger_alert_calls (windows cfg [r1, r2, r3, r4, r5] s0).trace
        = trigger_alert_calls s0.trace + 1 ∧
      pin_writes ALERT_PIN HIGH (windows cfg [r1, r2, r3, r4, r5] s0).trace
        = pin_writes ALERT_PIN HIGH s0.trace + 1 ∧
      pin_writes BUZZER_PIN HIGH (windows cfg [r1, r2, r3, r4, r5] s0).trace
        = pin_writes BUZZER_PIN HIGH s0.trace + 1) ∧
    (∀ c1 c2 c3 c4 c5 : Nat,
      (∀ k, k ≤ 4 →
        (windows_f32 ([c1, c2, c3, c4].take k) startup_f32).alert_active = false ∧
        (windows_f32 ([c1, c2, c3, c4].take k) startup_f32).trigger_alert_calls = 0 ∧
        (windows_f32 ([c1, c2, c3, c4].take k) startup_f32).stop_alert_calls = 0 ∧
        calculate_average_confidence_f32
          (windows_f32 ([c1, c2, c3, c4].take k) startup_f32) = 0) ∧
      calculate_average_confidence_f32 (windows_f32 [c1, c2, c3, c4, c5] startup_f32)
        = f32_div_int
            (f32_add (f32_add (f32_add (f32_add (f32_add 0 c1) c2) c3) c4) c5) 5 ∧
      ((windows_f32 [c1, c2, c3, c4, c5] startup_f32).alert_active = true ↔
        f32_div_int (f32_add (f32_add (f32_add (f32_add (f32_add 0 c1) c2) c3) c4) c5) 5
          > startup_f32.seizure_threshold) ∧
      (windows_f32 [c1, c2, c3, c4, c5] startup_f32).trigger_alert_calls
        = (if f32_div_int
              (f32_add (f32_add (f32_add (f32_add (f32_add 0 c1) c2) c3) c4) c5) 5
            > startup_f32.seizure_threshold then 1 else 0) ∧
      (windows_f32 [c1, c2, c3, c4, c5] startup_f32).stop_alert_calls = 0) ∧
    fp_value startup_f32.seizure_threshold = 11744051 / 16777216 ∧
    (windows_f32 [f32_nearest 9 10, f32_nearest 9 10, f32_nearest 9 10, f32_nearest 9 10,
      f32_nearest 9 10] startup_f32).alert_active = true ∧
    (windows_f32 [f32_nearest 9 10, f32_nearest 9 10, f32_nearest 9 10, f32_nearest 9 10,
      f32_nearest 9 10] startup_f32).trigger_alert_calls = 1 := by
  have hpre := fun k (hk : k ≤ 4) =>
    windows_startup_idle cfg s0 h_hist h_idx h_full h_act h_thr ([r1, r2, r3, r4, r5].take k)
      (by simp only [List.length_take, List.length_cons, List.length_nil]; omega)
  obtain ⟨i1, i2, i3, _, i5⟩ := hpre 4 (le_refl 4)
  have hsplit : [r1, r2, r3, r4, r5] = [r1, r2, r3, r4] ++ [r5] := rfl
  have htake : [r1, r2, r3, r4, r5].take 4 = [r1, r2, r3, r4] := rfl
  rw [htake] at i1 i2 i3 i5
  have havg := window_average_windows cfg s0 h_hist h_idx h_full [r1, r2, r3, r4] r5
  have hmean : spec_average (([r1, r2, r3, r4] ++ [r5]).map (seizure_confidence cfg))
      ([r1, r2, r3, r4].length + 1)
      = (seizure_confidence cfg r1 + seizure_confidence cfg r2 + seizure_confidence cfg r3
        + seizure_confidence cfg r4 + seizure_confidence cfg r5) / 5 := by
    simp [spec_average, CONFIDENCE_SAMPLES]
    ring
  rw [hmean] at havg
  obtain ⟨c1, c2, c3, _⟩ := run_inference_ok_counts cfg (ok_classifier cfg r5)
    (windows cfg [r1, r2, r3, r4] s0) rfl
  obtain ⟨_, _, _, _, f5, _⟩ := run_inference_ok_fields cfg (ok_classifier cfg r5)
    (windows cfg [r1, r2, r3, r4] s0) rfl
  rw [ok_classifier_output] at c1 c2 c3 f5
  simp only [havg, windows_threshold, h_thr, i1, spec_rise, spec_fall] at c1 c2 c3 f5
  rw [← windows_snoc, ← hsplit] at c1 c2 c3 f5
  have hA := (c3 ALERT_PIN (Or.inl rfl)).1
  have hB := (c3 BUZZER_PIN (Or.inr rfl)).1
  refine ⟨fun k hk => ⟨(hpre k hk).1, (hpre k hk).2.1, (hpre k hk).2.2.1, (hpre k hk).2.2.2.1⟩,
    ?_, ?_, ?_, ?_, ?_, threshold_f32_value.2, by decide, by decide⟩
  · rw [f5]; simp
  · rw [c1, i2]; simp
  · rw [c2, i3]; simp
  · rintro ⟨e1, e2, e3, e4, e5⟩
    have hgt : (seizure_confidence cfg r1 + seizure_confidence cfg r2
        + seizure_confidence cfg r3 + seizure_confidence cfg r4
        + seizure_confidence cfg r5) / 5 > 7 / 10 := by
      rw [e1, e2, e3, e4, e5]; norm_num
    simp only [hgt, and_self, if_true, true_and] at c1 hA hB f5
    rw [f5, c1, hA, hB, i2, (i5 ALERT_PIN (Or.inl rfl)).1, (i5 BUZZER_PIN (Or.inr rfl)).1]
    simp
  · intro c1 c2 c3 c4 c5
    refine ⟨fun k hk => ?_, ?_, ?_, ?_, ?_⟩
    · obtain ⟨p1, p2, p3, p4, _⟩ := windows_f32_before_fifth c1 c2 c3 c4 k hk
      exact ⟨p1, p2, p3, p4⟩
    · rw [windows_f32_fifth]
      split_ifs <;>
        simp [calculate_average_confidence_f32, CONFIDENCE_SAMPLES, List.range,
          List.range.loop]
    · rw [windows_f32_fifth]
      split_ifs with hgt
      · exact ⟨fun _ => hgt, fun _ => rfl⟩
      · exact ⟨fun hact => absurd hact (by simp [startup_f32]), fun h' => absurd h' hgt⟩
    · rw [windows_f32_fifth]
      split_ifs <;> rfl
    · rw [windows_f32_fifth]
      split_ifs <;> rfl

/-- Witness for C5: five windows with confidence `9/10` after `setup()`; the
alert is active at the end and `trigger_alert` ran once in the whole run. -/
theorem C5_alert_on_fifth_window_witness :
    (windows example_config
        [example_result (9 / 10), example_result (9 / 10), example_result (9 / 10),
          example_result (9 / 10), example_result (9 / 10)] example_start).alert_active = true ∧
      trigger_alert_calls (windows example_config
        [example_result (9 / 10), example_result (9 / 10), example_result (9 / 10),
          example_result (9 / 10), example_result (9 / 10)] example_start).trace = 1 := by
  have h := (C5_alert_on_fifth_window example_config example_start rfl rfl rfl rfl rfl
    (example_result (9 / 10)) (example_result (9 / 10)) (example_result (9 / 10))
    (example_result (9 / 10)) (example_result (9 / 10))).2.2.2.2.1
    ⟨example_confidence _, example_confidence _, example_confidence _, example_confidence _,
      example_confidence _⟩
  exact ⟨h.1, by rw [h.2.1, example_start_counts.1]⟩

/-- Counterexample for C5 as stated: the `float` confidences `0.55f, 0.81f,
0.5f, 0.92f, 0.72f` lie in `[0, 1]` and their mean is above `0.7` (and above
the stored threshold `(float)0.7`), yet the sketch, which sums and divides in
binary32, computes an average equal to the stored threshold: the state is
`IDLE` after each of the five windows and `trigger_alert` is never called.
Conversely the mean of `0.99f, 0.5f, 0.62f, 0.65f, 0.74f` is exactly `0.7`,
not above it, and the 5th window ends in `ALERT`. -/
theorem C5_counterexample_binary32 :
    example_mean_above
      = [9227469 * 2 ^ 125, 13589545 * 2 ^ 125, 2 ^ 148, 15435039 * 2 ^ 125,
          3019899 * 2 ^ 127] ∧
    (∀ c ∈ example_mean_above, fp_value c ≤ 1) ∧
    ((example_mean_above.map fp_value).sum / 5 > 7 / 10 ∧
      (example_mean_above.map fp_value).sum / 5 > fp_value startup_f32.seizure_threshold) ∧
    (∀ k, k ≤ 5 → (windows_f32 (example_mean_above.take k) startup_f32).alert_active = false) ∧
    calculate_average_confidence_f32 (windows_f32 example_mean_above startup_f32)
      = startup_f32.seizure_threshold ∧
    (windows_f32 example_mean_above startup_f32).alert_active = false ∧
    (windows_f32 example_mean_above startup_f32).trigger_alert_calls = 0 ∧
    (∀ c ∈ example_mean_equal, fp_value c ≤ 1) ∧
    (example_mean_equal.map fp_value).sum / 5 = 7 / 10 ∧
    (windows_f32 example_mean_equal startup_f32).alert_active = true ∧
    (windows_f32 example_mean_equal startup_f32).trigger_alert_calls = 1 := by
  refine ⟨example_mean_above_values, ?_, ⟨?_, ?_⟩, ?_, by decide, by decide, by decide, ?_, ?_,
    by decide, by decide⟩
  · rw [example_mean_above_values]
    intro c hc
    simp only [List.mem_cons, List.mem_singleton, List.not_mem_nil, or_false] at hc
    rcases hc with h | h | h | h | h <;> subst h <;> simp only [fp_value] <;> norm_num
  · rw [example_mean_above_values]
    simp only [List.map, List.sum_cons, List.sum_nil, fp_value]
    norm_num
  · rw [example_mean_above_values, threshold_f32_value.1]
    simp only [List.map, List.sum_cons, List.sum_nil, fp_value]
    norm_num
  · intro k hk
    interval_cases k <;> decide
  · rw [example_mean_equal_values]
    intro c hc
    simp only [List.mem_cons, List.mem_singleton, List.not_mem_nil, or_false] at hc
    rcases hc with h | h | h | h | h <;> subst h <;> simp only [fp_value] <;> norm_num
  · rw [example_mean_equal_values]
    simp only [List.map, List.sum_cons, List.sum_nil, fp_value]
    norm_num

/-- C6: in every state reached from `setup()` through successful windows with
confidences in `[0, 1]` and in which the alert is active, five further
successful windows each with seizure confidence `0.1` call `stop_alert` exactly
once and `trigger_alert` not at all; each output pin is written `LOW` exactly
once and never `HIGH`, these two writes are the only pin writes, and the final
state is `IDLE`. -/
theorem C6_five_low_windows_stop_once (cfg : Config) (s : State)
    (hreach : ReachableByWindows cfg s) (hact : s.alert_active = true)
    (r1 r2 r3 r4 r5 : ei_impulse_result_t)
    (h1 : seizure_confidence cfg r1 = 1 / 10) (h2 : seizure_confidence cfg r2 = 1 / 10)
    (h3 : seizure_confidence cfg r3 = 1 / 10) (h4 : seizure_confidence cfg r4 = 1 / 10)
    (h5 : seizure_confidence cfg r5 = 1 / 10) :
    stop_alert_calls (windows cfg [r1, r2, r3, r4, r5] s).trace = stop_alert_calls s.trace + 1 ∧
    trigger_alert_calls (windows cfg [r1, r2, r3, r4, r5] s).trace
      = trigger_alert_calls s.trace ∧
    (∀ pin, pin = ALERT_PIN ∨ pin = BUZZER_PIN →
      pin_writes pin LOW (windows cfg [r1, r2, r3, r4, r5] s).trace
        = pin_writes pin LOW s.trace + 1 ∧
      pin_writes pin HIGH (windows cfg [r1, r2, r3, r4, r5] s).trace
        = pin_writes pin HIGH s.trace) ∧
    output_writes (windows cfg [r1, r2, r3, r4, r5] s).trace = output_writes s.trace + 2 ∧
    (windows cfg [r1, r2, r3, r4, r5] s).alert_active = false := by
  obtain ⟨hs, hw⟩ := reachable_by_windows_full_history cfg s hreach hact
  obtain ⟨a, b, c, d, e, hwe⟩ := list_length_five
    (s.confidence_history.rotate s.confidence_index) (by rw [List.length_rotate]; exact hs.1)
  rw [hwe] at hs hw
  have hb : b ≤ 1 := hw b (by simp)
  have hc : c ≤ 1 := hw c (by simp)
  have hd : d ≤ 1 := hw d (by simp)
  have he : e ≤ 1 := hw e (by simp)
  simp only [windows_cons, windows_nil]
  obtain ⟨hs1, a1, t1, p1, q1, o1⟩ := full_history_window cfg r1 s _ _ hs h1
  rw [hact] at t1 p1 q1 o1
  generalize run_inference cfg (ok_classifier cfg r1) s = s1 at *
  obtain ⟨hs2, a2, t2, p2, q2, o2⟩ := full_history_window cfg r2 s1 _ _ hs1 h2
  rw [a1] at t2 p2 q2 o2
  generalize run_inference cfg (ok_classifier cfg r2) s1 = s2 at *
  obtain ⟨hs3, a3, t3, p3, q3, o3⟩ := full_history_window cfg r3 s2 _ _ hs2 h3
  rw [a2] at t3 p3 q3 o3
  generalize run_inference cfg (ok_classifier cfg r3) s2 = s3 at *
  obtain ⟨hs4, a4, t4, p4, q4, o4⟩ := full_history_window cfg r4 s3 _ _ hs3 h4
  rw [a3] at t4 p4 q4 o4
  generalize run_inference cfg (ok_classifier cfg r4) s3 = s4 at *
  obtain ⟨_, a5, t5, p5, q5, o5⟩ := full_history_window cfg r5 s4 _ _ hs4 h5
  rw [a4] at t5 p5 q5 o5
  generalize run_inference cfg (ok_classifier cfg r5) s4 = s5 at *
  simp only [List.tail_cons, List.cons_append, List.nil_append, List.sum_cons, List.sum_nil,
    add_zero] at a5 t1 t2 t3 t4 t5 p1 p2 p3 p4 p5 q1 q2 q3 q4 q5 o1 o2 o3 o4 o5
  have g2 : ¬ ((c + (d + (e + (1 / 10 + 1 / 10)))) / 5 > (7 : ℚ) / 10) := by
    rw [not_lt]; linarith
  have g3 : ¬ ((d + (e + (1 / 10 + (1 / 10 + 1 / 10)))) / 5 > (7 : ℚ) / 10) := by
    rw [not_lt]; linarith
  have g4 : ¬ ((e + (1 / 10 + (1 / 10 + (1 / 10 + 1 / 10)))) / 5 > (7 : ℚ) / 10) := by
    rw [not_lt]; linarith
  have g5 : ¬ (((1 : ℚ) / 10 + (1 / 10 + (1 / 10 + (1 / 10 + 1 / 10)))) / 5 > (7 : ℚ) / 10) := by
    norm_num
  have k2 := not_lt.mp g2
  have k3 := not_lt.mp g3
  have k4 := not_lt.mp g4
  have k5 := not_lt.mp g5
  simp only [spec_rise, spec_fall, g2, g3, g4, g5, k2, k3, k4, k5, decide_False, decide_True,
    and_false, and_true, false_and, true_and, if_false, if_true, add_zero, Bool.false_eq_true,
    Bool.true_eq_false, decide_eq_true_eq, decide_eq_false_iff_not]
    at a5 t1 t2 t3 t4 t5 p1 p2 p3 p4 p5 q1 q2 q3 q4 q5 o1 o2 o3 o4 o5
  by_cases hgt : (b + (c + (d + (e + 1 / 10)))) / 5 > (7 : ℚ) / 10
  · have hle : ¬ (b + (c + (d + (e + 1 / 10)))) / 5 ≤ (7 : ℚ) / 10 := not_le.mpr hgt
    simp only [hgt, hle, if_true, if_false, add_zero] at t1 p1 p2 q1 q2 o1 o2
    refine ⟨by omega, by omega, ?_, by omega, a5⟩
    intro pin hpin
    have := q1 pin hpin
    have := q2 pin hpin
    have := q3 pin hpin
    have := q4 pin hpin
    have := q5 pin hpin
    omega
  · have hle : (b + (c + (d + (e + 1 / 10)))) / 5 ≤ (7 : ℚ) / 10 := not_lt.mp hgt
    simp only [hgt, hle, if_true, if_false, add_zero] at t1 p1 p2 q1 q2 o1 o2
    refine ⟨by omega, by omega, ?_, by omega, a5⟩
    intro pin hpin
    have := q1 pin hpin
    have := q2 pin hpin
    have := q3 pin hpin
    have := q4 pin hpin
    have := q5 pin hpin
    omega

/-- Witness for C6: after five windows at `9/10` the alert is active; five
windows at `1/10` then stop it exactly once. -/
theorem C6_five_low_windows_stop_once_witness :
    ReachableByWindows example_config example_alert_state ∧
      example_alert_state.alert_active = true ∧
      stop_alert_calls (windows example_config
        [example_result (1 / 10), example_result (1 / 10), example_result (1 / 10),
          example_result (1 / 10), example_result (1 / 10)] example_alert_state).trace
        = stop_alert_calls example_alert_state.trace + 1 :=
  ⟨example_alert_state_reachable, example_alert_state_active,
    (C6_five_low_windows_stop_once example_config example_alert_state
      example_alert_state_reachable example_alert_state_active
      (example_result (1 / 10)) (example_result (1 / 10)) (example_result (1 / 10))
      (example_result (1 / 10)) (example_result (1 / 10))
      (example_confidence _) (example_confidence _) (example_confidence _)
      (example_confidence _) (example_confidence _)).1⟩

/-- C7: pin writes are edge-triggered. Whatever the classifier returns, a call
of `run_inference`, and likewise a call of `loop()`, writes the pins only
through `trigger_alert` or `stop_alert`: two writes when `alert_active` changes
in the call and none otherwise, `trigger_alert` being called exactly on a change
from `IDLE` to `ALERT` and `stop_alert` exactly on a change from `ALERT` to
`IDLE`. Consequently, over a run of `n ≥ 1` successful windows on each of which
the computed average is above the threshold, each pin is written `HIGH` once if
the state was `IDLE` before the first window and not at all if it was `ALERT`,
this write happens on the first window, no pin is written on the remaining
windows, and no pin is written `LOW`. -/
theorem C7_outputs_edge_triggered (cfg : Config) (s : State) (result : ei_impulse_result_t)
    (results : List ei_impulse_result_t) (h : all_above cfg (result :: results) s) :
    (∀ (rc : Classifier) (t : State),
      output_writes (run_inference cfg rc t).trace
        = output_writes t.trace
          + (if (run_inference cfg rc t).alert_active = t.alert_active then 0 else 2) ∧
      trigger_alert_calls (run_inference cfg rc t).trace
        = trigger_alert_calls t.trace
          + (if t.alert_active = false ∧ (run_inference cfg rc t).alert_active = true
            then 1 else 0) ∧
      stop_alert_calls (run_inference cfg rc t).trace
        = stop_alert_calls t.trace
          + (if t.alert_active = true ∧ (run_inference cfg rc t).alert_active = false
            then 1 else 0)) ∧
    (∀ (env : LoopEnv) (t : State),
      output_writes (loop cfg env t).trace
        = output_writes t.trace
          + (if (loop cfg env t).alert_active = t.alert_active then 0 else 2) ∧
      trigger_alert_calls (loop cfg env t).trace
        = trigger_alert_calls t.trace
          + (if t.alert_active = false ∧ (loop cfg env t).alert_active = true then 1 else 0) ∧
      stop_alert_calls (loop cfg env t).trace
        = stop_alert_calls t.trace
          + (if t.alert_active = true ∧ (loop cfg env t).alert_active = false
            then 1 else 0)) ∧
    (∀ pin, pin = ALERT_PIN ∨ pin = BUZZER_PIN →
      pin_writes pin HIGH (run_inference cfg (ok_classifier cfg result) s).trace
        = pin_writes pin HIGH s.trace + (if s.alert_active = true then 0 else 1) ∧
      pin_writes pin HIGH (windows cfg (result :: results) s).trace
        = pin_writes pin HIGH s.trace + (if s.alert_active = true then 0 else 1) ∧
      pin_writes pin LOW (windows cfg (result :: results) s).trace
        = pin_writes pin LOW s.trace) ∧
    (∀ k, output_writes (windows cfg (result :: results.take k) s).trace
      = output_writes (run_inference cfg (ok_classifier cfg result) s).trace) ∧
    output_writes (windows cfg (result :: results) s).trace
      = output_writes s.trace + (if s.alert_active = true then 0 else 2) ∧
    trigger_alert_calls (windows cfg (result :: results) s).trace
      = trigger_alert_calls s.trace + (if s.alert_active = true then 0 else 1) ∧
    stop_alert_calls (windows cfg (result :: results) s).trace = stop_alert_calls s.trace ∧
    (windows cfg (result :: results) s).alert_active = true := by
  obtain ⟨hgt, hrest⟩ := h
  obtain ⟨c1, c2, c3, c4⟩ := run_inference_ok_counts cfg (ok_classifier cfg result) s rfl
  obtain ⟨_, _, _, _, f5, _⟩ := run_inference_ok_fields cfg (ok_classifier cfg result) s rfl
  rw [ok_classifier_output] at c1 c2 c3 c4 f5
  have hle : ¬ window_average (seizure_confidence cfg result) s ≤ s.seizure_threshold :=
    not_le.mpr hgt
  simp only [spec_rise, spec_fall, hgt, hle, decide_True, and_false, and_true, if_false,
    add_zero] at c1 c2 c3 c4 f5
  obtain ⟨i1, i2, i3, i4, i5⟩ := all_above_alert cfg results _ hrest f5
  refine ⟨fun rc t => run_inference_edges cfg rc t, fun env t => loop_edges cfg env t,
    ?_, ?_, ?_, ?_, ?_, ?_⟩
  · intro pin hpin
    rw [windows_cons, (i5 pin hpin).1, (i5 pin hpin).2, (c3 pin hpin).1, (c3 pin hpin).2]
    cases s.alert_active <;> simp
  · intro k
    rw [windows_cons]
    exact (all_above_alert cfg (results.take k) _ (all_above_take cfg results _ k hrest) f5).2.2.2.1
  · rw [windows_cons, i4, c4]
    cases s.alert_active <;> simp
  · rw [windows_cons, i2, c1]
    cases s.alert_active <;> simp
  · rw [windows_cons, i3, c2]
  · rw [windows_cons, i1]

/-- Witness for C7: the fifth window at `9/10` after startup crosses the
threshold from `IDLE`; the total number of pin writes grows by two. -/
theorem C7_outputs_edge_triggered_witness :
    all_above example_config [example_result (9 / 10)]
        (windows example_config [example_result (9 / 10), example_result (9 / 10),
          example_result (9 / 10), example_result (9 / 10)] example_start) ∧
      (windows example_config [example_result (9 / 10)]
        (windows example_config [example_result (9 / 10), example_result (9 / 10),
          example_result (9 / 10), example_result (9 / 10)] example_start)).alert_active
        = true :=
  ⟨example_fifth_window_above,
    (C7_outputs_edge_triggered example_config _ (example_result (9 / 10)) []
      example_fifth_window_above).2.2.2.2.2.2.2⟩

/-- C8: in every state reached from power-on by a completed `setup()` followed
by any number of calls of `loop()` (any clock values, sensor values and
classifier results), the level of `ALERT_PIN` equals the level of `BUZZER_PIN`,
and each is `HIGH` exactly when `alert_active` is true and `LOW` exactly when it
is false. -/
theorem C8_pins_follow_alert_state (cfg : Config) (s : State) (h : Reachable cfg s) :
    s.level_ALERT_PIN = s.level_BUZZER_PIN ∧
    (s.level_ALERT_PIN = HIGH ↔ s.alert_active = true) ∧
    (s.level_BUZZER_PIN = HIGH ↔ s.alert_active = true) ∧
    (s.level_ALERT_PIN = LOW ↔ s.alert_active = false) ∧
    (s.level_BUZZER_PIN = LOW ↔ s.alert_active = false) := by
  obtain ⟨a, b, s0, envs, hsetup, rfl⟩ := h
  rw [setup_eq] at hsetup
  have hs0 := (Option.some.inj hsetup).symm
  have hA : s0.level_ALERT_PIN = s0.alert_active := by rw [hs0]; rfl
  have hB : s0.level_BUZZER_PIN = s0.alert_active := by rw [hs0]; rfl
  obtain ⟨h1, h2⟩ := run_pins cfg envs s0 hA hB
  rw [h1, h2]
  simp [HIGH, LOW]

/-- Witness for C8: the state right after `setup()`. -/
theorem C8_pins_follow_alert_state_witness :
    Reachable example_config example_start ∧
      example_start.level_ALERT_PIN = example_start.level_BUZZER_PIN :=
  ⟨example_start_reachable,
    (C8_pins_follow_alert_state example_config example_start example_start_reachable).1⟩

/-- C9: with `FRAME_SIZE` a positive multiple of 6, whatever the array
`features` holds (it has `FRAME_SIZE` elements), once the write index is 0 and
`FRAME_SIZE / 6` due calls of `loop()` have each stored their sample, the last
of these calls detects the window as full and runs `run_inference` on a state
in which the signal handed to the classifier reads, through
`get_feature_data(0, FRAME_SIZE, out)`, exactly the concatenation of the samples
in order, each as `(ax, ay, az, gx, gy, gz)`: the array is that concatenation,
`features[6 * j + i]` is component `i` of sample `j`, and nothing of the
previous content is left. -/
theorem C9_window_is_fresh_samples (cfg : Config)
    (hdiv : 6 ∣ cfg.EI_CLASSIFIER_DSP_INPUT_FRAME_SIZE)
    (s : State) (h0 : s.feature_ix = 0)
    (hlen : s.features.length = cfg.EI_CLASSIFIER_DSP_INPUT_FRAME_SIZE)
    (envs : List LoopEnv) (env : LoopEnv)
    (hn : envs.length + 1 = cfg.EI_CLASSIFIER_DSP_INPUT_FRAME_SIZE / 6)
    (hdue : all_due cfg (envs ++ [env]) s) :
    detects_full cfg env (run cfg envs s) ∧
    loop cfg env (run cfg envs s)
      = emit (Event.delay 1)
          { run_inference cfg env.run_classifier (at_full_test cfg env (run cfg envs s)) with
            feature_ix := 0
            lastTime := env.millis_last % 2 ^ cfg.ULONG_BITS } ∧
    classifier_output cfg env.run_classifier (at_full_test cfg env (run cfg envs s))
      = env.run_classifier (features_signal cfg (at_full_test cfg env (run cfg envs s)))
          s.debug_nn ∧
    (features_signal cfg (at_full_test cfg env (run cfg envs s))).total_length
      = cfg.EI_CLASSIFIER_DSP_INPUT_FRAME_SIZE ∧
    (features_signal cfg (at_full_test cfg env (run cfg envs s))).get_data 0
        cfg.EI_CLASSIFIER_DSP_INPUT_FRAME_SIZE
      = (envs ++ [env]).flatMap sample_values ∧
    (at_full_test cfg env (run cfg envs s)).features = (envs ++ [env]).flatMap sample_values ∧
    (∀ j i, j < cfg.EI_CLASSIFIER_DSP_INPUT_FRAME_SIZE / 6 → i < 6 →
      (at_full_test cfg env (run cfg envs s)).features[6 * j + i]?
        = ((envs ++ [env])[j]?).bind (fun e => (sample_values e)[i]?)) := by
  have hfs : cfg.EI_CLASSIFIER_DSP_INPUT_FRAME_SIZE = (envs.length + 1) * 6 := by
    rw [hn]; exact (Nat.div_mul_cancel hdiv).symm
  obtain ⟨hd1, hd2, _⟩ := (all_due_append cfg envs [env] s).mp hdue
  obtain ⟨i1, i2, i3⟩ := run_due_prefix cfg s h0 hlen envs (by omega) hd1
  have hlt : (run cfg envs s).feature_ix < cfg.EI_CLASSIFIER_DSP_INPUT_FRAME_SIZE := by
    rw [i1]; omega
  obtain ⟨f1, f2⟩ := at_full_test_fresh cfg env (run cfg envs s) (envs.flatMap sample_values)
    (s.features.drop (envs.length * 6)) i2 (by rw [i1, samples_length])
    (by rw [List.length_drop, hlen]; omega) hlt
  obtain ⟨_, a2, _⟩ := at_full_test_rest cfg env (run cfg envs s)
  rw [samples_length] at f2
  have hfull : (at_full_test cfg env (run cfg envs s)).feature_ix
      ≥ cfg.EI_CLASSIFIER_DSP_INPUT_FRAME_SIZE := by rw [f2]; omega
  have hfeat : (at_full_test cfg env (run cfg envs s)).features
      = (envs ++ [env]).flatMap sample_values := by
    rw [f1, List.drop_drop, List.flatMap_append]
    have : List.drop (envs.length * 6 + 6) s.features = [] :=
      List.drop_eq_nil_of_le (by rw [hlen]; omega)
    rw [this]
    simp
  have hlenc : ((envs ++ [env]).flatMap sample_values).length
      = cfg.EI_CLASSIFIER_DSP_INPUT_FRAME_SIZE := by
    rw [samples_length, List.length_append, List.length_singleton, hfs]
  refine ⟨⟨hd2, hfull⟩, ?_, ?_, rfl, ?_, hfeat, ?_⟩
  · rcases loop_cases cfg env (run cfg envs s) with ⟨hnd, _⟩ | ⟨_, hnf, _⟩ | ⟨_, _, h⟩
    · exact absurd hd2 hnd
    · exact absurd hfull hnf
    · exact h
  · rw [classifier_output, a2, i3]
  · simp only [features_signal, get_feature_data, hfeat, List.drop_zero]
    rw [List.take_of_length_le (by rw [hlenc])]
  · intro j i _ hi
    rw [hfeat]
    exact samples_getElem _ j i hi

/-- Witness for C9: windows of 12 values; two due ticks after `setup()` with the
samples `1 .. 6` and `7 .. 12`. -/
theorem C9_window_is_fresh_samples_witness :
    6 ∣ example_config.EI_CLASSIFIER_DSP_INPUT_FRAME_SIZE ∧
      all_due example_config [example_tick 23 1 (9 / 10), example_tick 46 7 (9 / 10)]
        example_start ∧
      (at_full_test example_config (example_tick 46 7 (9 / 10))
        (run example_config [example_tick 23 1 (9 / 10)] example_start)).features
        = ([example_tick 23 1 (9 / 10)] ++ [example_tick 46 7 (9 / 10)]).flatMap sample_values :=
  ⟨by decide, ⟨by decide, by decide, trivial⟩,
    (C9_window_is_fresh_samples example_config (by decide) example_start rfl rfl
      [example_tick 23 1 (9 / 10)] (example_tick 46 7 (9 / 10)) (by decide)
      ⟨by decide, by decide, trivial⟩).2.2.2.2.2.1⟩

/-- C10: with `FRAME_SIZE` a positive multiple of 6. In a state whose write
index is below `FRAME_SIZE` (and, as in every reachable state, a multiple of 6,
the array having `FRAME_SIZE` elements), the append step of `loop()` stores the
six sample values at the positions `index .. index + 5`, all below
`FRAME_SIZE`, leaves every other element as it was and advances the index by
exactly 6. In a state whose write index is at least `FRAME_SIZE` it changes
nothing. In every reachable state the write index is at most `FRAME_SIZE`
(in fact below it between calls of `loop()`) and a multiple of 6, the array has
`FRAME_SIZE` elements, and this also holds right after the append step of the
next call of `loop()`, all of whose stores are to positions below
`FRAME_SIZE`. -/
theorem C10_append_step_in_bounds (cfg : Config)
    (hpos : 0 < cfg.EI_CLASSIFIER_DSP_INPUT_FRAME_SIZE)
    (hdiv : 6 ∣ cfg.EI_CLASSIFIER_DSP_INPUT_FRAME_SIZE) :
    (∀ (env : LoopEnv) (s : State),
      s.feature_ix < cfg.EI_CLASSIFIER_DSP_INPUT_FRAME_SIZE → 6 ∣ s.feature_ix →
      s.features.length = cfg.EI_CLASSIFIER_DSP_INPUT_FRAME_SIZE →
      s.feature_ix + 5 < cfg.EI_CLASSIFIER_DSP_INPUT_FRAME_SIZE ∧
      (append_sample cfg env s).feature_ix = s.feature_ix + 6 ∧
      (∀ i, i < 6 →
        (append_sample cfg env s).features[s.feature_ix + i]? = (sample_values env)[i]?) ∧
      (∀ j, j < s.feature_ix ∨ s.feature_ix + 6 ≤ j →
        (append_sample cfg env s).features[j]? = s.features[j]?) ∧
      (append_sample cfg env s).features.length = cfg.EI_CLASSIFIER_DSP_INPUT_FRAME_SIZE) ∧
    (∀ (env : LoopEnv) (s : State),
      cfg.EI_CLASSIFIER_DSP_INPUT_FRAME_SIZE ≤ s.feature_ix → append_sample cfg env s = s) ∧
    (∀ s, Reachable cfg s →
      s.feature_ix ≤ cfg.EI_CLASSIFIER_DSP_INPUT_FRAME_SIZE ∧
      s.feature_ix < cfg.EI_CLASSIFIER_DSP_INPUT_FRAME_SIZE ∧
      6 ∣ s.feature_ix ∧
      s.features.length = cfg.EI_CLASSIFIER_DSP_INPUT_FRAME_SIZE ∧
      ∀ env : LoopEnv,
        (at_full_test cfg env s).feature_ix ≤ cfg.EI_CLASSIFIER_DSP_INPUT_FRAME_SIZE ∧
        6 ∣ (at_full_test cfg env s).feature_ix ∧
        (at_full_test cfg env s).features.length = cfg.EI_CLASSIFIER_DSP_INPUT_FRAME_SIZE ∧
        ∀ p ∈ stored_positions cfg s, p < cfg.EI_CLASSIFIER_DSP_INPUT_FRAME_SIZE) := by
  refine ⟨?_, fun env s h => append_sample_ge cfg env s h, ?_⟩
  · intro env s h1 h2 h3
    have hle := add_six_le _ _ hdiv h1 h2
    rw [append_sample_lt cfg env s h1]
    refine ⟨by omega, rfl, ?_, ?_, ?_⟩
    · intro i hi
      exact six_sets_inside s.features s.feature_ix _ _ _ _ _ _ (by omega) i hi
    · intro j hj
      exact six_sets_outside s.features s.feature_ix _ _ _ _ _ _ j hj
    · simp only [six_sets_length, h3]
  · intro s hs
    obtain ⟨h1, h2, h3⟩ := reachable_window cfg hpos hdiv s hs
    refine ⟨le_of_lt h1, h1, h2, h3, ?_⟩
    intro env
    obtain ⟨_, a2, a3, a4⟩ := at_full_test_window cfg hdiv env s h1 h2 h3
    refine ⟨a2, a3, a4, ?_⟩
    intro p hp
    have hle := add_six_le _ _ hdiv h1 h2
    simp only [stored_positions, h1, if_true, List.mem_cons, List.mem_singleton,
      List.mem_nil_iff, or_false] at hp
    omega

/-- Witness for C10: windows of 12 values; the state after `setup()` is
reachable and its write index is in range. -/
theorem C10_append_step_in_bounds_witness :
    0 < example_config.EI_CLASSIFIER_DSP_INPUT_FRAME_SIZE ∧
      6 ∣ example_config.EI_CLASSIFIER_DSP_INPUT_FRAME_SIZE ∧
      example_start.feature_ix ≤ example_config.EI_CLASSIFIER_DSP_INPUT_FRAME_SIZE :=
  ⟨by decide, by decide,
    ((C10_append_step_in_bounds example_config (by decide) (by decide)).2.2
      example_start example_start_reachable).1⟩

/-- C11: with `millis()` and `lastTime` unsigned `w`-bit integers
(`w = ULONG_BITS`, 32 on the target) and a window length above zero, in every
reachable state a call of `loop()` is due exactly when
`(now - lastTime) mod 2^w ≥ 23`; if `t < 2^w` milliseconds have really elapsed
since `lastTime` was stored, so that `millis()` returns `(lastTime + t) mod 2^w`,
the call is due exactly when `t ≥ 23`, also when `millis()` has wrapped around.
A due call reads the sensor exactly once and appends that sample: when the call
returns, `features` is the array as it was with the six values stored at the
positions `index .. index + 5` (those that exist) and every other element
unchanged, the write index has advanced by 6, or is `0` when that reaches
`FRAME_SIZE`, in which case the classifier was invoked, once, and `lastTime` is
stored anew. A call that is not due reads no sample, invokes no classifier and
leaves `features`, `feature_ix`, the confidence history with its index and
flag, the alert state, the pin levels and `lastTime` unchanged. In either case
one call reads at most one sample and invokes the classifier at most once. -/
theorem C11_loop_gated_by_unsigned_elapsed (cfg : Config)
    (hpos : 0 < cfg.EI_CLASSIFIER_DSP_INPUT_FRAME_SIZE)
    (s : State) (h : Reachable cfg s) (env : LoopEnv) :
    (due cfg env s ↔
      ((env.millis_cond : Int) - (s.lastTime : Int)) % (2 : Int) ^ cfg.ULONG_BITS ≥ 23) ∧
    (∀ t, t < 2 ^ cfg.ULONG_BITS →
      env.millis_cond = (s.lastTime + t) % 2 ^ cfg.ULONG_BITS →
      (due cfg env s ↔ 23 ≤ t)) ∧
    (due cfg env s →
      sensor_reads (loop cfg env s).trace = sensor_reads s.trace + 1 ∧
      at_full_test cfg env s = append_sample cfg env (emit Event.getEvent s) ∧
      (at_full_test cfg env s).feature_ix = s.feature_ix + 6 ∧
      (∀ i, i < 6 → s.feature_ix + i < s.features.length →
        (at_full_test cfg env s).features[s.feature_ix + i]? = (sample_values env)[i]?) ∧
      (loop cfg env s).lastTime = env.millis_last % 2 ^ cfg.ULONG_BITS ∧
      (loop cfg env s).features
        = (((((s.features.set s.feature_ix env.a_acceleration.x).set
            (s.feature_ix + 1) env.a_acceleration.y).set
            (s.feature_ix + 2) env.a_acceleration.z).set
            (s.feature_ix + 3) env.g_gyro.x).set
            (s.feature_ix + 4) env.g_gyro.y).set
            (s.feature_ix + 5) env.g_gyro.z ∧
      (∀ i, i < 6 → s.feature_ix + i < s.features.length →
        (loop cfg env s).features[s.feature_ix + i]? = (sample_values env)[i]?) ∧
      (∀ j, j < s.feature_ix ∨ s.feature_ix + 6 ≤ j →
        (loop cfg env s).features[j]? = s.features[j]?) ∧
      (loop cfg env s).features.length = s.features.length ∧
      (loop cfg env s).feature_ix
        = (if cfg.EI_CLASSIFIER_DSP_INPUT_FRAME_SIZE ≤ s.feature_ix + 6 then 0
            else s.feature_ix + 6) ∧
      classifier_calls (loop cfg env s).trace
        = classifier_calls s.trace
          + (if cfg.EI_CLASSIFIER_DSP_INPUT_FRAME_SIZE ≤ s.feature_ix + 6 then 1 else 0)) ∧
    (¬ due cfg env s →
      loop cfg env s = emit (Event.delay 1) s ∧
      sensor_reads (loop cfg env s).trace = sensor_reads s.trace ∧
      classifier_calls (loop cfg env s).trace = classifier_calls s.trace ∧
      (loop cfg env s).features = s.features ∧
      (loop cfg env s).feature_ix = s.feature_ix ∧
      (loop cfg env s).confidence_history = s.confidence_history ∧
      (loop cfg env s).confidence_index = s.confidence_index ∧
      (loop cfg env s).confidence_buffer_full = s.confidence_buffer_full ∧
      (loop cfg env s).alert_active = s.alert_active ∧
      (loop cfg env s).level_ALERT_PIN = s.level_ALERT_PIN ∧
      (loop cfg env s).level_BUZZER_PIN = s.level_BUZZER_PIN ∧
      (loop cfg env s).lastTime = s.lastTime) ∧
    sensor_reads (loop cfg env s).trace ≤ sensor_reads s.trace + 1 ∧
    classifier_calls (loop cfg env s).trace ≤ classifier_calls s.trace + 1 := by
  have hlast := reachable_last_time cfg s h
  have hix := reachable_index_lt cfg hpos s h
  have hreads := loop_sensor_reads cfg env s
  have hcalls := loop_classifier_calls cfg env s
  refine ⟨?_, ?_, ?_, ?_, ?_, ?_⟩
  · rw [← usub_eq_emod]
    simp only [due, sampleRate]
    constructor <;> intro hd <;> omega
  · intro t ht hm
    simp only [due, sampleRate, hm, usub_elapsed _ _ _ hlast ht]
  · intro hd
    obtain ⟨a1, a2⟩ := at_full_test_lt cfg env s hix
    obtain ⟨l1, l2, l3⟩ := loop_due_features cfg env s hd hix
    refine ⟨by rw [hreads, if_pos hd], rfl, a1, ?_, ?_, l1, ?_, ?_, ?_, l2, ?_⟩
    · intro i hi hlen
      rw [a2, append_sample_lt cfg env s hix]
      exact six_sets_stored s.features s.feature_ix _ _ _ _ _ _ i hi hlen
    · rcases loop_cases cfg env s with ⟨hnd, _⟩ | ⟨_, _, e⟩ | ⟨_, _, e⟩
      · exact absurd hd hnd
      · rw [e]; rfl
      · rw [e]; rfl
    · intro i hi hlen
      rw [l1]
      exact six_sets_stored s.features s.feature_ix _ _ _ _ _ _ i hi hlen
    · intro j hj
      rw [l1]
      exact six_sets_outside s.features s.feature_ix _ _ _ _ _ _ j hj
    · rw [l1, six_sets_length]
    · rw [hcalls]
      by_cases hf : cfg.EI_CLASSIFIER_DSP_INPUT_FRAME_SIZE ≤ s.feature_ix + 6
      · rw [if_pos (l3.mpr hf), if_pos hf]
      · rw [if_neg (fun hdet => hf (l3.mp hdet)), if_neg hf]
  · intro hnd
    have hdet : ¬ detects_full cfg env s := fun hdet => hnd hdet.1
    rcases loop_cases cfg env s with ⟨_, e⟩ | ⟨hd, _, _⟩ | ⟨hd, _, _⟩
    · refine ⟨e, by rw [hreads, if_neg hnd, add_zero], by rw [hcalls, if_neg hdet, add_zero],
        ?_⟩
      rw [e]
      exact ⟨rfl, rfl, rfl, rfl, rfl, rfl, rfl, rfl, rfl⟩
    · exact absurd hd hnd
    · exact absurd hd hnd
  · rw [hreads]; split_ifs <;> omega
  · rw [hcalls]; split_ifs <;> omega

/-- Witness for C11: windows of 12 values and 32-bit time. After a tick that
stores `lastTime = 2^32 - 10`, a call at which `millis()` has wrapped around to
13 (23 ms later) is due, reads the sensor once, and stores its sample at the
positions 6 to 11. -/
theorem C11_loop_gated_by_unsigned_elapsed_witness :
    0 < example_config.EI_CLASSIFIER_DSP_INPUT_FRAME_SIZE ∧
      Reachable example_config
        (run example_config [example_tick 4294967286 1 (9 / 10)] example_start) ∧
      due example_config (example_tick 13 7 (9 / 10))
        (run example_config [example_tick 4294967286 1 (9 / 10)] example_start) ∧
      sensor_reads (loop example_config (example_tick 13 7 (9 / 10))
          (run example_config [example_tick 4294967286 1 (9 / 10)] example_start)).trace
        = sensor_reads
            (run example_config [example_tick 4294967286 1 (9 / 10)] example_start).trace
          + 1 ∧
      ∀ i, i < 6 →
        (run example_config [example_tick 4294967286 1 (9 / 10)] example_start).feature_ix + i
          < (run example_config [example_tick 4294967286 1 (9 / 10)]
              example_start).features.length →
        (loop example_config (example_tick 13 7 (9 / 10))
          (run example_config [example_tick 4294967286 1 (9 / 10)] example_start)).features[
            (run example_config [example_tick 4294967286 1 (9 / 10)]
              example_start).feature_ix + i]?
          = (sample_values (example_tick 13 7 (9 / 10)))[i]? :=
  ⟨by decide,
    ⟨true, false, example_start, [example_tick 4294967286 1 (9 / 10)], example_start_is_setup,
      rfl⟩,
    by decide,
    ((C11_loop_gated_by_unsigned_elapsed example_config (by decide)
      (run example_config [example_tick 4294967286 1 (9 / 10)] example_start)
      ⟨true, false, example_start, [example_tick 4294967286 1 (9 / 10)],
        example_start_is_setup, rfl⟩
      (example_tick 13 7 (9 / 10))).2.2.1 (by decide)).1,
    ((C11_loop_gated_by_unsigned_elapsed example_config (by decide)
      (run example_config [example_tick 4294967286 1 (9 / 10)] example_start)
      ⟨true, false, example_start, [example_tick 4294967286 1 (9 / 10)],
        example_start_is_setup, rfl⟩
      (example_tick 13 7 (9 / 10))).2.2.1 (by decide)).2.2.2.2.2.2.1⟩

/-- C12: the record step of `run_inference` (with `N = CONFIDENCE_SAMPLES = 5`)
stores the new confidence at the slot `confidence_index`, leaves every other
slot as it was, sets `confidence_index` to `(confidence_index + 1) mod N`, and
never clears `confidence_buffer_full`; a successful `run_inference` records with
exactly this step, and no call of `run_inference` or `loop()` clears the flag.
From a startup state (history all `0`, index `0`, not full), after `k`
successful windows: `confidence_index = k mod N`, `confidence_buffer_full` is
true if and only if `k ≥ N`, and for `k ≥ 1` the slot `(k - 1) mod N` holds the
confidence of the `k`-th window. -/
theorem C12_record_step_and_index (cfg : Config) (s0 : State)
    (h_hist : s0.confidence_history = List.replicate CONFIDENCE_SAMPLES 0)
    (h_idx : s0.confidence_index = 0) (h_full : s0.confidence_buffer_full = false)
    (results : List ei_impulse_result_t) :
    (∀ (c : ℚ) (t : State),
      (record_confidence c t).confidence_history = t.confidence_history.set t.confidence_index c ∧
      (t.confidence_index < t.confidence_history.length →
        (record_confidence c t).confidence_history[t.confidence_index]? = some c) ∧
      (∀ j, j ≠ t.confidence_index →
        (record_confidence c t).confidence_history[j]? = t.confidence_history[j]?) ∧
      (record_confidence c t).confidence_history.length = t.confidence_history.length ∧
      (record_confidence c t).confidence_index
        = (t.confidence_index + 1) % CONFIDENCE_SAMPLES ∧
      (t.confidence_buffer_full = true →
        (record_confidence c t).confidence_buffer_full = true)) ∧
    (∀ (rc : Classifier) (t : State),
      (classifier_output cfg rc t).1 = cfg.EI_IMPULSE_OK →
      (run_inference cfg rc t).confidence_history
        = (record_confidence (seizure_confidence cfg (classifier_output cfg rc t).2)
            t).confidence_history ∧
      (run_inference cfg rc t).confidence_index
        = (record_confidence (seizure_confidence cfg (classifier_output cfg rc t).2)
            t).confidence_index ∧
      (run_inference cfg rc t).confidence_buffer_full
        = (record_confidence (seizure_confidence cfg (classifier_output cfg rc t).2)
            t).confidence_buffer_full) ∧
    (∀ (rc : Classifier) (t : State), t.confidence_buffer_full = true →
      (run_inference cfg rc t).confidence_buffer_full = true) ∧
    (∀ (env : LoopEnv) (t : State), t.confidence_buffer_full = true →
      (loop cfg env t).confidence_buffer_full = true) ∧
    (windows cfg results s0).confidence_index = results.length % CONFIDENCE_SAMPLES ∧
    ((windows cfg results s0).confidence_buffer_full = true ↔
      CONFIDENCE_SAMPLES ≤ results.length) ∧
    (∀ hne : results ≠ [],
      (windows cfg results s0).confidence_history[(results.length - 1) % CONFIDENCE_SAMPLES]?
        = some (seizure_confidence cfg (results.getLast hne))) := by
  have hmono : ∀ (rc : Classifier) (t : State), t.confidence_buffer_full = true →
      (run_inference cfg rc t).confidence_buffer_full = true := by
    intro rc t ht
    by_cases hok : (classifier_output cfg rc t).1 = cfg.EI_IMPULSE_OK
    · rw [(run_inference_ok_fields cfg rc t hok).2.2.1, ht]; rfl
    · rw [run_inference_err cfg rc t hok]; exact ht
  obtain ⟨i1, i2, _, _⟩ := windows_history cfg s0 h_hist h_idx h_full results
  refine ⟨?_, ?_, hmono, ?_, ?_, ?_, ?_⟩
  · intro c t
    rw [record_confidence_history, record_confidence_index, record_confidence_full]
    refine ⟨rfl, ?_, ?_, ?_, rfl, ?_⟩
    · intro hlt
      simp [List.getElem?_set, hlt]
    · intro j hj
      simp [List.getElem?_set, Ne.symm hj]
    · simp
    · intro ht
      rw [ht]; rfl
  · intro rc t hok
    obtain ⟨f1, f2, f3, _⟩ := run_inference_ok_fields cfg rc t hok
    rw [f1, f2, f3, record_confidence_history, record_confidence_index, record_confidence_full]
    exact ⟨rfl, rfl, rfl⟩
  · intro env t ht
    obtain ⟨_, _, _, _, _, _, a7, _⟩ := at_full_test_rest cfg env t
    rcases loop_cases cfg env t with ⟨_, e⟩ | ⟨_, _, e⟩ | ⟨_, _, e⟩
    · rw [e]; exact ht
    · rw [e]; exact a7.trans ht
    · rw [e]; exact hmono env.run_classifier _ (a7.trans ht)
  · rw [i1]; rfl
  · rw [i2]; simp [CONFIDENCE_SAMPLES]
  · intro hne
    obtain ⟨j1, _, j3, _⟩ := windows_history cfg s0 h_hist h_idx h_full results.dropLast
    have hsplit := List.dropLast_append_getLast hne
    have hlen : results.length - 1 = results.dropLast.length := by
      rw [List.length_dropLast]
    have hf := (run_inference_ok_fields cfg (ok_classifier cfg (results.getLast hne))
      (windows cfg results.dropLast s0) rfl).1
    rw [ok_classifier_output, ← windows_snoc, hsplit] at hf
    rw [hf, j1, hlen]
    simp only [List.getElem?_set, CONFIDENCE_SAMPLES, if_true, j3]
    rw [if_pos (Nat.mod_lt _ (by norm_num))]

/-- Witness for C12: five windows with confidence `9/10` after `setup()`. -/
theorem C12_record_step_and_index_witness :
    (windows example_config example_high_windows example_start).confidence_index
      = example_high_windows.length % CONFIDENCE_SAMPLES :=
  (C12_record_step_and_index example_config example_start rfl rfl rfl
    example_high_windows).2.2.2.2.1

/-- C13: on a call of `loop()` that detects the window as full, the write index
is `0` when the call returns, whatever `run_inference` got from the classifier:
the call is `run_inference` on the full window followed by the reset. When the
classifier returned an error, the confidence history with its index and flag
and the alert state are as before the call, so that window is discarded. With
`FRAME_SIZE` a positive multiple of 6, the classifier is then not invoked
during the next `FRAME_SIZE / 6 - 1` due ticks and is invoked again, once, on
the due tick number `FRAME_SIZE / 6`, which detects the next window as full. -/
theorem C13_index_reset_also_on_error (cfg : Config)
    (hdiv : 6 ∣ cfg.EI_CLASSIFIER_DSP_INPUT_FRAME_SIZE)
    (s : State) (env0 : LoopEnv) (hfull : detects_full cfg env0 s)
    (envs : List LoopEnv) (env : LoopEnv)
    (hn : envs.length + 1 = cfg.EI_CLASSIFIER_DSP_INPUT_FRAME_SIZE / 6)
    (hdue : all_due cfg (envs ++ [env]) (loop cfg env0 s)) :
    (loop cfg env0 s).feature_ix = 0 ∧
    loop cfg env0 s
      = emit (Event.delay 1)
          { run_inference cfg env0.run_classifier (at_full_test cfg env0 s) with
            feature_ix := 0
            lastTime := env0.millis_last % 2 ^ cfg.ULONG_BITS } ∧
    classifier_calls (loop cfg env0 s).trace = classifier_calls s.trace + 1 ∧
    ((classifier_output cfg env0.run_classifier (at_full_test cfg env0 s)).1
        ≠ cfg.EI_IMPULSE_OK →
      (loop cfg env0 s).confidence_history = s.confidence_history ∧
      (loop cfg env0 s).confidence_index = s.confidence_index ∧
      (loop cfg env0 s).confidence_buffer_full = s.confidence_buffer_full ∧
      (loop cfg env0 s).alert_active = s.alert_active) ∧
    (∀ k, k ≤ envs.length →
      classifier_calls (run cfg (envs.take k) (loop cfg env0 s)).trace
        = classifier_calls (loop cfg env0 s).trace ∧
      (run cfg (envs.take k) (loop cfg env0 s)).feature_ix = k * 6) ∧
    detects_full cfg env (run cfg envs (loop cfg env0 s)) ∧
    classifier_calls (run cfg (envs ++ [env]) (loop cfg env0 s)).trace
      = classifier_calls (loop cfg env0 s).trace + 1 ∧
    (run cfg (envs ++ [env]) (loop cfg env0 s)).feature_ix = 0 := by
  have hfs : cfg.EI_CLASSIFIER_DSP_INPUT_FRAME_SIZE = (envs.length + 1) * 6 := by
    rw [hn]; exact (Nat.div_mul_cancel hdiv).symm
  have hreset := loop_full_reset cfg env0 s hfull
  have h0 : (loop cfg env0 s).feature_ix = 0 := by rw [hreset]; rfl
  obtain ⟨hd1, hd2, _⟩ := (all_due_append cfg envs [env] _).mp hdue
  obtain ⟨i1, i2⟩ := run_due_calls cfg _ h0 envs (by omega) hd1
  have hlt : (run cfg envs (loop cfg env0 s)).feature_ix
      < cfg.EI_CLASSIFIER_DSP_INPUT_FRAME_SIZE := by rw [i1]; omega
  obtain ⟨a1, _⟩ := at_full_test_lt cfg env (run cfg envs (loop cfg env0 s)) hlt
  have hdet : detects_full cfg env (run cfg envs (loop cfg env0 s)) := by
    refine ⟨hd2, ?_⟩
    rw [a1, i1]
    show cfg.EI_CLASSIFIER_DSP_INPUT_FRAME_SIZE ≤ _
    omega
  refine ⟨h0, hreset, ?_, ?_, ?_, hdet, ?_, ?_⟩
  · rw [loop_classifier_calls, if_pos hfull]
  · intro herr
    obtain ⟨_, _, a3, _, a5, a6, a7, _⟩ := at_full_test_rest cfg env0 s
    rw [hreset, run_inference_err cfg _ _ herr]
    exact ⟨a5, a6, a7, a3⟩
  · intro k hk
    have hlen : (envs.take k).length = k := by rw [List.length_take]; omega
    obtain ⟨j1, j2⟩ := run_due_calls cfg _ h0 (envs.take k) (by rw [hlen]; omega)
      (all_due_take cfg envs _ k hd1)
    rw [hlen] at j1
    exact ⟨j2, j1⟩
  · rw [run_snoc, loop_classifier_calls, if_pos hdet, i2]
  · rw [run_snoc, loop_full_reset cfg env _ hdet]
    rfl

/-- Witness for C13: windows of 12 values; the second due tick after `setup()`
fills the window, its classifier fails, and two further due ticks follow. -/
theorem C13_index_reset_also_on_error_witness :
    6 ∣ example_config.EI_CLASSIFIER_DSP_INPUT_FRAME_SIZE ∧
      detects_full example_config
        { example_tick 46 7 0 with run_classifier := failing_classifier }
        (loop example_config (example_tick 23 1 0) example_start) ∧
      (loop example_config { example_tick 46 7 0 with run_classifier := failing_classifier }
        (loop example_config (example_tick 23 1 0) example_start)).feature_ix = 0 :=
  ⟨by decide, by decide,
    (C13_index_reset_also_on_error example_config (by decide)
      (loop example_config (example_tick 23 1 0) example_start)
      { example_tick 46 7 0 with run_classifier := failing_classifier } (by decide)
      [example_tick 69 1 0] (example_tick 92 7 0) (by decide)
      ⟨by decide, by decide, trivial⟩).1⟩

/-- C14: in every state reached from power-on by a completed `setup()` followed
by any number of calls of `loop()` (any clock and sensor values, any classifier
results, errors included), `alert_active` is true if and only if
`calculate_average_confidence` on the current history is above
`seizure_threshold`, which is `0.7`. In particular an active alert implies
`confidence_buffer_full`, and at least `N = 5` windows have then been classified
successfully. -/
theorem C14_alert_iff_average_above (cfg : Config) (s : State) (h : Reachable cfg s) :
    (s.alert_active = true ↔ calculate_average_confidence s > s.seizure_threshold) ∧
    s.seizure_threshold = 7 / 10 ∧
    (s.alert_active = true → s.confidence_buffer_full = true) ∧
    (s.alert_active = true → CONFIDENCE_SAMPLES ≤ successful_windows s.trace) := by
  obtain ⟨_, h2, h3, h4, h5⟩ := reachable_history_inv cfg s h
  have hfull : s.alert_active = true → s.confidence_buffer_full = true := by
    intro hact
    by_contra hnf
    have hz := average_of_not_full s (by rw [h2]; exact Nat.mod_lt _ (by norm_num))
      (by simpa using hnf)
    rw [h5, hz] at hact
    norm_num at hact
  refine ⟨?_, h4, hfull, ?_⟩
  · rw [h5, h4]; simp
  · intro hact
    have := hfull hact
    rw [h3] at this
    simpa [CONFIDENCE_SAMPLES] using this

/-- Witness for C14: the state right after `setup()`. -/
theorem C14_alert_iff_average_above_witness :
    Reachable example_config example_start ∧
      (example_start.alert_active = true ↔
        calculate_average_confidence example_start > example_start.seizure_threshold) :=
  ⟨example_start_reachable,
    (C14_alert_iff_average_above example_config example_start example_start_reachable).1⟩

/-- C15: the confidence that a successful `run_inference` records is
`seizure_confidence` of the classification result: it is stored at the slot
`confidence_index`. Its value is that of the last entry with index below
`EI_CLASSIFIER_LABEL_COUNT` whose label is exactly `seizure`, and `0` when no
such entry has that label. Hence, from power-on and a completed `setup()`,
through any calls of `loop()` whose classifiers never report the label
`seizure` (whether they succeed or fail): the history holds zeros only, every
average computed is `0`, the alert state is `IDLE` throughout, and
`trigger_alert` is never called nor a pin written `HIGH`. -/
theorem C15_seizure_label_confidence (cfg : Config) :
    (∀ (rc : Classifier) (t : State), (classifier_output cfg rc t).1 = cfg.EI_IMPULSE_OK →
      (run_inference cfg rc t).confidence_history
        = t.confidence_history.set t.confidence_index
            (seizure_confidence cfg (classifier_output cfg rc t).2)) ∧
    (∀ (result : ei_impulse_result_t) (ix : Nat), ix < cfg.EI_CLASSIFIER_LABEL_COUNT →
      (result.classification.getD ix ⟨"", 0⟩).label = "seizure" →
      (∀ j, ix < j → j < cfg.EI_CLASSIFIER_LABEL_COUNT →
        (result.classification.getD j ⟨"", 0⟩).label ≠ "seizure") →
      seizure_confidence cfg result = (result.classification.getD ix ⟨"", 0⟩).value) ∧
    (∀ result : ei_impulse_result_t, no_seizure_label cfg result →
      seizure_confidence cfg result = 0) ∧
    (∀ (alert_level buzzer_level : Bool) (s0 : State) (envs : List LoopEnv),
      setup true (power_on cfg alert_level buzzer_level) = some s0 →
      (∀ env ∈ envs, never_seizure cfg env.run_classifier) →
      (run cfg envs s0).alert_active = false ∧
      (run cfg envs s0).confidence_history = List.replicate CONFIDENCE_SAMPLES 0 ∧
      (∀ avg ∈ averages (run cfg envs s0).trace, avg = 0) ∧
      calculate_average_confidence (run cfg envs s0) = 0 ∧
      trigger_alert_calls (run cfg envs s0).trace = 0 ∧
      pin_writes ALERT_PIN HIGH (run cfg envs s0).trace = 0 ∧
      pin_writes BUZZER_PIN HIGH (run cfg envs s0).trace = 0) := by
  refine ⟨fun rc t hok => (run_inference_ok_fields cfg rc t hok).1,
    fun result ix hix hl hlast =>
      label_fold_last result cfg.EI_CLASSIFIER_LABEL_COUNT ix hix hl hlast,
    fun result h => seizure_confidence_none cfg result h, ?_⟩
  intro a b s0 envs hsetup hrc
  obtain ⟨h1, h2, _, h4, h5, h6, h7⟩ := run_calm cfg envs s0 hrc (setup_calm cfg a b s0 hsetup)
  exact ⟨h2, h1, h4, zero_history_average _ h1, h5, h6, h7⟩

/-- Witness for C15: two due ticks after `setup()` on windows of 12 values, the
second of which classifies a window without the label `seizure`. -/
theorem C15_seizure_label_confidence_witness :
    (run example_config [example_calm_tick 23, example_calm_tick 46]
      example_start).alert_active = false :=
  ((C15_seizure_label_confidence example_config).2.2.2 true false example_start
    [example_calm_tick 23, example_calm_tick 46] example_start_is_setup
    (by
      intro env henv
      simp only [List.mem_cons, List.mem_singleton, List.mem_nil_iff, or_false] at henv
      rcases henv with rfl | rfl <;> exact example_calm_never_seizure _)).1

/-- C16: in every reachable state `confidence_index` is below
`CONFIDENCE_SAMPLES` (it is a natural number here, so `0 ≤` holds by type) and
the history has `CONFIDENCE_SAMPLES` slots, also at the moment of the write
`confidence_history[confidence_index]` in the next call of `loop()`, which is
therefore in bounds. On the state on which `run_inference` calls
`calculate_average_confidence` (the state after the record step) the index is
below `CONFIDENCE_SAMPLES`, and whenever the early return is not taken
`confidence_buffer_full` is true and `samples_to_use` is `CONFIDENCE_SAMPLES = 5`:
the divisor is not zero and `samples_to_use = confidence_index` does not
occur. The same holds on every reachable state. -/
theorem C16_index_in_bounds_no_partial_average (cfg : Config) (s : State)
    (h : Reachable cfg s) :
    s.confidence_index < CONFIDENCE_SAMPLES ∧
    s.confidence_history.length = CONFIDENCE_SAMPLES ∧
    (∀ env : LoopEnv,
      (at_full_test cfg env s).confidence_index
        < (at_full_test cfg env s).confidence_history.length) ∧
    (∀ (c : ℚ) (t : State),
      (record_confidence c t).confidence_index < CONFIDENCE_SAMPLES ∧
      (early_return (record_confidence c t) = false →
        (record_confidence c t).confidence_buffer_full = true ∧
        samples_to_use (record_confidence c t) = CONFIDENCE_SAMPLES ∧
        samples_to_use (record_confidence c t) ≠ 0 ∧
        samples_to_use (record_confidence c t) ≠ (record_confidence c t).confidence_index ∧
        calculate_average_confidence (record_confidence c t)
          = history_sum (record_confidence c t) / 5)) ∧
    (early_return s = false →
      s.confidence_buffer_full = true ∧ samples_to_use s = CONFIDENCE_SAMPLES) := by
  obtain ⟨h1, h2, _, _, _⟩ := reachable_history_inv cfg s h
  have hi : s.confidence_index < CONFIDENCE_SAMPLES := by
    rw [h2]; exact Nat.mod_lt _ (by norm_num [CONFIDENCE_SAMPLES])
  refine ⟨hi, h1, ?_, ?_, past_early_return s hi⟩
  · intro env
    obtain ⟨_, _, _, _, a5, a6, _⟩ := at_full_test_rest cfg env s
    rw [a5, a6, h1]
    exact hi
  · intro c t
    have hti : (record_confidence c t).confidence_index < CONFIDENCE_SAMPLES := by
      rw [record_confidence_index]; exact Nat.mod_lt _ (by norm_num [CONFIDENCE_SAMPLES])
    refine ⟨hti, ?_⟩
    intro he
    obtain ⟨p1, p2⟩ := past_early_return _ hti he
    refine ⟨p1, p2, by rw [p2]; norm_num [CONFIDENCE_SAMPLES], ?_, ?_⟩
    · rw [p2]; exact Nat.ne_of_gt hti
    · rw [calculate_average_confidence_eq, he, p2]
      simp [CONFIDENCE_SAMPLES]

/-- Witness for C16: the state right after `setup()`. -/
theorem C16_index_in_bounds_no_partial_average_witness :
    Reachable example_config example_start ∧
      example_start.confidence_index < CONFIDENCE_SAMPLES :=
  ⟨example_start_reachable,
    (C16_index_in_bounds_no_partial_average example_config example_start
      example_start_reachable).1⟩

end EpiWatch
